import Mathlib

/-!
# QGCCameraManager: camera discovery, liveness sweep, dispatch and selection

Shallow embedding of `src/Camera/QGCCameraManager.cc`.

Conventions of the embedding.

* Time is an integer number of milliseconds.  A `QElapsedTimer`/`QTime` member is
  represented by the instant at which `start()` was last called, and `elapsed()` at
  instant `now` is `now - start`.  Every handler that reads a clock takes `now`.
* `_cameraInfoRequest` is the associative container (`contains`, `operator[]`,
  `count`, `remove`) from component id to `CameraStruct*`.  A null pointer is `none`.
  As in Qt, `operator[]` on a missing key inserts a default constructed (null) value;
  line 115 of the source relies on this to add a record.
* Component ids come from `message.compid` (`uint8_t`) or from the loop counter of the
  sweep, so they are natural numbers.
* Signals (`emit`) and `sendMavCommand` calls are appended to logs kept in the state.
* A member access through a null pointer or a list access outside the list stops the
  run (`Run.halt`).
-/

namespace QGC

/-! ## Results of running a handler -/

/-- Reasons for which a handler does not produce a next state. -/
inductive Halt where
  /-- a member is accessed through a null pointer -/
  | nullDereference
  /-- a list is indexed outside its bounds -/
  | indexOutOfRange
  /-- the iteration budget given to the sweep loop of the model is used up -/
  | fuelExhausted
  deriving DecidableEq, Repr

/-- Outcome of a handler: a value, or the reason it stopped. -/
inductive Run (α : Type) where
  | ok (a : α)
  | halt (h : Halt)
  deriving DecidableEq, Repr

/-! ## Collaborators -/

/-- Message kinds distinguished by the `switch` of `_mavlinkMessageReceived`
(the `MAVLINK_MSG_ID_*` constants); every other id is `OTHER`. -/
inductive MsgId where
  | CAMERA_CAPTURE_STATUS
  | STORAGE_INFORMATION
  | HEARTBEAT
  | CAMERA_INFORMATION
  | CAMERA_SETTINGS
  | PARAM_EXT_ACK
  | PARAM_EXT_VALUE
  | VIDEO_STREAM_INFORMATION
  | VIDEO_STREAM_STATUS
  | OTHER (id : Nat)
  deriving DecidableEq, Repr

/-- The fields of `mavlink_message_t` the manager reads; `payload` stands for the bytes
the `mavlink_msg_*_decode` functions turn into a typed structure. -/
structure mavlink_message_t where
  sysid : Nat
  compid : Nat
  msgid : MsgId
  payload : List Nat
  deriving DecidableEq, Repr

/-- Modelled from the spec: class `QGCCameraControl` (the Camera Instance) is declared
outside the source file.  It is identified by its component id, exposes a display label
(`modelName`), `autoStream`, and stream-count/selection accessors; its `handle*` methods
receive already decoded structures, recorded here in `handled`, and `stepZoom` receives a
direction, recorded in `zoomSteps`. -/
structure QGCCameraControl where
  compID : Nat
  modelName : String
  autoStream : Bool
  currentStream : Int
  streamCount : Int
  zoomSteps : List Int
  handled : List (MsgId × List Nat)
  deriving DecidableEq, Repr

/-- The call `pCamera->handleXxx(decoded)` of the dispatch handlers. -/
def QGCCameraControl.handle (c : QGCCameraControl) (kind : MsgId) (payload : List Nat) :
    QGCCameraControl :=
  { c with handled := c.handled ++ [(kind, payload)] }

/-- The call `pCamera->stepZoom(direction)`. -/
def QGCCameraControl.stepZoom (c : QGCCameraControl) (direction : Int) : QGCCameraControl :=
  { c with zoomSteps := c.zoomSteps ++ [direction] }

/-- The call `pCamera->setCurrentStream(c)`. -/
def QGCCameraControl.setCurrentStream (c : QGCCameraControl) (stream : Int) :
    QGCCameraControl :=
  { c with currentStream := stream }

/-- What the manager uses of its `Vehicle`: `id()`, `defaultComponentId()` and the camera
factory `firmwarePlugin()->createCameraControl(&info, vehicle, compid, this)`, which may
return a null pointer (`none`). -/
structure Vehicle where
  id : Nat
  defaultComponentId : Nat
  createCameraControl : List Nat → Nat → Option QGCCameraControl

/-- The one command the manager sends: `sendMavCommand(compID,
MAV_CMD_REQUEST_CAMERA_INFORMATION, false, 1)`. -/
structure MavCommand where
  targetComponent : Nat
  showError : Bool
  param1 : Int
  deriving DecidableEq, Repr

/-- Signals of the manager. -/
inductive Signal where
  | camerasChanged
  | cameraLabelsChanged
  | currentCameraChanged
  | streamChanged
  deriving DecidableEq, Repr

/-! ## Data model -/

/-- Discovery record `QGCCameraManager::CameraStruct`. -/
structure CameraStruct where
  lastHeartbeat : Int
  infoReceived : Bool
  gaveUp : Bool
  tryCount : Int
  deriving DecidableEq, Repr

/-- Modelled from the spec: the default member initialisers of `CameraStruct` are in the
header, which is not part of the source file (the constructor body at lines 15-18 is
empty).  The data model of the spec gives a new record the state `Requesting`
(`infoReceived` and `gaveUp` false) and `tryCount = 1`; line 114 starts `lastHeartbeat`. -/
def CameraStruct.create (now : Int) : CameraStruct :=
  { lastHeartbeat := now, infoReceived := false, gaveUp := false, tryCount := 1 }

/-- The container type of `_cameraInfoRequest`: entries (key, pointer), one per key. -/
abbrev InfoMap := List (Nat × Option CameraStruct)

namespace InfoMap

/-- Lookup without insertion: `none` when the key is absent, `some none` for a null entry. -/
def find (m : InfoMap) (k : Nat) : Option (Option CameraStruct) :=
  match m with
  | [] => none
  | e :: rest => if e.1 = k then some e.2 else find rest k

/-- The method `contains(key)`. -/
def contains (m : InfoMap) (k : Nat) : Bool :=
  (find m k).isSome

/-- The method `count()`. -/
def count (m : InfoMap) : Nat :=
  m.length

/-- Reading `m[key]` on the non-const container: the value stored under `key`, after a
null entry has been inserted when the key was absent. -/
def subscript (m : InfoMap) (k : Nat) : InfoMap × Option CameraStruct :=
  match find m k with
  | some v => (m, v)
  | none => (m ++ [(k, none)], none)

/-- Writing `m[key] = value` (also used for a field update through the stored pointer). -/
def assign (m : InfoMap) (k : Nat) (v : Option CameraStruct) : InfoMap :=
  match m with
  | [] => [(k, v)]
  | e :: rest => if e.1 = k then (k, v) :: rest else e :: assign rest k v

/-- The method `remove(key)`. -/
def remove (m : InfoMap) (k : Nat) : InfoMap :=
  m.filter (fun e => e.1 ≠ k)

/-- Keys of the container. -/
def keys (m : InfoMap) : List Nat :=
  m.map Prod.fst

/-- A container holds at most one entry per key. -/
def WellFormed (m : InfoMap) : Prop :=
  (keys m).Nodup

end InfoMap

/-- Qt `indexOf`: position of the first element equal to `x`, or `-1`. -/
def qIndexOf {α : Type} [DecidableEq α] (l : List α) (x : α) : Int :=
  match l with
  | [] => -1
  | y :: ys => if y = x then 0 else (if qIndexOf ys x < 0 then -1 else qIndexOf ys x + 1)

/-- Qt `removeAt(i)` for `i >= 0`. -/
def qRemoveAt {α : Type} (l : List α) (i : Int) : List α :=
  l.eraseIdx i.toNat

/-- State of a `QGCCameraManager` object, with the logs of emitted signals and sent commands. -/
structure QGCCameraManager where
  _vehicleReadyState : Bool
  _activeJoystick : Option Nat
  _cameras : List QGCCameraControl
  _cameraLabels : List String
  _currentCamera : Int
  _lastZoomChange : Int
  _lastCameraChange : Int
  _cameraInfoRequest : InfoMap
  sent : List MavCommand
  emitted : List Signal
  deriving DecidableEq, Repr

/-- Modelled from the spec: the constructor (lines 21-33) starts both debounce timers; the
initial values of the other members are default member initialisers of the header, which
is not part of the source file.  The roster and the discovery records start empty, the
vehicle is not ready, and `_currentCamera` starts at `0`: the scenario of the spec has
`currentIndex == 0` right after the first discovery, and `_handleCameraInfo` does not
assign `_currentCamera`. -/
def QGCCameraManager.init (now : Int) : QGCCameraManager :=
  { _vehicleReadyState := false
    _activeJoystick := none
    _cameras := []
    _cameraLabels := []
    _currentCamera := 0
    _lastZoomChange := now
    _lastCameraChange := now
    _cameraInfoRequest := []
    sent := []
    emitted := [] }

/-! ## Operations -/

/-- `QGCCameraManager::setCurrentCamera` (lines 41-49). -/
def setCurrentCamera (sel : Int) (s : QGCCameraManager) : QGCCameraManager :=
  if sel ≠ s._currentCamera ∧ sel ≥ 0 ∧ sel < (s._cameras.length : Int) then
    { s with _currentCamera := sel
             emitted := s.emitted ++ [Signal.currentCameraChanged, Signal.streamChanged] }
  else s

/-- `QGCCameraManager::_activeJoystickChanged` (lines 352-367): the step slots are
connected to the given joystick only. -/
def _activeJoystickChanged (joystick : Option Nat) (s : QGCCameraManager) :
    QGCCameraManager :=
  { s with _activeJoystick := joystick }

/-- `QGCCameraManager::_vehicleReady` (lines 52-64); `isActive` is the test
`activeVehicle() == _vehicle`, `joystick` the active joystick of the joystick manager. -/
def _vehicleReady (ready : Bool) (isActive : Bool) (joystick : Option Nat)
    (s : QGCCameraManager) : QGCCameraManager :=
  if ready then
    if isActive then _activeJoystickChanged joystick { s with _vehicleReadyState := true }
    else s
  else s

/-- `QGCCameraManager::_requestCameraInfo` (lines 338-349); `_vehicle` is not null. -/
def _requestCameraInfo (compID : Nat) (s : QGCCameraManager) : QGCCameraManager :=
  { s with sent := s.sent ++ [{ targetComponent := compID, showError := false, param1 := 1 }] }

/-- `QGCCameraManager::_handleHeartbeat` (lines 104-141). -/
def _handleHeartbeat (v : Vehicle) (now : Int) (message : mavlink_message_t)
    (s : QGCCameraManager) : Run QGCCameraManager :=
  if s._vehicleReadyState = true ∧ v.id = message.sysid
      ∧ v.defaultComponentId ≠ message.compid then
    if ¬ (InfoMap.contains s._cameraInfoRequest message.compid = true) then
      let pInfo := CameraStruct.create now
      Run.ok (_requestCameraInfo message.compid
        { s with _cameraInfoRequest :=
                   InfoMap.assign s._cameraInfoRequest message.compid (some pInfo) })
    else
      match InfoMap.subscript s._cameraInfoRequest message.compid with
      | (_, none) => Run.halt Halt.nullDereference
      | (m, some r) =>
        if r.infoReceived = true then
          Run.ok { s with _cameraInfoRequest :=
                            InfoMap.assign m message.compid (some { r with lastHeartbeat := now }) }
        else if now - r.lastHeartbeat > 2000 then
          if r.tryCount > 3 then
            if ¬ (r.gaveUp = true) then
              Run.ok { s with _cameraInfoRequest :=
                                InfoMap.assign m message.compid (some { r with gaveUp := true }) }
            else Run.ok { s with _cameraInfoRequest := m }
          else
            Run.ok (_requestCameraInfo message.compid
              { s with _cameraInfoRequest :=
                         InfoMap.assign m message.compid
                           (some { r with tryCount := r.tryCount + 1 }) })
        else Run.ok { s with _cameraInfoRequest := m }
  else Run.ok s

/-- `QGCCameraManager::currentCameraInstance` (lines 144-152): `ok none` is the null
result; indexing `_cameras` with a negative index is out of range. -/
def currentCameraInstance (s : QGCCameraManager) : Run (Option QGCCameraControl) :=
  if s._currentCamera < (s._cameras.length : Int) ∧ s._cameras.length ≠ 0 then
    if s._currentCamera < 0 then Run.halt Halt.indexOutOfRange
    else Run.ok (s._cameras[s._currentCamera.toNat]?)
  else Run.ok none

/-- `QGCCameraManager::_findCamera` (lines 167-184): the first roster entry whose
`compID()` is `id`, or null. -/
def _findCamera (id : Nat) (s : QGCCameraManager) : Option QGCCameraControl :=
  s._cameras.find? (fun c => decide (c.compID = id))

/-- `QGCCameraManager::_handleCameraInfo` (lines 187-206). -/
def _handleCameraInfo (v : Vehicle) (message : mavlink_message_t) (s : QGCCameraManager) :
    Run QGCCameraManager :=
  if InfoMap.contains s._cameraInfoRequest message.compid = true then
    match InfoMap.subscript s._cameraInfoRequest message.compid with
    | (_, none) => Run.halt Halt.nullDereference
    | (m, some r) =>
      if ¬ (r.infoReceived = true) then
        let s1 := { s with _cameraInfoRequest :=
                             InfoMap.assign m message.compid
                               (some { r with infoReceived := true }) }
        match v.createCameraControl message.payload message.compid with
        | some pCamera =>
          Run.ok { s1 with _cameras := s1._cameras ++ [pCamera]
                           _cameraLabels := s1._cameraLabels ++ [pCamera.modelName]
                           emitted := s1.emitted ++
                             [Signal.camerasChanged, Signal.cameraLabelsChanged] }
        | none => Run.ok s1
      else Run.ok { s with _cameraInfoRequest := m }
  else Run.ok s

/-- Lines 220-246 of `_cameraTimeout`: removal of the camera of component `i`.  An object is
identified with its value, so the pointer returned by `_findCamera` designates the first
roster entry equal to it. -/
def evictCamera (i : Nat) (s : QGCCameraManager) : Run QGCCameraManager :=
  match _findCamera i s with
  | none => Run.halt Halt.nullDereference
  | some pCamera =>
    let idxLabel := qIndexOf s._cameraLabels pCamera.modelName
    let labels := if idxLabel ≥ 0 then qRemoveAt s._cameraLabels idxLabel else s._cameraLabels
    let idx := qIndexOf s._cameras pCamera
    let cameras := if idx ≥ 0 then qRemoveAt s._cameras idx else s._cameras
    let autoStream := pCamera.autoStream
    let s1 := { s with _cameraLabels := labels
                       _cameras := cameras
                       _cameraInfoRequest := InfoMap.remove s._cameraInfoRequest i
                       emitted := s.emitted ++ [Signal.cameraLabelsChanged] }
    if s1._cameras.length ≠ 0 then Run.ok (setCurrentCamera 0 s1)
    else
      Run.ok { s1 with emitted := s1.emitted ++ [Signal.camerasChanged] ++
                          (if autoStream = true then [Signal.streamChanged] else []) }

/-- The `for` loop of `_cameraTimeout` (lines 213-250) from counter value `i`, with an
iteration budget.  Each `_cameraInfoRequest[i]` goes through `InfoMap.subscript`. -/
def cameraTimeoutLoop (now : Int) : Nat → Nat → QGCCameraManager → Run QGCCameraManager
  | 0, i, s =>
    if i < InfoMap.count s._cameraInfoRequest then Run.halt Halt.fuelExhausted else Run.ok s
  | fuel + 1, i, s =>
    if i < InfoMap.count s._cameraInfoRequest then
      match InfoMap.subscript s._cameraInfoRequest i with
      | (m, none) => cameraTimeoutLoop now fuel (i + 1) { s with _cameraInfoRequest := m }
      | (m, some r) =>
        if r.infoReceived = true ∧ now - r.lastHeartbeat > 5000 then
          evictCamera i { s with _cameraInfoRequest := m }
        else cameraTimeoutLoop now fuel (i + 1) { s with _cameraInfoRequest := m }
    else Run.ok s

/-- Iteration budget for the sweep: one more than the largest key. -/
def sweepFuel (m : InfoMap) : Nat :=
  match m with
  | [] => 0
  | e :: rest => max (e.1 + 1) (sweepFuel rest)

/-- `QGCCameraManager::_cameraTimeout` (lines 209-251). -/
def _cameraTimeout (now : Int) (s : QGCCameraManager) : Run QGCCameraManager :=
  cameraTimeoutLoop now (sweepFuel s._cameraInfoRequest) 0 s

/-- Body shared by the seven dispatch handlers (lines 254-335): `_findCamera(message.compid)`
and, when a camera is found, the call of its `handle*` method for this kind of message
with the decoded payload.  The object the pointer designates is the first roster entry
equal to it. -/
def forwardToCamera (kind : MsgId) (message : mavlink_message_t) (s : QGCCameraManager) :
    QGCCameraManager :=
  match _findCamera message.compid s with
  | some pCamera =>
    { s with _cameras := s._cameras.replace pCamera (pCamera.handle kind message.payload) }
  | none => s

/-- `QGCCameraManager::_handleCaptureStatus` (lines 254-263). -/
def _handleCaptureStatus (message : mavlink_message_t) (s : QGCCameraManager) :
    QGCCameraManager :=
  forwardToCamera MsgId.CAMERA_CAPTURE_STATUS message s

/-- `QGCCameraManager::_handleStorageInfo` (lines 266-275). -/
def _handleStorageInfo (message : mavlink_message_t) (s : QGCCameraManager) :
    QGCCameraManager :=
  forwardToCamera MsgId.STORAGE_INFORMATION message s

/-- `QGCCameraManager::_handleCameraSettings` (lines 278-287). -/
def _handleCameraSettings (message : mavlink_message_t) (s : QGCCameraManager) :
    QGCCameraManager :=
  forwardToCamera MsgId.CAMERA_SETTINGS message s

/-- `QGCCameraManager::_handleParamAck` (lines 290-299). -/
def _handleParamAck (message : mavlink_message_t) (s : QGCCameraManager) :
    QGCCameraManager :=
  forwardToCamera MsgId.PARAM_EXT_ACK message s

/-- `QGCCameraManager::_handleParamValue` (lines 302-311). -/
def _handleParamValue (message : mavlink_message_t) (s : QGCCameraManager) :
    QGCCameraManager :=
  forwardToCamera MsgId.PARAM_EXT_VALUE message s

/-- `QGCCameraManager::_handleVideoStreamInfo` (lines 314-323). -/
def _handleVideoStreamInfo (message : mavlink_message_t) (s : QGCCameraManager) :
    QGCCameraManager :=
  forwardToCamera MsgId.VIDEO_STREAM_INFORMATION message s

/-- `QGCCameraManager::_handleVideoStreamStatus` (lines 326-335). -/
def _handleVideoStreamStatus (message : mavlink_message_t) (s : QGCCameraManager) :
    QGCCameraManager :=
  forwardToCamera MsgId.VIDEO_STREAM_STATUS message s

/-- `QGCCameraManager::_mavlinkMessageReceived` (lines 67-101). -/
def _mavlinkMessageReceived (v : Vehicle) (now : Int) (message : mavlink_message_t)
    (s : QGCCameraManager) : Run QGCCameraManager :=
  if message.sysid = v.id then
    match message.msgid with
    | MsgId.CAMERA_CAPTURE_STATUS => Run.ok (_handleCaptureStatus message s)
    | MsgId.STORAGE_INFORMATION => Run.ok (_handleStorageInfo message s)
    | MsgId.HEARTBEAT => _handleHeartbeat v now message s
    | MsgId.CAMERA_INFORMATION => _handleCameraInfo v message s
    | MsgId.CAMERA_SETTINGS => Run.ok (_handleCameraSettings message s)
    | MsgId.PARAM_EXT_ACK => Run.ok (_handleParamAck message s)
    | MsgId.PARAM_EXT_VALUE => Run.ok (_handleParamValue message s)
    | MsgId.VIDEO_STREAM_INFORMATION => Run.ok (_handleVideoStreamInfo message s)
    | MsgId.VIDEO_STREAM_STATUS => Run.ok (_handleVideoStreamStatus message s)
    | MsgId.OTHER _ => Run.ok s
  else Run.ok s

/-- `QGCCameraManager::_stepZoom` (lines 370-381). -/
def _stepZoom (now : Int) (direction : Int) (s : QGCCameraManager) : Run QGCCameraManager :=
  if now - s._lastZoomChange > 250 then
    let s1 := { s with _lastZoomChange := now }
    match currentCameraInstance s1 with
    | Run.halt h => Run.halt h
    | Run.ok none => Run.ok s1
    | Run.ok (some pCamera) =>
      Run.ok { s1 with _cameras :=
                         s1._cameras.set s1._currentCamera.toNat (pCamera.stepZoom direction) }
  else Run.ok s

/-- The index computed at lines 390-392 of `_stepCamera`. -/
def stepCameraIndex (currentCamera : Int) (direction : Int) (count : Int) : Int :=
  let c := currentCamera + direction
  let c := if c < 0 then count - 1 else c
  if c ≥ count then 0 else c

/-- `QGCCameraManager::_stepCamera` (lines 384-395). -/
def _stepCamera (now : Int) (direction : Int) (s : QGCCameraManager) : QGCCameraManager :=
  if now - s._lastCameraChange > 1000 then
    let s1 := { s with _lastCameraChange := now }
    setCurrentCamera (stepCameraIndex s1._currentCamera direction s1._cameras.length) s1
  else s

/-- `QGCCameraManager::_stepStream` (lines 398-412). -/
def _stepStream (now : Int) (direction : Int) (s : QGCCameraManager) : Run QGCCameraManager :=
  if now - s._lastCameraChange > 1000 then
    let s1 := { s with _lastCameraChange := now }
    match currentCameraInstance s1 with
    | Run.halt h => Run.halt h
    | Run.ok none => Run.ok s1
    | Run.ok (some pCamera) =>
      let c := stepCameraIndex pCamera.currentStream direction pCamera.streamCount
      Run.ok { s1 with _cameras :=
                         s1._cameras.set s1._currentCamera.toNat (pCamera.setCurrentStream c) }
  else Run.ok s

/-! ## Event sequences -/

/-- Events delivered to the manager by its host. -/
inductive Event where
  /-- signal `Vehicle::mavlinkMessageReceived` at instant `now` -/
  | mavlinkMessage (now : Int) (message : mavlink_message_t)
  /-- timeout of `_cameraTimer` (the sweep tick) at instant `now` -/
  | cameraTimeout (now : Int)
  /-- call of `setCurrentCamera` -/
  | setCurrentCamera (sel : Int)
  /-- joystick signals -/
  | stepZoom (now : Int) (direction : Int)
  | stepCamera (now : Int) (direction : Int)
  | stepStream (now : Int) (direction : Int)
  /-- signal `parameterReadyVehicleAvailableChanged` -/
  | vehicleReady (ready : Bool) (isActive : Bool) (joystick : Option Nat)
  deriving DecidableEq, Repr

/-- Reaction of the manager to one event. -/
def step (v : Vehicle) (e : Event) (s : QGCCameraManager) : Run QGCCameraManager :=
  match e with
  | Event.mavlinkMessage now message => _mavlinkMessageReceived v now message s
  | Event.cameraTimeout now => _cameraTimeout now s
  | Event.setCurrentCamera sel => Run.ok (setCurrentCamera sel s)
  | Event.stepZoom now direction => _stepZoom now direction s
  | Event.stepCamera now direction => Run.ok (_stepCamera now direction s)
  | Event.stepStream now direction => _stepStream now direction s
  | Event.vehicleReady ready isActive joystick => Run.ok (_vehicleReady ready isActive joystick s)

/-- Reaction to a sequence of events, in delivery order; the run stops at the first event
whose handler stops. -/
def run (v : Vehicle) (events : List Event) (s : QGCCameraManager) : Run QGCCameraManager :=
  match events with
  | [] => Run.ok s
  | e :: rest =>
    match step v e s with
    | Run.ok s1 => run v rest s1
    | Run.halt h => Run.halt h

/-- States reached from a freshly constructed manager. -/
def Reachable (v : Vehicle) (s : QGCCameraManager) : Prop :=
  ∃ (t0 : Int) (events : List Event), run v events (QGCCameraManager.init t0) = Run.ok s

/-! ## Test fixtures -/

/-- A camera object as a factory builds it for component `compid` with the given model. -/
def mkCamera (compid : Nat) (model : String) : QGCCameraControl :=
  { compID := compid, modelName := model, autoStream := false, currentStream := 0,
    streamCount := 1, zoomSteps := [], handled := [] }

/-- A vehicle with system id 1 and default component 1 whose factory accepts every info
payload except the empty one and names the camera after the component id. -/
def testVehicle : Vehicle :=
  { id := 1
    defaultComponentId := 1
    createCameraControl := fun payload compid =>
      if payload = [] then none else some (mkCamera compid (toString compid)) }

/-- A heartbeat from component `compid` of the test vehicle. -/
def heartbeatFrom (compid : Nat) : mavlink_message_t :=
  { sysid := 1, compid := compid, msgid := MsgId.HEARTBEAT, payload := [] }

/-- An info reply from component `compid` of the test vehicle, with the given payload. -/
def infoFrom (compid : Nat) (payload : List Nat) : mavlink_message_t :=
  { sysid := 1, compid := compid, msgid := MsgId.CAMERA_INFORMATION, payload := payload }

/-- A freshly constructed manager whose vehicle has become ready. -/
def readyManager : QGCCameraManager :=
  _vehicleReady true true none (QGCCameraManager.init 0)

/-- A roster of three cameras (components 10, 11, 12) with the first one selected. -/
def threeCameras : QGCCameraManager :=
  { QGCCameraManager.init 0 with
    _cameras := [mkCamera 10 "A", mkCamera 11 "B", mkCamera 12 "C"]
    _cameraLabels := ["A", "B", "C"] }

/-- The camera-scoped message kinds: capture status, storage info, settings, parameter
ack/value, stream info and stream status. -/
def MsgId.cameraScoped : MsgId → Bool
  | MsgId.CAMERA_CAPTURE_STATUS => true
  | MsgId.STORAGE_INFORMATION => true
  | MsgId.CAMERA_SETTINGS => true
  | MsgId.PARAM_EXT_ACK => true
  | MsgId.PARAM_EXT_VALUE => true
  | MsgId.VIDEO_STREAM_INFORMATION => true
  | MsgId.VIDEO_STREAM_STATUS => true
  | _ => false

/-- A capture-status message from component `compid` of the test vehicle. -/
def captureStatusFrom (compid : Nat) (payload : List Nat) : mavlink_message_t :=
  { sysid := 1, compid := compid, msgid := MsgId.CAMERA_CAPTURE_STATUS, payload := payload }

/-- The ready manager after a first heartbeat from component 7 at instant 0: one record,
waiting for info, and one info request sent. -/
def awaitingInfo7 : QGCCameraManager :=
  { readyManager with
    _cameraInfoRequest := [(7, some (CameraStruct.create 0))]
    sent := [{ targetComponent := 7, showError := false, param1 := 1 }] }

/-- Entries appended by the sweep when it reads missing keys: null entries under distinct
keys that the container `m` does not hold. -/
def NullPad (m pad : InfoMap) : Prop :=
  (∀ e ∈ pad, e.2 = none) ∧ (InfoMap.keys pad).Nodup
    ∧ ∀ e ∈ pad, InfoMap.find m e.1 = none

/-- A record of a confirmed camera whose last heartbeat is more than 5000 ms old. -/
def StaleConfirmed (now : Int) (r : CameraStruct) : Prop :=
  r.infoReceived = true ∧ now - r.lastHeartbeat > 5000

/-- Events that confirm the cameras of components 2 and 3 shortly after instant 0. -/
def confirmTwoEvents : List Event :=
  [Event.vehicleReady true true none,
   Event.mavlinkMessage 0 (heartbeatFrom 2),
   Event.mavlinkMessage 0 (heartbeatFrom 3),
   Event.mavlinkMessage 100 (infoFrom 2 [1]),
   Event.mavlinkMessage 100 (infoFrom 3 [1])]

/-- The state reached by `confirmTwoEvents`: two confirmed cameras, both last heard of at
instant 0. -/
def twoConfirmed : QGCCameraManager :=
  { readyManager with
    _cameras := [mkCamera 2 "2", mkCamera 3 "3"]
    _cameraLabels := ["2", "3"]
    _cameraInfoRequest :=
      [(2, some { lastHeartbeat := 0, infoReceived := true, gaveUp := false, tryCount := 1 }),
       (3, some { lastHeartbeat := 0, infoReceived := true, gaveUp := false, tryCount := 1 })]
    sent := [{ targetComponent := 2, showError := false, param1 := 1 },
             { targetComponent := 3, showError := false, param1 := 1 }]
    emitted := [Signal.camerasChanged, Signal.cameraLabelsChanged,
                Signal.camerasChanged, Signal.cameraLabelsChanged] }

/-- The state `twoConfirmed` after the sweep tick at instant 6000. -/
def twoConfirmedSwept : QGCCameraManager :=
  { twoConfirmed with
    _cameras := [mkCamera 3 "3"]
    _cameraLabels := ["3"]
    _cameraInfoRequest :=
      [(3, some { lastHeartbeat := 0, infoReceived := true, gaveUp := false, tryCount := 1 }),
       (0, none), (1, none)]
    emitted := twoConfirmed.emitted ++ [Signal.cameraLabelsChanged] }

/-- The range in which the code keeps `_currentCamera`: never negative, below the roster
length when the roster is not empty, and `0` when it is empty. -/
def SelectionInRange (s : QGCCameraManager) : Prop :=
  0 ≤ s._currentCamera ∧ (s._currentCamera < (s._cameras.length : Int) ∨ s._currentCamera = 0)

/-- Two cameras are confirmed, the second one is selected, and two sweep ticks then evict
both. -/
def evictAllEvents : List Event :=
  confirmTwoEvents ++
    [Event.setCurrentCamera 1, Event.cameraTimeout 6000, Event.cameraTimeout 6500]

/-- The state reached by `evictAllEvents`. -/
def allEvicted : QGCCameraManager :=
  { readyManager with
    _currentCamera := 0
    _cameraInfoRequest := [(0, none), (1, none), (2, none)]
    sent := [{ targetComponent := 2, showError := false, param1 := 1 },
             { targetComponent := 3, showError := false, param1 := 1 }]
    emitted := [Signal.camerasChanged, Signal.cameraLabelsChanged,
                Signal.camerasChanged, Signal.cameraLabelsChanged,
                Signal.currentCameraChanged, Signal.streamChanged,
                Signal.cameraLabelsChanged,
                Signal.currentCameraChanged, Signal.streamChanged,
                Signal.cameraLabelsChanged, Signal.camerasChanged] }

/-- Number of info-request commands sent to component `p` so far. -/
def requestsTo (p : Nat) (s : QGCCameraManager) : Nat :=
  (s.sent.filter (fun c => decide (c.targetComponent = p))).length

/-- The `gaveUp` flag of the record of component `p` (false when there is no record). -/
def gaveUp (p : Nat) (s : QGCCameraManager) : Bool :=
  match InfoMap.find s._cameraInfoRequest p with
  | some (some r) => r.gaveUp
  | _ => false

/-- The events of the retry-bound property: a heartbeat from component `p`, or a sweep
tick, at any instant. -/
def Event.isHeartbeatOrSweep (p : Nat) : Event → Prop
  | Event.mavlinkMessage _ message => message.compid = p ∧ message.msgid = MsgId.HEARTBEAT
  | Event.cameraTimeout _ => True
  | _ => False

/-- Invariant of the runs in which component `p` sends heartbeats and never an info reply,
`base` being the number of requests sent to `p` before the run: the container is well
formed and holds no record but that of `p`, which is still waiting for info and has
received `tryCount` (between 1 and 4) requests. -/
def RetryInv (p : Nat) (base : Nat) (s : QGCCameraManager) : Prop :=
  InfoMap.WellFormed s._cameraInfoRequest
  ∧ (∀ k r, InfoMap.find s._cameraInfoRequest k = some (some r) → k = p)
  ∧ (match InfoMap.find s._cameraInfoRequest p with
     | none => s._cameraInfoRequest = [] ∧ requestsTo p s = base
     | some none => False
     | some (some r) =>
       r.infoReceived = false ∧ 1 ≤ r.tryCount ∧ r.tryCount ≤ 4
       ∧ (requestsTo p s : Int) = (base : Int) + r.tryCount
       ∧ (r.gaveUp = true → r.tryCount = 4))

/-- Heartbeats from component 7 at instants 0, 2500, 3000, 3500, 4000 and 4500 with sweep
ticks in between. -/
def silentPeerEvents : List Event :=
  [Event.mavlinkMessage 0 (heartbeatFrom 7),
   Event.cameraTimeout 500,
   Event.mavlinkMessage 1000 (heartbeatFrom 7),
   Event.mavlinkMessage 2500 (heartbeatFrom 7),
   Event.mavlinkMessage 3000 (heartbeatFrom 7),
   Event.cameraTimeout 3200,
   Event.mavlinkMessage 3500 (heartbeatFrom 7),
   Event.mavlinkMessage 4000 (heartbeatFrom 7),
   Event.mavlinkMessage 4500 (heartbeatFrom 7),
   Event.cameraTimeout 9000]

/-- The state the ready manager reaches by `silentPeerEvents`: four requests sent to
component 7, whose record has given up. -/
def silentPeerFinal : QGCCameraManager :=
  { readyManager with
    _cameraInfoRequest :=
      [(7, some { lastHeartbeat := 0, infoReceived := false, gaveUp := true, tryCount := 4 }),
       (0, none), (1, none), (2, none), (3, none), (4, none), (5, none), (6, none)]
    sent := [{ targetComponent := 7, showError := false, param1 := 1 },
             { targetComponent := 7, showError := false, param1 := 1 },
             { targetComponent := 7, showError := false, param1 := 1 },
             { targetComponent := 7, showError := false, param1 := 1 }] }

/-- The state `awaitingInfo7` after an info reply from component 7 that the factory of the
test vehicle rejects: the record is flagged InfoReceived and no camera is added. -/
def rejectedInfo7 : QGCCameraManager :=
  { awaitingInfo7 with
    _cameraInfoRequest :=
      [(7, some { lastHeartbeat := 0, infoReceived := true, gaveUp := false, tryCount := 1 })] }

/-- The state `silentPeerFinal` after an info reply from component 7 arrives although
its record has given up: the reply is processed. -/
def lateReply7 : QGCCameraManager :=
  { silentPeerFinal with
    _cameras := [mkCamera 7 "7"]
    _cameraLabels := ["7"]
    _cameraInfoRequest :=
      [(7, some { lastHeartbeat := 0, infoReceived := true, gaveUp := true, tryCount := 4 }),
       (0, none), (1, none), (2, none), (3, none), (4, none), (5, none), (6, none)]
    emitted := [Signal.camerasChanged, Signal.cameraLabelsChanged] }

/-- A factory that builds the camera of the component it is asked for: the `compID()` of
the camera it returns is the component id passed to it. -/
def Vehicle.keepsCompID (v : Vehicle) : Prop :=
  ∀ payload compid c, v.createCameraControl payload compid = some c → c.compID = compid

/-- The component ids of the roster, in roster order. -/
def rosterIds (s : QGCCameraManager) : List Nat :=
  s._cameras.map (fun c => c.compID)

/-- Invariant behind the uniqueness of the roster: the component ids of the roster are
distinct and each of them has an InfoReceived record. -/
def RosterInv (s : QGCCameraManager) : Prop :=
  (rosterIds s).Nodup
  ∧ ∀ k ∈ rosterIds s, ∃ r, InfoMap.find s._cameraInfoRequest k = some (some r)
      ∧ r.infoReceived = true

/-- A vehicle with system id 1 and default component 1 whose factory takes the model name
from the first payload byte: `"A"` for 1 and `"B"` otherwise; it rejects the empty
payload. -/
def modelVehicle : Vehicle :=
  { id := 1
    defaultComponentId := 1
    createCameraControl := fun payload compid =>
      match payload with
      | [] => none
      | b :: _ => some (mkCamera compid (if b = 1 then "A" else "B")) }

/-- Components 2, 3 and 4 are confirmed as cameras of models A, B and A; components 2 and
3 keep sending heartbeats, component 4 does not, and the sweep tick at 6000 evicts it. -/
def sameModelEvents : List Event :=
  [Event.vehicleReady true true none,
   Event.mavlinkMessage 0 (heartbeatFrom 2),
   Event.mavlinkMessage 0 (heartbeatFrom 3),
   Event.mavlinkMessage 0 (heartbeatFrom 4),
   Event.mavlinkMessage 100 (infoFrom 2 [1]),
   Event.mavlinkMessage 100 (infoFrom 3 [2]),
   Event.mavlinkMessage 100 (infoFrom 4 [1]),
   Event.mavlinkMessage 5500 (heartbeatFrom 2),
   Event.mavlinkMessage 5500 (heartbeatFrom 3),
   Event.cameraTimeout 6000]

/-- Component 7 sends a heartbeat every second and answers the fourth info request at
5100; the sweep ticks every 500 ms. -/
def lateConfirmEvents : List Event :=
  [Event.vehicleReady true true none,
   Event.mavlinkMessage 0 (heartbeatFrom 7),
   Event.cameraTimeout 500,
   Event.mavlinkMessage 1000 (heartbeatFrom 7),
   Event.cameraTimeout 1000,
   Event.cameraTimeout 1500,
   Event.mavlinkMessage 2000 (heartbeatFrom 7),
   Event.cameraTimeout 2000,
   Event.cameraTimeout 2500,
   Event.mavlinkMessage 3000 (heartbeatFrom 7),
   Event.cameraTimeout 3000,
   Event.cameraTimeout 3500,
   Event.mavlinkMessage 4000 (heartbeatFrom 7),
   Event.cameraTimeout 4000,
   Event.cameraTimeout 4500,
   Event.mavlinkMessage 5000 (heartbeatFrom 7),
   Event.cameraTimeout 5000,
   Event.mavlinkMessage 5100 (infoFrom 7 [1])]

/-- Component 7 sends one heartbeat and an info reply that the factory rejects, then
stays silent; the sweep ticks every 500 ms up to 5000. -/
def rejectedThenSilentEvents : List Event :=
  [Event.vehicleReady true true none,
   Event.mavlinkMessage 0 (heartbeatFrom 7),
   Event.mavlinkMessage 100 (infoFrom 7 []),
   Event.cameraTimeout 500,
   Event.cameraTimeout 1000,
   Event.cameraTimeout 1500,
   Event.cameraTimeout 2000,
   Event.cameraTimeout 2500,
   Event.cameraTimeout 3000,
   Event.cameraTimeout 3500,
   Event.cameraTimeout 4000,
   Event.cameraTimeout 4500,
   Event.cameraTimeout 5000]

/-- The state reached by `sameModelEvents`: the cameras of components 2 (model A) and 3
(model B) remain, and the labels read B, A. -/
def sameModelEvicted : QGCCameraManager :=
  { readyManager with
    _cameras := [mkCamera 2 "A", mkCamera 3 "B"]
    _cameraLabels := ["B", "A"]
    _cameraInfoRequest :=
      [(2, some { lastHeartbeat := 5500, infoReceived := true, gaveUp := false,
                  tryCount := 1 }),
       (3, some { lastHeartbeat := 5500, infoReceived := true, gaveUp := false,
                  tryCount := 1 }),
       (0, none), (1, none)]
    sent := [{ targetComponent := 2, showError := false, param1 := 1 },
             { targetComponent := 3, showError := false, param1 := 1 },
             { targetComponent := 4, showError := false, param1 := 1 }]
    emitted := [Signal.camerasChanged, Signal.cameraLabelsChanged,
                Signal.camerasChanged, Signal.cameraLabelsChanged,
                Signal.camerasChanged, Signal.cameraLabelsChanged,
                Signal.cameraLabelsChanged] }

/-- The state reached by `lateConfirmEvents`: the camera of component 7 is confirmed at
5100, its record still carries the instant 0 of its creation as `lastHeartbeat`. -/
def lateConfirmed : QGCCameraManager :=
  { readyManager with
    _cameras := [mkCamera 7 "7"]
    _cameraLabels := ["7"]
    _cameraInfoRequest :=
      [(7, some { lastHeartbeat := 0, infoReceived := true, gaveUp := false, tryCount := 4 }),
       (0, none), (1, none), (2, none), (3, none), (4, none), (5, none), (6, none)]
    sent := [{ targetComponent := 7, showError := false, param1 := 1 },
             { targetComponent := 7, showError := false, param1 := 1 },
             { targetComponent := 7, showError := false, param1 := 1 },
             { targetComponent := 7, showError := false, param1 := 1 }]
    emitted := [Signal.camerasChanged, Signal.cameraLabelsChanged] }

/-- The state `lateConfirmed` after the sweep tick at 5500: the camera is gone. -/
def lateConfirmedSwept : QGCCameraManager :=
  { lateConfirmed with
    _cameras := []
    _cameraLabels := []
    _cameraInfoRequest :=
      [(0, none), (1, none), (2, none), (3, none), (4, none), (5, none), (6, none)]
    emitted := [Signal.camerasChanged, Signal.cameraLabelsChanged,
                Signal.cameraLabelsChanged, Signal.camerasChanged] }

/-- The state reached by `rejectedThenSilentEvents`: the record of component 7 is
InfoReceived and the roster is empty. -/
def rejectedSilent : QGCCameraManager :=
  { readyManager with
    _cameraInfoRequest :=
      [(7, some { lastHeartbeat := 0, infoReceived := true, gaveUp := false, tryCount := 1 }),
       (0, none), (1, none), (2, none), (3, none), (4, none), (5, none), (6, none)]
    sent := [{ targetComponent := 7, showError := false, param1 := 1 }] }

/-- The state `awaitingInfo7` after one sweep tick: null entries under the keys 0 to 6. -/
def awaitingInfo7Swept : QGCCameraManager :=
  { awaitingInfo7 with
    _cameraInfoRequest :=
      [(7, some (CameraStruct.create 0)),
       (0, none), (1, none), (2, none), (3, none), (4, none), (5, none), (6, none)] }

/-- A heartbeat from component `p` of the vehicle `v`. -/
def heartbeatOf (v : Vehicle) (p : Nat) : mavlink_message_t :=
  { sysid := v.id, compid := p, msgid := MsgId.HEARTBEAT, payload := [] }

/-- An info reply from component `p` of the vehicle `v`. -/
def infoOf (v : Vehicle) (p : Nat) (payload : List Nat) : mavlink_message_t :=
  { sysid := v.id, compid := p, msgid := MsgId.CAMERA_INFORMATION, payload := payload }

/-- The test on line 110: the vehicle is ready, the message comes from the vehicle, and
its component is not the default component. -/
def isCandidate (v : Vehicle) (message : mavlink_message_t) (s : QGCCameraManager) : Prop :=
  s._vehicleReadyState = true ∧ v.id = message.sysid
    ∧ v.defaultComponentId ≠ message.compid

/-- The camera of component 5 is discovered and confirmed; no other component sends
anything. -/
def confirmFiveEvents : List Event :=
  [Event.vehicleReady true true none,
   Event.mavlinkMessage 0 (heartbeatFrom 5),
   Event.mavlinkMessage 100 (infoFrom 5 [1])]

/-- The state reached by `confirmFiveEvents` followed by the sweep tick at 500: the camera
of component 5 is in the roster, and the tick has left null entries under the keys 0 to
4. -/
def confirmedFiveSwept : QGCCameraManager :=
  { readyManager with
    _cameras := [mkCamera 5 "5"]
    _cameraLabels := ["5"]
    _cameraInfoRequest :=
      [(5, some { lastHeartbeat := 0, infoReceived := true, gaveUp := false, tryCount := 1 }),
       (0, none), (1, none), (2, none), (3, none), (4, none)]
    sent := [{ targetComponent := 5, showError := false, param1 := 1 }]
    emitted := [Signal.camerasChanged, Signal.cameraLabelsChanged] }

/-- The state reached by `confirmFiveEvents` followed, without a sweep tick in between, by a
first heartbeat from component 2 at 1000: component 2 has a fresh record and has been sent
one info request. -/
def confirmedFiveHeardTwo : QGCCameraManager :=
  { readyManager with
    _cameras := [mkCamera 5 "5"]
    _cameraLabels := ["5"]
    _cameraInfoRequest :=
      [(5, some { lastHeartbeat := 0, infoReceived := true, gaveUp := false, tryCount := 1 }),
       (2, some { lastHeartbeat := 1000, infoReceived := false, gaveUp := false,
                  tryCount := 1 })]
    sent := [{ targetComponent := 5, showError := false, param1 := 1 },
             { targetComponent := 2, showError := false, param1 := 1 }]
    emitted := [Signal.camerasChanged, Signal.cameraLabelsChanged] }

/-! ## The record container -/

namespace InfoMap

theorem contains_eq_true_iff (m : InfoMap) (k : Nat) :
    contains m k = true ↔ ∃ v, find m k = some v := by
  unfold contains
  cases find m k <;> simp

theorem contains_eq_false_iff (m : InfoMap) (k : Nat) :
    contains m k = false ↔ find m k = none := by
  unfold contains
  cases find m k <;> simp

theorem subscript_of_find_some (m : InfoMap) (k : Nat) (v : Option CameraStruct)
    (h : find m k = some v) : subscript m k = (m, v) := by
  unfold subscript
  rw [h]

theorem subscript_of_find_none (m : InfoMap) (k : Nat) (h : find m k = none) :
    subscript m k = (m ++ [(k, none)], none) := by
  unfold subscript
  rw [h]

theorem find_append (m m' : InfoMap) (k : Nat) :
    find (m ++ m') k = (find m k).or (find m' k) := by
  induction m with
  | nil => simp [find]
  | cons e rest ih =>
    simp only [List.cons_append, find]
    split
    · rfl
    · exact ih

theorem find_assign_same (m : InfoMap) (k : Nat) (v : Option CameraStruct) :
    find (assign m k v) k = some v := by
  induction m with
  | nil => simp [assign, find]
  | cons e rest ih =>
    unfold assign
    split
    · simp [find]
    · rename_i hne
      simp [find, hne, ih]

theorem find_assign_other (m : InfoMap) (k k' : Nat) (v : Option CameraStruct)
    (h : k' ≠ k) : find (assign m k v) k' = find m k' := by
  induction m with
  | nil => simp [assign, find, Ne.symm h]
  | cons e rest ih =>
    unfold assign
    split
    · rename_i heq
      simp [find, heq, Ne.symm h]
    · simp only [find]
      rw [ih]

theorem remove_nil (k : Nat) : remove [] k = [] := rfl

theorem remove_cons (e : Nat × Option CameraStruct) (rest : InfoMap) (k : Nat) :
    remove (e :: rest) k = if e.1 = k then remove rest k else e :: remove rest k := by
  unfold remove
  by_cases he : e.1 = k <;> simp [List.filter_cons, he]

theorem find_remove_same (m : InfoMap) (k : Nat) : find (remove m k) k = none := by
  induction m with
  | nil => simp [remove_nil, find]
  | cons e rest ih =>
    rw [remove_cons]
    by_cases he : e.1 = k
    · rw [if_pos he]; exact ih
    · rw [if_neg he]; simp only [find]; rw [if_neg he]; exact ih

theorem find_remove_other (m : InfoMap) (k k' : Nat) (h : k' ≠ k) :
    find (remove m k) k' = find m k' := by
  induction m with
  | nil => simp [remove_nil, find]
  | cons e rest ih =>
    rw [remove_cons]
    by_cases he : e.1 = k
    · have hne : ¬ e.1 = k' := by rw [he]; exact Ne.symm h
      rw [if_pos he, ih]; simp only [find]; rw [if_neg hne]
    · rw [if_neg he]; simp only [find]; rw [ih]

theorem find_some_mem_keys (m : InfoMap) (k : Nat) (v : Option CameraStruct)
    (h : find m k = some v) : k ∈ keys m := by
  induction m with
  | nil => simp [find] at h
  | cons e rest ih =>
    simp only [find] at h
    simp only [keys, List.map_cons, List.mem_cons]
    by_cases he : e.1 = k
    · left; exact he.symm
    · rw [if_neg he] at h
      right; exact ih h

theorem find_none_not_mem_keys (m : InfoMap) (k : Nat) (h : find m k = none) :
    k ∉ keys m := by
  induction m with
  | nil => simp [keys]
  | cons e rest ih =>
    simp only [find] at h
    simp only [keys, List.map_cons, List.mem_cons, not_or]
    by_cases he : e.1 = k
    · rw [if_pos he] at h; simp at h
    · rw [if_neg he] at h
      exact ⟨fun hk => he hk.symm, ih h⟩

theorem mem_keys_iff (m : InfoMap) (k : Nat) : k ∈ keys m ↔ ∃ v, find m k = some v := by
  constructor
  · intro hk
    cases hf : find m k with
    | none => exact absurd hk (find_none_not_mem_keys m k hf)
    | some v => exact ⟨v, rfl⟩
  · rintro ⟨v, hv⟩
    exact find_some_mem_keys m k v hv

end InfoMap

theorem manager_eta (s : QGCCameraManager) : { s with _cameraInfoRequest := s._cameraInfoRequest } = s :=
  rfl


/-! ## Selection: `setCurrentCamera` and camera stepping -/

theorem setCurrentCamera_cameras (sel : Int) (s : QGCCameraManager) :
    (setCurrentCamera sel s)._cameras = s._cameras := by
  unfold setCurrentCamera; split <;> rfl

theorem setCurrentCamera_labels (sel : Int) (s : QGCCameraManager) :
    (setCurrentCamera sel s)._cameraLabels = s._cameraLabels := by
  unfold setCurrentCamera; split <;> rfl

theorem setCurrentCamera_records (sel : Int) (s : QGCCameraManager) :
    (setCurrentCamera sel s)._cameraInfoRequest = s._cameraInfoRequest := by
  unfold setCurrentCamera; split <;> rfl

theorem setCurrentCamera_sent (sel : Int) (s : QGCCameraManager) :
    (setCurrentCamera sel s).sent = s.sent := by
  unfold setCurrentCamera; split <;> rfl

theorem setCurrentCamera_zero (s : QGCCameraManager) (h : s._cameras ≠ []) :
    (setCurrentCamera 0 s)._currentCamera = 0 := by
  unfold setCurrentCamera
  split
  · rfl
  · rename_i hc
    have hlen : (0 : Int) < (s._cameras.length : Int) := by
      have := List.length_pos.mpr h
      omega
    by_contra hne
    exact hc ⟨fun h0 => hne h0.symm, le_refl _, hlen⟩

/-- C9: `setCurrentCamera(index)` is accepted exactly when `index != currentIndex` and
`0 <= index < len(instances)`.  When accepted, `currentIndex` becomes `index`, the two
notifications "current camera changed" and "stream changed" are emitted (in this order)
and nothing else changes; otherwise the whole state, notification log included, is
unchanged. -/
theorem setCurrentCamera_accepted_iff (sel : Int) (s : QGCCameraManager) :
    ((sel ≠ s._currentCamera ∧ 0 ≤ sel ∧ sel < (s._cameras.length : Int)) →
      setCurrentCamera sel s =
        { s with _currentCamera := sel
                 emitted := s.emitted ++ [Signal.currentCameraChanged, Signal.streamChanged] })
    ∧ (¬ (sel ≠ s._currentCamera ∧ 0 ≤ sel ∧ sel < (s._cameras.length : Int)) →
      setCurrentCamera sel s = s) := by
  constructor
  · intro h
    unfold setCurrentCamera
    rw [if_pos ⟨h.1, h.2.1, h.2.2⟩]
  · intro h
    unfold setCurrentCamera
    rw [if_neg]
    intro h2
    exact h ⟨h2.1, h2.2.1, h2.2.2⟩

/-- C9 at a concrete input: index 2 of a three camera roster is accepted, index 3 and the
current index 0 are not. -/
theorem setCurrentCamera_accepted_iff_witness :
    setCurrentCamera 2 threeCameras =
        { threeCameras with
          _currentCamera := 2
          emitted := [Signal.currentCameraChanged, Signal.streamChanged] }
    ∧ setCurrentCamera 3 threeCameras = threeCameras
    ∧ setCurrentCamera 0 threeCameras = threeCameras :=
  ⟨(setCurrentCamera_accepted_iff 2 threeCameras).1 (by decide),
   (setCurrentCamera_accepted_iff 3 threeCameras).2 (by decide),
   (setCurrentCamera_accepted_iff 0 threeCameras).2 (by decide)⟩

theorem stepCameraIndex_in_range (cur d n : Int) (hn : 0 < n) :
    0 ≤ stepCameraIndex cur d n ∧ stepCameraIndex cur d n < n := by
  unfold stepCameraIndex
  simp only
  split_ifs <;> omega

theorem stepCameraIndex_ne (cur d n : Int) (hn : 2 ≤ n) (hd : d = 1 ∨ d = -1) :
    stepCameraIndex cur d n ≠ cur := by
  unfold stepCameraIndex
  simp only
  split_ifs <;> omega

theorem stepCamera_rejected (now d : Int) (s : QGCCameraManager)
    (h : ¬ (now - s._lastCameraChange > 1000)) : _stepCamera now d s = s := by
  unfold _stepCamera
  rw [if_neg h]

theorem stepCamera_accepted (now d : Int) (s : QGCCameraManager)
    (h : now - s._lastCameraChange > 1000) :
    _stepCamera now d s =
      setCurrentCamera (stepCameraIndex s._currentCamera d s._cameras.length)
        { s with _lastCameraChange := now } := by
  unfold _stepCamera
  rw [if_pos h]

theorem stepCamera_cameras (now d : Int) (s : QGCCameraManager) :
    (_stepCamera now d s)._cameras = s._cameras := by
  unfold _stepCamera
  split
  · rw [setCurrentCamera_cameras]
  · rfl

theorem stepCamera_changes (now d : Int) (s : QGCCameraManager)
    (h : now - s._lastCameraChange > 1000) (hn : 2 ≤ s._cameras.length)
    (hd : d = 1 ∨ d = -1) :
    (_stepCamera now d s)._currentCamera ≠ s._currentCamera
    ∧ (_stepCamera now d s)._lastCameraChange = now := by
  rw [stepCamera_accepted now d s h]
  have hn2 : (2 : Int) ≤ (s._cameras.length : Int) := by exact_mod_cast hn
  have hne := stepCameraIndex_ne s._currentCamera d s._cameras.length hn2 hd
  have hr := stepCameraIndex_in_range s._currentCamera d s._cameras.length (by omega)
  unfold setCurrentCamera
  rw [if_pos ⟨hne, hr.1, hr.2⟩]
  exact ⟨hne, rfl⟩

/-- C7: camera-step debounce.  A step-camera event that arrives when no more than 1000 ms
have elapsed since the debounce timestamp is dropped: the whole state (so `currentIndex`
and the timestamp) is unchanged; an event that arrives later is accepted and resets the
timestamp.  Consequently, on a roster of at least two cameras and for directions `+1` or
`-1`, an accepted step at `t` changes `currentIndex`, a step at `t + 500` after it changes
nothing, and a step at `t + 1100` after it changes `currentIndex` again. -/
theorem stepCamera_debounce (s : QGCCameraManager) (t d1 d2 : Int) :
    (¬ (t - s._lastCameraChange > 1000) → _stepCamera t d1 s = s)
    ∧ (t - s._lastCameraChange > 1000 → (_stepCamera t d1 s)._lastCameraChange = t)
    ∧ (t - s._lastCameraChange > 1000 → 2 ≤ s._cameras.length →
        (d1 = 1 ∨ d1 = -1) → (d2 = 1 ∨ d2 = -1) →
        (_stepCamera t d1 s)._currentCamera ≠ s._currentCamera
        ∧ _stepCamera (t + 500) d2 (_stepCamera t d1 s) = _stepCamera t d1 s
        ∧ (_stepCamera (t + 1100) d2 (_stepCamera t d1 s))._currentCamera
            ≠ (_stepCamera t d1 s)._currentCamera) := by
  refine ⟨stepCamera_rejected t d1 s, ?_, ?_⟩
  · intro h
    rw [stepCamera_accepted t d1 s h]
    unfold setCurrentCamera
    split <;> rfl
  · intro h hn hd1 hd2
    have h1 := stepCamera_changes t d1 s h hn hd1
    refine ⟨h1.1, ?_, ?_⟩
    · apply stepCamera_rejected
      rw [h1.2]
      omega
    · have hn' : 2 ≤ (_stepCamera t d1 s)._cameras.length := by
        rw [stepCamera_cameras]; exact hn
      exact (stepCamera_changes (t + 1100) d2 (_stepCamera t d1 s)
        (by rw [h1.2]; omega) hn' hd2).1

/-- C7 at a concrete input: three cameras, timestamp 0, a step `+1` at 1500 moves the
selection from 0 to 1, a step `-1` at 2000 is dropped, a step `-1` at 2600 moves it. -/
theorem stepCamera_debounce_witness :
    (_stepCamera 1500 1 threeCameras)._currentCamera ≠ threeCameras._currentCamera
    ∧ _stepCamera (1500 + 500) (-1) (_stepCamera 1500 1 threeCameras)
        = _stepCamera 1500 1 threeCameras
    ∧ (_stepCamera (1500 + 1100) (-1) (_stepCamera 1500 1 threeCameras))._currentCamera
        ≠ (_stepCamera 1500 1 threeCameras)._currentCamera
    ∧ _stepCamera 900 1 threeCameras = threeCameras :=
  ⟨((stepCamera_debounce threeCameras 1500 1 (-1)).2.2 (by decide) (by decide)
      (by decide) (by decide)).1,
   ((stepCamera_debounce threeCameras 1500 1 (-1)).2.2 (by decide) (by decide)
      (by decide) (by decide)).2.1,
   ((stepCamera_debounce threeCameras 1500 1 (-1)).2.2 (by decide) (by decide)
      (by decide) (by decide)).2.2,
   (stepCamera_debounce threeCameras 900 1 (-1)).1 (by decide)⟩

theorem stepCameraIndex_eq_emod (cur d n : Int) (hn : 0 < n)
    (h1 : -1 ≤ cur + d) (h2 : cur + d ≤ n) :
    stepCameraIndex cur d n = (cur + d) % n := by
  unfold stepCameraIndex
  simp only
  rcases lt_trichotomy (cur + d) 0 with hneg | hzero | hpos
  · have hm1 : cur + d = -1 := by omega
    have hmod : (-1 : Int) % n = n - 1 := by
      have h := Int.add_mul_emod_self (a := -1) (b := 1) (c := n)
      rw [← h]
      have : (-1 : Int) + 1 * n = n - 1 := by ring
      rw [this]
      exact Int.emod_eq_of_lt (by omega) (by omega)
    rw [hm1, hmod]
    split_ifs <;> omega
  · rw [hzero]
    simp only [Int.zero_emod]
    split_ifs <;> omega
  · by_cases hge : cur + d = n
    · rw [hge, Int.emod_self]
      split_ifs <;> omega
    · rw [Int.emod_eq_of_lt (by omega) (by omega)]
      split_ifs <;> omega

/-- C8, as stated, fails: on a roster of three cameras with `currentIndex = 0`, an accepted
step with direction `-2` selects index 2, whereas `(0 + (-2)) mod 3 = 1`. -/
theorem stepCamera_wraparound_counterexample :
    2000 - threeCameras._lastCameraChange > 1000
    ∧ (_stepCamera 2000 (-2) threeCameras)._currentCamera = 2
    ∧ (threeCameras._currentCamera + (-2)) % (threeCameras._cameras.length : Int) = 1
    ∧ _stepCamera 2000 (-2) threeCameras ≠
        setCurrentCamera
          ((threeCameras._currentCamera + (-2)) % (threeCameras._cameras.length : Int))
          { threeCameras with _lastCameraChange := 2000 } := by
  decide

/-- C8 (amended): for every non-empty roster of `n` cameras, every `currentIndex` in
`[0, n)` and every direction `d` with `-1 <= currentIndex + d <= n` (so for every `d` in
`{-1, 0, +1}`), an accepted step-camera event resets the timestamp and passes
`(currentIndex + d) mod n`, the representative in `[0, n)`, to `setCurrentCamera`. -/
theorem stepCamera_wraparound (s : QGCCameraManager) (now d : Int)
    (hacc : now - s._lastCameraChange > 1000)
    (hlo : 0 ≤ s._currentCamera) (hhi : s._currentCamera < (s._cameras.length : Int))
    (hd : -1 ≤ s._currentCamera + d ∧ s._currentCamera + d ≤ (s._cameras.length : Int)) :
    _stepCamera now d s =
      setCurrentCamera ((s._currentCamera + d) % (s._cameras.length : Int))
        { s with _lastCameraChange := now } := by
  rw [stepCamera_accepted now d s hacc,
    stepCameraIndex_eq_emod _ _ _ (by omega) hd.1 hd.2]

/-- C8 (amended) at the inputs of the spec: with three cameras, `currentIndex = 0` and
direction `-1` give index 2; `currentIndex = 2` and direction `+1` give index 0. -/
theorem stepCamera_wraparound_witness :
    (_stepCamera 2000 (-1) threeCameras =
        setCurrentCamera ((0 + (-1)) % 3) { threeCameras with _lastCameraChange := 2000 }
      ∧ (0 + (-1) : Int) % 3 = 2)
    ∧ (_stepCamera 2000 1 { threeCameras with _currentCamera := 2 } =
        setCurrentCamera ((2 + 1) % 3)
          { threeCameras with _currentCamera := 2, _lastCameraChange := 2000 }
      ∧ (2 + 1 : Int) % 3 = 0) :=
  ⟨⟨stepCamera_wraparound threeCameras 2000 (-1) (by decide) (by decide) (by decide)
      (by decide), by decide⟩,
   ⟨stepCamera_wraparound { threeCameras with _currentCamera := 2 } 2000 1 (by decide)
      (by decide) (by decide) (by decide), by decide⟩⟩

/-! ## Dispatch -/

theorem findCamera_none_iff (id : Nat) (s : QGCCameraManager) :
    _findCamera id s = none ↔ ∀ c ∈ s._cameras, c.compID ≠ id := by
  unfold _findCamera
  rw [List.find?_eq_none]
  constructor
  · intro h c hc; simpa using h c hc
  · intro h c hc; simpa using h c hc

theorem findCamera_some (id : Nat) (s : QGCCameraManager) (c : QGCCameraControl)
    (h : _findCamera id s = some c) :
    c.compID = id ∧ ∃ pre post, s._cameras = pre ++ c :: post
      ∧ ∀ c' ∈ pre, c'.compID ≠ id := by
  unfold _findCamera at h
  rw [List.find?_eq_some] at h
  obtain ⟨hc, pre, post, hsplit, hpre⟩ := h
  refine ⟨by simpa using hc, pre, post, hsplit, ?_⟩
  intro c' hc'
  simpa using hpre c' hc'

theorem findCamera_of_split (id : Nat) (s : QGCCameraManager) (c : QGCCameraControl)
    (pre post : List QGCCameraControl) (hsplit : s._cameras = pre ++ c :: post)
    (hpre : ∀ c' ∈ pre, c'.compID ≠ id) (hc : c.compID = id) :
    _findCamera id s = some c := by
  unfold _findCamera
  rw [List.find?_eq_some]
  refine ⟨by simpa using hc, pre, post, hsplit, ?_⟩
  intro a ha
  simpa using hpre a ha

theorem replace_first (pre post : List QGCCameraControl) (c c' : QGCCameraControl)
    (h : c ∉ pre) : (pre ++ c :: post).replace c c' = pre ++ c' :: post := by
  rw [List.replace_append, if_neg h, List.replace_cons]
  simp

theorem forwardToCamera_found (kind : MsgId) (message : mavlink_message_t)
    (s : QGCCameraManager) (pre post : List QGCCameraControl) (c : QGCCameraControl)
    (hsplit : s._cameras = pre ++ c :: post)
    (hpre : ∀ c' ∈ pre, c'.compID ≠ message.compid) (hc : c.compID = message.compid) :
    forwardToCamera kind message s =
      { s with _cameras := pre ++ c.handle kind message.payload :: post } := by
  unfold forwardToCamera
  rw [findCamera_of_split message.compid s c pre post hsplit hpre hc]
  simp only
  rw [hsplit, replace_first]
  intro hmem
  exact hpre c hmem hc

theorem forwardToCamera_not_found (kind : MsgId) (message : mavlink_message_t)
    (s : QGCCameraManager) (h : ∀ c ∈ s._cameras, c.compID ≠ message.compid) :
    forwardToCamera kind message s = s := by
  unfold forwardToCamera
  rw [(findCamera_none_iff message.compid s).mpr h]

theorem mavlinkMessageReceived_cameraScoped (v : Vehicle) (now : Int)
    (message : mavlink_message_t) (s : QGCCameraManager) (hsys : message.sysid = v.id)
    (hkind : message.msgid.cameraScoped = true) :
    _mavlinkMessageReceived v now message s
      = Run.ok (forwardToCamera message.msgid message s) := by
  unfold _mavlinkMessageReceived
  rw [if_pos hsys]
  cases hm : message.msgid <;> rw [hm] at hkind <;>
    simp [MsgId.cameraScoped, _handleCaptureStatus, _handleStorageInfo, _handleCameraSettings,
      _handleParamAck, _handleParamValue, _handleVideoStreamInfo, _handleVideoStreamStatus]
      at hkind ⊢

/-- C10: dispatch isolation.  For every camera-scoped message (capture status, storage
info, settings, parameter ack/value, stream info, stream status) from the tracked vehicle
carrying component id `X`: if no roster camera has `compID == X` the message is dropped
and the state is unchanged; otherwise the payload is handed to exactly one roster entry,
the first one with `compID == X`, and every other roster entry (in particular every camera
with `compID` `Y != X`), the order of the roster, the labels, `currentIndex`, the
discovery records and the logs are unchanged. -/
theorem dispatch_isolation (v : Vehicle) (now : Int) (message : mavlink_message_t)
    (s : QGCCameraManager) (hsys : message.sysid = v.id)
    (hkind : message.msgid.cameraScoped = true) :
    ((∀ c ∈ s._cameras, c.compID ≠ message.compid)
      ∧ _mavlinkMessageReceived v now message s = Run.ok s)
    ∨ (∃ pre c post, s._cameras = pre ++ c :: post
        ∧ (∀ c' ∈ pre, c'.compID ≠ message.compid)
        ∧ c.compID = message.compid
        ∧ _mavlinkMessageReceived v now message s =
            Run.ok { s with _cameras :=
                              pre ++ c.handle message.msgid message.payload :: post }) := by
  rw [mavlinkMessageReceived_cameraScoped v now message s hsys hkind]
  cases hf : _findCamera message.compid s with
  | none =>
    left
    have hnone := (findCamera_none_iff message.compid s).mp hf
    exact ⟨hnone, by rw [forwardToCamera_not_found _ message s hnone]⟩
  | some c =>
    right
    obtain ⟨hc, pre, post, hsplit, hpre⟩ := findCamera_some message.compid s c hf
    exact ⟨pre, c, post, hsplit, hpre, hc,
      by rw [forwardToCamera_found _ message s pre post c hsplit hpre hc]⟩

/-- C10 at a concrete input: a capture-status message for component 11 reaches the second
of three cameras only, and one for component 99 is dropped. -/
theorem dispatch_isolation_witness :
    _mavlinkMessageReceived testVehicle 0 (captureStatusFrom 11 [5]) threeCameras =
      Run.ok { threeCameras with
               _cameras := [mkCamera 10 "A",
                 (mkCamera 11 "B").handle MsgId.CAMERA_CAPTURE_STATUS [5], mkCamera 12 "C"] }
    ∧ _mavlinkMessageReceived testVehicle 0 (captureStatusFrom 99 [5]) threeCameras =
      Run.ok threeCameras := by
  constructor
  · rcases dispatch_isolation testVehicle 0 (captureStatusFrom 11 [5]) threeCameras rfl rfl
      with h | h
    · exact absurd rfl (h.1 (mkCamera 11 "B") (by decide))
    · decide
  · rcases dispatch_isolation testVehicle 0 (captureStatusFrom 99 [5]) threeCameras rfl rfl
      with h | h
    · exact h.2
    · decide

/-! ## Info replies -/

theorem handleCameraInfo_absent (v : Vehicle) (message : mavlink_message_t) (s : QGCCameraManager)
    (h : InfoMap.find s._cameraInfoRequest message.compid = none) :
    _handleCameraInfo v message s = Run.ok s := by
  unfold _handleCameraInfo
  rw [if_neg]
  rw [(InfoMap.contains_eq_false_iff _ _).mpr h]
  simp

theorem handleCameraInfo_null (v : Vehicle) (message : mavlink_message_t) (s : QGCCameraManager)
    (h : InfoMap.find s._cameraInfoRequest message.compid = some none) :
    _handleCameraInfo v message s = Run.halt Halt.nullDereference := by
  unfold _handleCameraInfo
  rw [if_pos ((InfoMap.contains_eq_true_iff _ _).mpr ⟨_, h⟩),
    InfoMap.subscript_of_find_some _ _ _ h]

theorem handleCameraInfo_received (v : Vehicle) (message : mavlink_message_t) (s : QGCCameraManager)
    (r : CameraStruct)
    (h : InfoMap.find s._cameraInfoRequest message.compid = some (some r))
    (hr : r.infoReceived = true) :
    _handleCameraInfo v message s = Run.ok s := by
  unfold _handleCameraInfo
  rw [if_pos ((InfoMap.contains_eq_true_iff _ _).mpr ⟨_, h⟩),
    InfoMap.subscript_of_find_some _ _ _ h]
  simp only [hr, not_true_eq_false, if_false]

theorem handleCameraInfo_waiting (v : Vehicle) (message : mavlink_message_t) (s : QGCCameraManager)
    (r : CameraStruct)
    (h : InfoMap.find s._cameraInfoRequest message.compid = some (some r))
    (hr : r.infoReceived = false) :
    _handleCameraInfo v message s =
      match v.createCameraControl message.payload message.compid with
      | some pCamera =>
        Run.ok { s with
                 _cameraInfoRequest :=
                   InfoMap.assign s._cameraInfoRequest message.compid
                     (some { r with infoReceived := true })
                 _cameras := s._cameras ++ [pCamera]
                 _cameraLabels := s._cameraLabels ++ [pCamera.modelName]
                 emitted := s.emitted ++ [Signal.camerasChanged, Signal.cameraLabelsChanged] }
      | none =>
        Run.ok { s with
                 _cameraInfoRequest :=
                   InfoMap.assign s._cameraInfoRequest message.compid
                     (some { r with infoReceived := true }) } := by
  unfold _handleCameraInfo
  rw [if_pos ((InfoMap.contains_eq_true_iff _ _).mpr ⟨_, h⟩),
    InfoMap.subscript_of_find_some _ _ _ h]
  simp only [hr, Bool.false_eq_true, not_false_eq_true, if_true]

/-- C1, as stated, fails: in the (reachable) state of a ready manager that has not heard
from component 7, two deliveries of the same info reply for component 7 add no Camera
Instance at all; and after a heartbeat from component 7, two deliveries of an info reply
that the factory rejects add none either. -/
theorem handleCameraInfo_twice_counterexample :
    Reachable testVehicle readyManager
    ∧ run testVehicle
        [Event.mavlinkMessage 10 (infoFrom 7 [1]), Event.mavlinkMessage 20 (infoFrom 7 [1])]
        readyManager = Run.ok readyManager
    ∧ readyManager._cameras = []
    ∧ run testVehicle
        [Event.mavlinkMessage 0 (heartbeatFrom 7),
         Event.mavlinkMessage 10 (infoFrom 7 []), Event.mavlinkMessage 20 (infoFrom 7 [])]
        readyManager = Run.ok rejectedInfo7
    ∧ rejectedInfo7._cameras = [] :=
  ⟨⟨0, [Event.vehicleReady true true none], rfl⟩, by decide, rfl, by decide, rfl⟩

/-- C1 (amended): for every state and peer `p` whose entry in the discovery records is not
a null pointer, delivering the same info reply for `p` twice in a row adds exactly one
Camera Instance (the one the factory builds, with its label) when `p` has a record that is
not yet InfoReceived and the factory accepts the payload, and adds none otherwise (no
record for `p`, record already InfoReceived, or factory returning none); in every case the
second delivery leaves the whole state unchanged. -/
theorem handleCameraInfo_idempotent (v : Vehicle) (message : mavlink_message_t)
    (s : QGCCameraManager)
    (hentry : InfoMap.find s._cameraInfoRequest message.compid ≠ some none) :
    ∃ s1, _handleCameraInfo v message s = Run.ok s1
      ∧ _handleCameraInfo v message s1 = Run.ok s1
      ∧ ((∃ r c, InfoMap.find s._cameraInfoRequest message.compid = some (some r)
            ∧ r.infoReceived = false
            ∧ v.createCameraControl message.payload message.compid = some c
            ∧ s1._cameras = s._cameras ++ [c]
            ∧ s1._cameraLabels = s._cameraLabels ++ [c.modelName])
        ∨ ((¬ ∃ r c, InfoMap.find s._cameraInfoRequest message.compid = some (some r)
              ∧ r.infoReceived = false
              ∧ v.createCameraControl message.payload message.compid = some c)
            ∧ s1._cameras = s._cameras ∧ s1._cameraLabels = s._cameraLabels)) := by
  cases hf : InfoMap.find s._cameraInfoRequest message.compid with
  | none =>
    refine ⟨s, handleCameraInfo_absent v message s hf, handleCameraInfo_absent v message s hf,
      Or.inr ⟨?_, rfl, rfl⟩⟩
    rintro ⟨r, c, hr, -⟩
    cases hr
  | some entry =>
    cases entry with
    | none => exact absurd hf hentry
    | some r =>
      cases hrec : r.infoReceived with
      | true =>
        refine ⟨s, handleCameraInfo_received v message s r hf hrec,
          handleCameraInfo_received v message s r hf hrec, Or.inr ⟨?_, rfl, rfl⟩⟩
        rintro ⟨r', c, hr', hfalse, -⟩
        cases hr'
        rw [hrec] at hfalse
        cases hfalse
      | false =>
        have h1 := handleCameraInfo_waiting v message s r hf hrec
        cases hc : v.createCameraControl message.payload message.compid with
        | none =>
          rw [hc] at h1
          refine ⟨_, h1, ?_, Or.inr ⟨?_, rfl, rfl⟩⟩
          · exact handleCameraInfo_received v message _ { r with infoReceived := true }
              (InfoMap.find_assign_same _ _ _) rfl
          · rintro ⟨r', c, -, -, hsome⟩
            cases hsome
        | some c =>
          rw [hc] at h1
          refine ⟨_, h1, ?_, Or.inl ⟨r, c, rfl, hrec, rfl, rfl, rfl⟩⟩
          exact handleCameraInfo_received v message _ { r with infoReceived := true }
            (InfoMap.find_assign_same _ _ _) rfl

/-- C1 (amended) at a concrete input: after a heartbeat from component 7, two deliveries
of its info reply add exactly one camera, and the second delivery changes nothing. -/
theorem handleCameraInfo_idempotent_witness :
    _handleHeartbeat testVehicle 0 (heartbeatFrom 7) readyManager = Run.ok awaitingInfo7
    ∧ ∃ s1, _handleCameraInfo testVehicle (infoFrom 7 [1]) awaitingInfo7 = Run.ok s1
      ∧ _handleCameraInfo testVehicle (infoFrom 7 [1]) s1 = Run.ok s1
      ∧ ((∃ r c, InfoMap.find awaitingInfo7._cameraInfoRequest (infoFrom 7 [1]).compid
              = some (some r)
            ∧ r.infoReceived = false
            ∧ testVehicle.createCameraControl (infoFrom 7 [1]).payload (infoFrom 7 [1]).compid
              = some c
            ∧ s1._cameras = awaitingInfo7._cameras ++ [c]
            ∧ s1._cameraLabels = awaitingInfo7._cameraLabels ++ [c.modelName])
        ∨ ((¬ ∃ r c, InfoMap.find awaitingInfo7._cameraInfoRequest (infoFrom 7 [1]).compid
              = some (some r)
              ∧ r.infoReceived = false
              ∧ testVehicle.createCameraControl (infoFrom 7 [1]).payload
                  (infoFrom 7 [1]).compid = some c)
            ∧ s1._cameras = awaitingInfo7._cameras
            ∧ s1._cameraLabels = awaitingInfo7._cameraLabels)) :=
  ⟨by decide,
   handleCameraInfo_idempotent testVehicle (infoFrom 7 [1]) awaitingInfo7 (by decide)⟩

/-! ## The eviction sweep -/

theorem qRemove_eq_erase {α : Type} [DecidableEq α] (l : List α) (x : α) :
    (if qIndexOf l x ≥ 0 then qRemoveAt l (qIndexOf l x) else l) = l.erase x := by
  induction l with
  | nil => simp [qIndexOf]
  | cons y ys ih =>
    by_cases hy : y = x
    · simp [qIndexOf, hy, qRemoveAt]
    · have hne : (y == x) = false := by simpa using hy
      rw [List.erase_cons, hne]
      simp only [qIndexOf, if_neg hy]
      by_cases hr : qIndexOf ys x < 0
      · rw [if_pos hr]
        rw [if_neg (by omega)] at ih
        simp [← ih]
      · rw [if_neg hr]
        rw [if_pos (by omega)] at ih
        rw [if_pos (by omega)]
        have htn : (qIndexOf ys x + 1).toNat = (qIndexOf ys x).toNat + 1 := by omega
        simp only [qRemoveAt, htn, List.eraseIdx_cons_succ] at ih ⊢
        simp [ih]

theorem nullPad_nil (m : InfoMap) : NullPad m [] := by
  refine ⟨?_, ?_, ?_⟩ <;> simp [InfoMap.keys]

theorem nullPad_cons (m pad : InfoMap) (i : Nat) (hi : InfoMap.find m i = none)
    (h : NullPad (m ++ [(i, none)]) pad) : NullPad m ((i, none) :: pad) := by
  obtain ⟨hnull, hnodup, hfresh⟩ := h
  have hsplit : ∀ e ∈ pad, InfoMap.find m e.1 = none ∧ e.1 ≠ i := by
    intro e he
    have h1 := hfresh e he
    rw [InfoMap.find_append] at h1
    cases hm : InfoMap.find m e.1 with
    | some v => rw [hm] at h1; simp at h1
    | none =>
      refine ⟨rfl, ?_⟩
      intro heq
      rw [hm] at h1
      simp [InfoMap.find, heq] at h1
  refine ⟨?_, ?_, ?_⟩
  · intro e he
    rcases List.mem_cons.mp he with rfl | he'
    · rfl
    · exact hnull e he'
  · simp only [InfoMap.keys, List.map_cons, List.nodup_cons]
    refine ⟨?_, hnodup⟩
    intro hmem
    obtain ⟨e, he, hek⟩ := List.mem_map.mp hmem
    exact (hsplit e he).2 hek
  · intro e he
    rcases List.mem_cons.mp he with rfl | he'
    · exact hi
    · exact (hsplit e he').1

theorem find_pad_null (pad : InfoMap) (hnull : ∀ e ∈ pad, e.2 = none) (k : Nat) :
    InfoMap.find pad k = none ∨ InfoMap.find pad k = some none := by
  induction pad with
  | nil => left; rfl
  | cons e rest ih =>
    simp only [InfoMap.find]
    by_cases he : e.1 = k
    · rw [if_pos he]
      right
      rw [hnull e (List.mem_cons_self _ _)]
    · rw [if_neg he]
      exact ih (fun e' he' => hnull e' (List.mem_cons_of_mem _ he'))

theorem find_append_pad_record (m pad : InfoMap) (h : NullPad m pad) (k : Nat)
    (r : CameraStruct) :
    InfoMap.find (m ++ pad) k = some (some r) ↔ InfoMap.find m k = some (some r) := by
  rw [InfoMap.find_append]
  cases hm : InfoMap.find m k with
  | some v => simp
  | none =>
    rcases find_pad_null pad h.1 k with hp | hp <;> simp [hp]

theorem find_append_pad_of_some (m pad : InfoMap) (k : Nat) (v : Option CameraStruct)
    (h : InfoMap.find m k = some v) : InfoMap.find (m ++ pad) k = some v := by
  rw [InfoMap.find_append, h]
  rfl

theorem wellFormed_append_pad (m pad : InfoMap) (h : NullPad m pad)
    (hwf : InfoMap.WellFormed m) : InfoMap.WellFormed (m ++ pad) := by
  unfold InfoMap.WellFormed InfoMap.keys at *
  rw [List.map_append, List.nodup_append]
  refine ⟨hwf, h.2.1, ?_⟩
  intro a ha hb
  obtain ⟨e, he, hek⟩ := List.mem_map.mp hb
  have hnone := h.2.2 e he
  rw [hek] at hnone
  exact InfoMap.find_none_not_mem_keys m a hnone ha

theorem evictCamera_found (i : Nat) (s : QGCCameraManager) (c : QGCCameraControl)
    (hc : _findCamera i s = some c) :
    evictCamera i s =
      if (s._cameras.erase c).length ≠ 0 then
        Run.ok (setCurrentCamera 0
          { s with _cameraLabels := s._cameraLabels.erase c.modelName
                   _cameras := s._cameras.erase c
                   _cameraInfoRequest := InfoMap.remove s._cameraInfoRequest i
                   emitted := s.emitted ++ [Signal.cameraLabelsChanged] })
      else
        Run.ok { s with _cameraLabels := s._cameraLabels.erase c.modelName
                        _cameras := s._cameras.erase c
                        _cameraInfoRequest := InfoMap.remove s._cameraInfoRequest i
                        emitted := s.emitted ++ [Signal.cameraLabelsChanged]
                          ++ [Signal.camerasChanged]
                          ++ (if c.autoStream = true then [Signal.streamChanged] else []) } := by
  unfold evictCamera
  rw [hc]
  simp only [qRemove_eq_erase]

theorem evictCamera_not_found (i : Nat) (s : QGCCameraManager) (hc : _findCamera i s = none) :
    evictCamera i s = Run.halt Halt.nullDereference := by
  unfold evictCamera
  rw [hc]

/-- What an eviction that completes leaves behind. -/
theorem evictCamera_ok (i : Nat) (s s' : QGCCameraManager) (h : evictCamera i s = Run.ok s') :
    ∃ c, _findCamera i s = some c
      ∧ s'._cameras = s._cameras.erase c
      ∧ s'._cameraLabels = s._cameraLabels.erase c.modelName
      ∧ s'._cameraInfoRequest = InfoMap.remove s._cameraInfoRequest i
      ∧ s'.sent = s.sent
      ∧ s'._vehicleReadyState = s._vehicleReadyState
      ∧ (s'._cameras ≠ [] → s'._currentCamera = 0)
      ∧ (s'._cameras = [] → s'._currentCamera = s._currentCamera) := by
  cases hc : _findCamera i s with
  | none => rw [evictCamera_not_found i s hc] at h; cases h
  | some c =>
    rw [evictCamera_found i s c hc] at h
    refine ⟨c, rfl, ?_⟩
    by_cases hlen : (s._cameras.erase c).length ≠ 0
    · rw [if_pos hlen] at h
      have hs' := Run.ok.inj h
      subst hs'
      have hne : s._cameras.erase c ≠ [] := fun h0 => hlen (by rw [h0]; rfl)
      refine ⟨by rw [setCurrentCamera_cameras], by rw [setCurrentCamera_labels],
        by rw [setCurrentCamera_records], by rw [setCurrentCamera_sent], ?_, ?_, ?_⟩
      · unfold setCurrentCamera; split <;> rfl
      · intro _
        exact setCurrentCamera_zero _ hne
      · intro h0
        rw [setCurrentCamera_cameras] at h0
        exact absurd h0 hne
    · rw [if_neg hlen] at h
      have hs' := Run.ok.inj h
      subst hs'
      have he : s._cameras.erase c = [] := by
        apply List.eq_nil_of_length_eq_zero
        omega
      exact ⟨rfl, rfl, rfl, rfl, rfl, fun hne => absurd he hne, fun _ => rfl⟩

/-- Shape of a sweep that completes: either nothing is evicted and only null entries are
appended to the records, or the record of one stale confirmed component `k` is evicted
after null entries have been appended. -/
theorem cameraTimeoutLoop_ok (now : Int) (fuel : Nat) :
    ∀ (i : Nat) (s s' : QGCCameraManager), cameraTimeoutLoop now fuel i s = Run.ok s' →
      (∃ pad, NullPad s._cameraInfoRequest pad
          ∧ s' = { s with _cameraInfoRequest := s._cameraInfoRequest ++ pad })
      ∨ (∃ k r pad, NullPad s._cameraInfoRequest pad
          ∧ InfoMap.find s._cameraInfoRequest k = some (some r)
          ∧ StaleConfirmed now r
          ∧ evictCamera k { s with _cameraInfoRequest := s._cameraInfoRequest ++ pad }
              = Run.ok s') := by
  induction fuel with
  | zero =>
    intro i s s' h
    unfold cameraTimeoutLoop at h
    split at h
    · cases h
    · left
      exact ⟨[], nullPad_nil _, by rw [← Run.ok.inj h]; simp⟩
  | succ fuel ih =>
    intro i s s' h
    unfold cameraTimeoutLoop at h
    split at h
    · cases hf : InfoMap.find s._cameraInfoRequest i with
      | none =>
        rw [InfoMap.subscript_of_find_none _ _ hf] at h
        simp only at h
        rcases ih _ _ _ h with ⟨pad, hpad, hs'⟩ | ⟨k, r, pad, hpad, hk, hst, hev⟩
        · left
          refine ⟨(i, none) :: pad, nullPad_cons _ _ _ hf hpad, ?_⟩
          rw [hs']
          simp
        · right
          refine ⟨k, r, (i, none) :: pad, nullPad_cons _ _ _ hf hpad, ?_, hst, ?_⟩
          · have := (find_append_pad_record s._cameraInfoRequest [(i, none)]
              ⟨by simp, by simp [InfoMap.keys], by simpa using hf⟩ k r).mp hk
            exact this
          · rw [← hev]
            simp
      | some entry =>
        rw [InfoMap.subscript_of_find_some _ _ _ hf] at h
        cases entry with
        | none =>
          simp only at h
          exact ih _ _ _ h
        | some r =>
          simp only at h
          split at h
          · rename_i hst
            right
            exact ⟨i, r, [], nullPad_nil _, hf, hst, by simpa using h⟩
          · exact ih _ _ _ h
    · left
      exact ⟨[], nullPad_nil _, by rw [← Run.ok.inj h]; simp⟩

theorem cameraTimeout_ok (now : Int) (s s' : QGCCameraManager) (h : _cameraTimeout now s = Run.ok s') :
    (∃ pad, NullPad s._cameraInfoRequest pad
        ∧ s' = { s with _cameraInfoRequest := s._cameraInfoRequest ++ pad })
    ∨ (∃ k r pad, NullPad s._cameraInfoRequest pad
        ∧ InfoMap.find s._cameraInfoRequest k = some (some r)
        ∧ StaleConfirmed now r
        ∧ evictCamera k { s with _cameraInfoRequest := s._cameraInfoRequest ++ pad }
            = Run.ok s') :=
  cameraTimeoutLoop_ok now _ 0 s s' h

/-! ### Termination of the sweep loop -/

theorem lt_sweepFuel_of_mem_keys (m : InfoMap) (k : Nat) (h : k ∈ InfoMap.keys m) :
    k < sweepFuel m := by
  induction m with
  | nil => simp [InfoMap.keys] at h
  | cons e rest ih =>
    simp only [InfoMap.keys, List.map_cons, List.mem_cons] at h
    simp only [sweepFuel]
    rcases h with rfl | h
    · omega
    · have := ih h
      omega

/-- A container with distinct keys below `b` has at most `b` entries. -/
theorem count_le_of_keys_lt (m : InfoMap) (b : Nat) (hwf : InfoMap.WellFormed m)
    (hb : ∀ k ∈ InfoMap.keys m, k < b) : InfoMap.count m ≤ b := by
  have hsub : InfoMap.keys m ⊆ List.range b := fun k hk => List.mem_range.mpr (hb k hk)
  have hlen := (List.subperm_of_subset hwf hsub).length_le
  simpa [InfoMap.count, InfoMap.keys] using hlen

/-- A container that holds every key below `i` and a key `p ≥ i` has more than `i`
entries. -/
theorem lt_count_of_keys (m : InfoMap) (i p : Nat)
    (hlow : ∀ j < i, j ∈ InfoMap.keys m) (hp : p ∈ InfoMap.keys m) (hip : i ≤ p) :
    i < InfoMap.count m := by
  have hnd : (p :: List.range i).Nodup := by
    rw [List.nodup_cons]
    refine ⟨?_, List.nodup_range i⟩
    intro hmem
    have := List.mem_range.mp hmem
    omega
  have hsub : (p :: List.range i) ⊆ InfoMap.keys m := by
    intro k hk
    rcases List.mem_cons.mp hk with rfl | hk'
    · exact hp
    · exact hlow k (List.mem_range.mp hk')
  have hlen := (List.subperm_of_subset hnd hsub).length_le
  simp [InfoMap.keys] at hlen
  simp only [InfoMap.count]
  omega

theorem keys_append (m m' : InfoMap) :
    InfoMap.keys (m ++ m') = InfoMap.keys m ++ InfoMap.keys m' := by
  simp [InfoMap.keys]

/-- When no record is that of a stale confirmed camera, the sweep completes, evicts
nothing and only appends null entries. -/
theorem cameraTimeoutLoop_no_stale (now : Int) (fuel : Nat) :
    ∀ (i : Nat) (s : QGCCameraManager), InfoMap.WellFormed s._cameraInfoRequest →
      (∀ k ∈ InfoMap.keys s._cameraInfoRequest, k < fuel + i) →
      (∀ k r, InfoMap.find s._cameraInfoRequest k = some (some r) → ¬ StaleConfirmed now r) →
      ∃ pad, NullPad s._cameraInfoRequest pad
        ∧ cameraTimeoutLoop now fuel i s
            = Run.ok { s with _cameraInfoRequest := s._cameraInfoRequest ++ pad } := by
  induction fuel with
  | zero =>
    intro i s hwf hb _
    refine ⟨[], nullPad_nil _, ?_⟩
    unfold cameraTimeoutLoop
    have hcount := count_le_of_keys_lt _ i hwf (by simpa using hb)
    rw [if_neg (by omega)]
    simp
  | succ fuel ih =>
    intro i s hwf hb hns
    unfold cameraTimeoutLoop
    split
    · cases hf : InfoMap.find s._cameraInfoRequest i with
      | none =>
        rw [InfoMap.subscript_of_find_none _ _ hf]
        simp only
        have hpad1 : NullPad s._cameraInfoRequest [(i, none)] :=
          ⟨by simp, by simp [InfoMap.keys], by simpa using hf⟩
        obtain ⟨pad, hpad, hrun⟩ := ih (i + 1)
          { s with _cameraInfoRequest := s._cameraInfoRequest ++ [(i, none)] }
          (wellFormed_append_pad _ _ hpad1 hwf)
          (by
            intro k hk
            simp only [keys_append, List.mem_append] at hk
            rcases hk with hk | hk
            · have := hb k hk; omega
            · simp [InfoMap.keys] at hk; omega)
          (by
            intro k r hk
            exact hns k r ((find_append_pad_record _ _ hpad1 k r).mp hk))
        refine ⟨(i, none) :: pad, nullPad_cons _ _ _ hf hpad, ?_⟩
        rw [hrun]
        simp
      | some entry =>
        rw [InfoMap.subscript_of_find_some _ _ _ hf]
        cases entry with
        | none =>
          simp only
          exact ih (i + 1) s hwf (fun k hk => by have := hb k hk; omega) hns
        | some r =>
          simp only
          have hx : ¬ (r.infoReceived = true ∧ now - r.lastHeartbeat > 5000) := hns i r hf
          rw [if_neg hx]
          exact ih (i + 1) s hwf (fun k hk => by have := hb k hk; omega) hns
    · exact ⟨[], nullPad_nil _, by simp⟩

theorem cameraTimeout_no_stale (now : Int) (s : QGCCameraManager)
    (hwf : InfoMap.WellFormed s._cameraInfoRequest)
    (hns : ∀ k r, InfoMap.find s._cameraInfoRequest k = some (some r) →
      ¬ StaleConfirmed now r) :
    ∃ pad, NullPad s._cameraInfoRequest pad
      ∧ _cameraTimeout now s
          = Run.ok { s with _cameraInfoRequest := s._cameraInfoRequest ++ pad } := by
  unfold _cameraTimeout
  exact cameraTimeoutLoop_no_stale now _ 0 s hwf
    (fun k hk => by have := lt_sweepFuel_of_mem_keys _ k hk; omega) hns

/-- When `p` is the smallest key whose record is that of a stale confirmed camera, the
sweep reaches it and runs the eviction of `p`. -/
theorem cameraTimeoutLoop_first_stale (now : Int) (p : Nat) (r : CameraStruct)
    (hst : StaleConfirmed now r) (fuel : Nat) :
    ∀ (i : Nat) (s : QGCCameraManager), InfoMap.find s._cameraInfoRequest p = some (some r) →
      (∀ k r', k < p → InfoMap.find s._cameraInfoRequest k = some (some r') →
        ¬ StaleConfirmed now r') →
      i ≤ p → (∀ j < i, j ∈ InfoMap.keys s._cameraInfoRequest) → p < fuel + i →
      ∃ pad, NullPad s._cameraInfoRequest pad
        ∧ cameraTimeoutLoop now fuel i s
            = evictCamera p { s with _cameraInfoRequest := s._cameraInfoRequest ++ pad } := by
  induction fuel with
  | zero =>
    intro i s _ _ hip _ hfuel
    omega
  | succ fuel ih =>
    intro i s hp hmin hip hlow hfuel
    have hpk : p ∈ InfoMap.keys s._cameraInfoRequest := InfoMap.find_some_mem_keys _ _ _ hp
    unfold cameraTimeoutLoop
    rw [if_pos (lt_count_of_keys _ i p hlow hpk hip)]
    rcases Nat.lt_or_ge i p with hlt | hge
    · have hlow' : ∀ v, InfoMap.find s._cameraInfoRequest i = some v →
          ∀ j < i + 1, j ∈ InfoMap.keys s._cameraInfoRequest := by
        intro v hv j hj
        rcases Nat.lt_or_ge j i with hji | hji
        · exact hlow j hji
        · have : j = i := by omega
          rw [this]
          exact InfoMap.find_some_mem_keys _ _ _ hv
      cases hf : InfoMap.find s._cameraInfoRequest i with
      | none =>
        rw [InfoMap.subscript_of_find_none _ _ hf]
        simp only
        have hpad1 : NullPad s._cameraInfoRequest [(i, none)] :=
          ⟨by simp, by simp [InfoMap.keys], by simpa using hf⟩
        obtain ⟨pad, hpad, hrun⟩ := ih (i + 1)
          { s with _cameraInfoRequest := s._cameraInfoRequest ++ [(i, none)] }
          (find_append_pad_of_some _ _ _ _ hp)
          (by
            intro k r' hk hfk
            exact hmin k r' hk ((find_append_pad_record _ _ hpad1 k r').mp hfk))
          (by omega)
          (by
            intro j hj
            simp only [keys_append, List.mem_append]
            rcases Nat.lt_or_ge j i with hji | hji
            · left; exact hlow j hji
            · right
              have : j = i := by omega
              simp [InfoMap.keys, this])
          (by omega)
        refine ⟨(i, none) :: pad, nullPad_cons _ _ _ hf hpad, ?_⟩
        rw [hrun]
        simp
      | some entry =>
        rw [InfoMap.subscript_of_find_some _ _ _ hf]
        cases entry with
        | none =>
          simp only
          exact ih (i + 1) s hp hmin (by omega) (hlow' _ hf) (by omega)
        | some r' =>
          simp only
          have hx : ¬ (r'.infoReceived = true ∧ now - r'.lastHeartbeat > 5000) :=
            hmin i r' hlt hf
          rw [if_neg hx]
          exact ih (i + 1) s hp hmin (by omega) (hlow' _ hf) (by omega)
    · have hip' : i = p := by omega
      subst hip'
      rw [InfoMap.subscript_of_find_some _ _ _ hp]
      simp only
      have hx : r.infoReceived = true ∧ now - r.lastHeartbeat > 5000 := hst
      rw [if_pos hx]
      exact ⟨[], nullPad_nil _, by simp⟩

theorem cameraTimeout_first_stale (now : Int) (p : Nat) (r : CameraStruct) (s : QGCCameraManager)
    (hp : InfoMap.find s._cameraInfoRequest p = some (some r))
    (hst : StaleConfirmed now r)
    (hmin : ∀ k r', k < p → InfoMap.find s._cameraInfoRequest k = some (some r') →
      ¬ StaleConfirmed now r') :
    ∃ pad, NullPad s._cameraInfoRequest pad
      ∧ _cameraTimeout now s
          = evictCamera p { s with _cameraInfoRequest := s._cameraInfoRequest ++ pad } := by
  unfold _cameraTimeout
  exact cameraTimeoutLoop_first_stale now p r hst _ 0 s hp hmin (Nat.zero_le _)
    (fun j hj => absurd hj (Nat.not_lt_zero j))
    (by have := lt_sweepFuel_of_mem_keys _ p (InfoMap.find_some_mem_keys _ _ _ hp); omega)

/-! ### Which camera the sweep evicts -/

theorem evictCamera_total (i : Nat) (s : QGCCameraManager) (c : QGCCameraControl)
    (hc : _findCamera i s = some c) : ∃ s', evictCamera i s = Run.ok s' := by
  rw [evictCamera_found i s c hc]
  split <;> exact ⟨_, rfl⟩

theorem erase_of_split (pre post : List QGCCameraControl) (c : QGCCameraControl)
    (h : c ∉ pre) : (pre ++ c :: post).erase c = pre ++ post := by
  rw [List.erase_append_right _ h, List.erase_cons_head]

theorem findCamera_records (i : Nat) (s : QGCCameraManager) (m : InfoMap) :
    _findCamera i { s with _cameraInfoRequest := m } = _findCamera i s :=
  rfl

/-- C3, as stated, fails: in the reachable state `twoConfirmed` the records of components
2 and 3 are both InfoReceived with a heartbeat 6000 ms old, and the sweep tick at 6000
evicts component 2 only; the camera, the label and the record of component 3 are still
there after that tick. -/
theorem cameraTimeout_evicts_counterexample :
    run testVehicle confirmTwoEvents (QGCCameraManager.init 0) = Run.ok twoConfirmed
    ∧ InfoMap.find twoConfirmed._cameraInfoRequest 3
        = some (some { lastHeartbeat := 0, infoReceived := true, gaveUp := false,
                       tryCount := 1 })
    ∧ (6000 : Int) - 0 > 5000
    ∧ _cameraTimeout 6000 twoConfirmed = Run.ok twoConfirmedSwept
    ∧ mkCamera 3 "3" ∈ twoConfirmedSwept._cameras
    ∧ "3" ∈ twoConfirmedSwept._cameraLabels
    ∧ InfoMap.contains twoConfirmedSwept._cameraInfoRequest 3 = true := by
  decide

/-- C3 (amended): for every state and every peer `p`, whatever the numeric value of its
component id and however many other records exist, whose discovery record is InfoReceived
with a `lastHeartbeat` more than 5000 ms old when a sweep tick runs, whose Camera Instance
is in the roster with its label in labels, and such that no InfoReceived record of a
smaller component id is that old too: that single sweep tick completes and removes `p`'s
Camera Instance (the first roster entry with `compID == p`) from instances, one label
equal to its model name from labels, and `p`'s record from discoveryRecords.  One peer is
evicted per tick, the stale confirmed one with the smallest component id. -/
theorem cameraTimeout_evicts_stale (now : Int) (s : QGCCameraManager) (p : Nat) (r : CameraStruct)
    (c : QGCCameraControl)
    (hp : InfoMap.find s._cameraInfoRequest p = some (some r))
    (hst : r.infoReceived = true ∧ now - r.lastHeartbeat > 5000)
    (hmin : ∀ k r', k < p → InfoMap.find s._cameraInfoRequest k = some (some r') →
      ¬ (r'.infoReceived = true ∧ now - r'.lastHeartbeat > 5000))
    (hc : _findCamera p s = some c)
    (hlabel : c.modelName ∈ s._cameraLabels) :
    ∃ s', _cameraTimeout now s = Run.ok s'
      ∧ (∃ pre post, s._cameras = pre ++ c :: post
          ∧ (∀ c' ∈ pre, c'.compID ≠ p) ∧ c.compID = p
          ∧ s'._cameras = pre ++ post)
      ∧ (∃ before after, s._cameraLabels = before ++ c.modelName :: after
          ∧ s'._cameraLabels = before ++ after)
      ∧ InfoMap.contains s'._cameraInfoRequest p = false := by
  obtain ⟨pad, -, hrun⟩ := cameraTimeout_first_stale now p r s hp hst hmin
  have hc' : _findCamera p { s with _cameraInfoRequest := s._cameraInfoRequest ++ pad }
      = some c := hc
  obtain ⟨s', hs'⟩ := evictCamera_total p _ c hc'
  obtain ⟨c2, hc2, hcams, hlabels, hrec, -⟩ := evictCamera_ok p _ s' hs'
  rw [hc'] at hc2
  cases hc2
  obtain ⟨hid, pre, post, hsplit, hpre⟩ := findCamera_some p s c hc
  obtain ⟨before, after, -, hl, hle⟩ := List.exists_erase_eq hlabel
  refine ⟨s', by rw [hrun, hs'], ⟨pre, post, hsplit, hpre, hid, ?_⟩,
    ⟨before, after, hl, ?_⟩, ?_⟩
  · rw [hcams]
    show s._cameras.erase c = pre ++ post
    rw [hsplit]
    exact erase_of_split pre post c (fun hmem => hpre c hmem hid)
  · rw [hlabels]
    exact hle
  · rw [hrec, InfoMap.contains_eq_false_iff]
    exact InfoMap.find_remove_same _ p

/-- C3 (amended) at a concrete input: in `twoConfirmed` component 2 is the smallest stale
confirmed peer and the tick at 6000 evicts it. -/
theorem cameraTimeout_evicts_stale_witness :
    ∃ s', _cameraTimeout 6000 twoConfirmed = Run.ok s'
      ∧ (∃ pre post, twoConfirmed._cameras = pre ++ mkCamera 2 "2" :: post
          ∧ (∀ c' ∈ pre, c'.compID ≠ 2) ∧ (mkCamera 2 "2").compID = 2
          ∧ s'._cameras = pre ++ post)
      ∧ (∃ before after,
          twoConfirmed._cameraLabels = before ++ (mkCamera 2 "2").modelName :: after
          ∧ s'._cameraLabels = before ++ after)
      ∧ InfoMap.contains s'._cameraInfoRequest 2 = false :=
  cameraTimeout_evicts_stale 6000 twoConfirmed 2
    { lastHeartbeat := 0, infoReceived := true, gaveUp := false, tryCount := 1 }
    (mkCamera 2 "2") (by decide) (by decide)
    (by
      intro k r' hk hf
      have h01 : k = 0 ∨ k = 1 := by omega
      rcases h01 with rfl | rfl <;> simp [twoConfirmed, InfoMap.find] at hf)
    (by decide) (by decide)

theorem filter_erase_of_not (l : List QGCCameraControl) (c : QGCCameraControl)
    (f : QGCCameraControl → Bool) (hf : f c = false) :
    (l.erase c).filter f = l.filter f := by
  induction l with
  | nil => simp
  | cons y ys ih =>
    by_cases hy : y = c
    · subst hy
      simp [hf]
    · have hne : (y == c) = false := by simpa using hy
      rw [List.erase_cons, hne]
      simp only [Bool.false_eq_true, if_false, List.filter_cons, ih]

/-- The sweep completes on every well-formed container in which each stale confirmed
record has its camera in the roster. -/
theorem cameraTimeout_completes (now : Int) (s : QGCCameraManager)
    (hwf : InfoMap.WellFormed s._cameraInfoRequest)
    (hcam : ∀ k r, InfoMap.find s._cameraInfoRequest k = some (some r) →
      StaleConfirmed now r → _findCamera k s ≠ none) :
    ∃ s', _cameraTimeout now s = Run.ok s' := by
  classical
  by_cases hex : ∃ k, ∃ r, InfoMap.find s._cameraInfoRequest k = some (some r)
      ∧ StaleConfirmed now r
  · obtain ⟨r, hp, hst⟩ := Nat.find_spec hex
    have hmin : ∀ k r', k < Nat.find hex →
        InfoMap.find s._cameraInfoRequest k = some (some r') → ¬ StaleConfirmed now r' := by
      intro k r' hk hfk hst'
      exact Nat.find_min hex hk ⟨r', hfk, hst'⟩
    obtain ⟨pad, -, hrun⟩ := cameraTimeout_first_stale now _ r s hp hst hmin
    cases hc : _findCamera (Nat.find hex) s with
    | none => exact absurd hc (hcam _ r hp hst)
    | some c =>
      obtain ⟨s', hs'⟩ := evictCamera_total (Nat.find hex)
        { s with _cameraInfoRequest := s._cameraInfoRequest ++ pad } c hc
      exact ⟨s', by rw [hrun, hs']⟩
  · obtain ⟨pad, -, hrun⟩ := cameraTimeout_no_stale now s hwf
      (fun k r hk hst => hex ⟨k, r, hk, hst⟩)
    exact ⟨_, hrun⟩

/-- C4: the sweep only evicts stale confirmed cameras.  For every state, when a sweep tick
completes, the remaining cameras keep their relative order and, for every peer `q` whose
record is not InfoReceived (still Requesting, or GivenUp) or whose `lastHeartbeat` is at
most 5000 ms old, the record of `q` is still present, unchanged, and the roster entries
with `compID == q` are the same as before.  The tick completes in every state with at
most one entry per component in which each stale confirmed record has its camera in the
roster. -/
theorem cameraTimeout_keeps_others (now : Int) (s : QGCCameraManager) :
    (∀ s', _cameraTimeout now s = Run.ok s' →
      s'._cameras.Sublist s._cameras
      ∧ ∀ q r, InfoMap.find s._cameraInfoRequest q = some (some r) →
          (r.infoReceived = false ∨ now - r.lastHeartbeat ≤ 5000) →
          InfoMap.find s'._cameraInfoRequest q = some (some r)
          ∧ s'._cameras.filter (fun c => decide (c.compID = q))
              = s._cameras.filter (fun c => decide (c.compID = q)))
    ∧ (InfoMap.WellFormed s._cameraInfoRequest →
        (∀ k r, InfoMap.find s._cameraInfoRequest k = some (some r) →
          r.infoReceived = true ∧ now - r.lastHeartbeat > 5000 → _findCamera k s ≠ none) →
        ∃ s', _cameraTimeout now s = Run.ok s') := by
  refine ⟨?_, cameraTimeout_completes now s⟩
  intro s' h
  rcases cameraTimeout_ok now s s' h with ⟨pad, hpad, hs'⟩ | ⟨k, r0, pad, hpad, hk, hst, hev⟩
  · subst hs'
    refine ⟨List.Sublist.refl _, ?_⟩
    intro q r hq _
    exact ⟨(find_append_pad_record _ _ hpad q r).mpr hq, rfl⟩
  · obtain ⟨c, hc, hcams, -, hrec, -⟩ := evictCamera_ok k _ s' hev
    have hc' : _findCamera k s = some c := hc
    have hid := (findCamera_some k s c hc').1
    refine ⟨by rw [hcams]; exact List.erase_sublist c _, ?_⟩
    intro q r hq hfresh
    have hqk : q ≠ k := by
      intro heq
      rw [heq, hk] at hq
      have hr : r0 = r := by injection hq with h1; injection h1
      rw [hr] at hst
      rcases hfresh with hf | hf
      · rw [hst.1] at hf; cases hf
      · have := hst.2; omega
    constructor
    · rw [hrec, InfoMap.find_remove_other _ _ _ hqk]
      exact (find_append_pad_record _ _ hpad q r).mpr hq
    · rw [hcams]
      apply filter_erase_of_not
      rw [decide_eq_false_iff_not, hid]
      exact fun h => hqk h.symm

/-- C4 at a concrete input: when component 3 sends a heartbeat at 5500, the tick at 6000
evicts component 2 and keeps the record and the camera of component 3. -/
theorem cameraTimeout_keeps_others_witness :
    ∃ s1 s', _handleHeartbeat testVehicle 5500 (heartbeatFrom 3) twoConfirmed = Run.ok s1
      ∧ _cameraTimeout 6000 s1 = Run.ok s'
      ∧ InfoMap.find s'._cameraInfoRequest 3
          = some (some { lastHeartbeat := 5500, infoReceived := true, gaveUp := false,
                         tryCount := 1 })
      ∧ s'._cameras.filter (fun c => decide (c.compID = 3)) = [mkCamera 3 "3"] := by
  have hrun : _cameraTimeout 6000
      { twoConfirmed with
        _cameraInfoRequest :=
          [(2, some { lastHeartbeat := 0, infoReceived := true, gaveUp := false,
                      tryCount := 1 }),
           (3, some { lastHeartbeat := 5500, infoReceived := true, gaveUp := false,
                      tryCount := 1 })] }
      = Run.ok { twoConfirmedSwept with
        _cameraInfoRequest :=
          [(3, some { lastHeartbeat := 5500, infoReceived := true, gaveUp := false,
                      tryCount := 1 }), (0, none), (1, none)] } := by decide
  refine ⟨_, _, by decide, hrun, ?_⟩
  have h := ((cameraTimeout_keeps_others 6000 _).1 _ hrun).2 3
    { lastHeartbeat := 5500, infoReceived := true, gaveUp := false, tryCount := 1 }
    (by decide) (Or.inr (by decide))
  exact ⟨h.1, h.2.trans (by decide)⟩

/-- C6: selection after eviction.  Whenever a sweep tick removes a camera from the roster
(in particular the camera that was the current selection): if at least one camera remains
then `currentIndex == 0` afterwards and `currentCameraInstance()` is the first remaining
camera; if none remain then `currentCameraInstance()` yields no camera. -/
theorem cameraTimeout_selection (now : Int) (s s' : QGCCameraManager)
    (h : _cameraTimeout now s = Run.ok s') (hev : s'._cameras ≠ s._cameras) :
    (s'._cameras ≠ [] →
      s'._currentCamera = 0 ∧ currentCameraInstance s' = Run.ok s'._cameras.head?)
    ∧ (s'._cameras = [] → currentCameraInstance s' = Run.ok none) := by
  constructor
  · intro hne
    rcases cameraTimeout_ok now s s' h with ⟨pad, -, hs'⟩ | ⟨k, r0, pad, -, -, -, hevict⟩
    · subst hs'
      exact absurd rfl hev
    · obtain ⟨c, -, -, -, -, -, -, hcur, -⟩ := evictCamera_ok k _ s' hevict
      have h0 := hcur hne
      refine ⟨h0, ?_⟩
      unfold currentCameraInstance
      have hlen : 0 < s'._cameras.length := List.length_pos.mpr hne
      rw [h0, if_pos ⟨by omega, by omega⟩, if_neg (by omega)]
      simp [List.head?_eq_getElem?]
  · intro hnil
    unfold currentCameraInstance
    rw [hnil]
    simp

/-- C6 at concrete inputs: the tick at 6000 evicts the selected camera of component 2 from
`twoConfirmed` and leaves index 0 selected, now the camera of component 3; a further tick
evicts that one too and leaves no current camera. -/
theorem cameraTimeout_selection_witness :
    (_cameraTimeout 6000 twoConfirmed = Run.ok twoConfirmedSwept
      ∧ currentCameraInstance twoConfirmed = Run.ok (some (mkCamera 2 "2"))
      ∧ twoConfirmedSwept._currentCamera = 0
      ∧ currentCameraInstance twoConfirmedSwept = Run.ok (some (mkCamera 3 "3")))
    ∧ (∃ s', _cameraTimeout 6000 twoConfirmedSwept = Run.ok s'
      ∧ s'._cameras = [] ∧ currentCameraInstance s' = Run.ok none) := by
  have h1 : _cameraTimeout 6000 twoConfirmed = Run.ok twoConfirmedSwept := by decide
  have h2 := cameraTimeout_selection 6000 twoConfirmed twoConfirmedSwept h1 (by decide)
  refine ⟨⟨h1, by decide, (h2.1 (by decide)).1, (h2.1 (by decide)).2⟩, ?_⟩
  have h3 : _cameraTimeout 6000 twoConfirmedSwept
      = Run.ok { twoConfirmedSwept with
                 _cameras := []
                 _cameraLabels := []
                 _cameraInfoRequest := [(0, none), (1, none), (2, none)]
                 emitted := twoConfirmedSwept.emitted
                   ++ [Signal.cameraLabelsChanged, Signal.camerasChanged] } := by decide
  exact ⟨_, h3, rfl,
    (cameraTimeout_selection 6000 twoConfirmedSwept _ h3 (by decide)).2 rfl⟩

/-! ## Frame properties of the handlers -/

theorem handleHeartbeat_roster (v : Vehicle) (now : Int) (message : mavlink_message_t)
    (s s' : QGCCameraManager) (h : _handleHeartbeat v now message s = Run.ok s') :
    s'._cameras = s._cameras ∧ s'._currentCamera = s._currentCamera
      ∧ s'._cameraLabels = s._cameraLabels := by
  unfold _handleHeartbeat at h
  split at h
  · split at h
    · cases h; exact ⟨rfl, rfl, rfl⟩
    · split at h
      · cases h
      · repeat' split at h
        all_goals (cases h; exact ⟨rfl, rfl, rfl⟩)
  · cases h; exact ⟨rfl, rfl, rfl⟩

theorem handleCameraInfo_roster (v : Vehicle) (message : mavlink_message_t)
    (s s' : QGCCameraManager) (h : _handleCameraInfo v message s = Run.ok s') :
    s'._currentCamera = s._currentCamera ∧ s._cameras.length ≤ s'._cameras.length := by
  unfold _handleCameraInfo at h
  split at h
  · split at h
    · cases h
    · repeat' split at h
      all_goals (cases h; simp)
  · cases h; simp

theorem forwardToCamera_roster (kind : MsgId) (message : mavlink_message_t)
    (s : QGCCameraManager) :
    (forwardToCamera kind message s)._currentCamera = s._currentCamera
      ∧ (forwardToCamera kind message s)._cameras.length = s._cameras.length := by
  unfold forwardToCamera
  split
  · simp
  · simp

theorem mavlinkMessageReceived_roster (v : Vehicle) (now : Int)
    (message : mavlink_message_t) (s s' : QGCCameraManager)
    (h : _mavlinkMessageReceived v now message s = Run.ok s') :
    s'._currentCamera = s._currentCamera ∧ s._cameras.length ≤ s'._cameras.length := by
  unfold _mavlinkMessageReceived at h
  split at h
  · split at h
    case h_3 =>
      have := handleHeartbeat_roster v now message s s' h
      exact ⟨this.2.1, by rw [this.1]⟩
    case h_4 => exact handleCameraInfo_roster v message s s' h
    all_goals
      cases h
      first
        | exact ⟨(forwardToCamera_roster _ message s).1,
            le_of_eq (forwardToCamera_roster _ message s).2.symm⟩
        | exact ⟨rfl, le_refl _⟩
  · cases h; exact ⟨rfl, le_refl _⟩

theorem stepZoom_roster (now d : Int) (s s' : QGCCameraManager) (h : _stepZoom now d s = Run.ok s') :
    s'._currentCamera = s._currentCamera ∧ s'._cameras.length = s._cameras.length := by
  unfold _stepZoom at h
  split at h
  · simp only at h
    split at h
    · cases h
    · cases h; simp
    · cases h; simp
  · cases h; simp

theorem stepStream_roster (now d : Int) (s s' : QGCCameraManager)
    (h : _stepStream now d s = Run.ok s') :
    s'._currentCamera = s._currentCamera ∧ s'._cameras.length = s._cameras.length := by
  unfold _stepStream at h
  split at h
  · simp only at h
    split at h
    · cases h
    · cases h; simp
    · cases h; simp
  · cases h; simp

theorem selectionInRange_of_same (s s' : QGCCameraManager) (hinv : SelectionInRange s)
    (hcur : s'._currentCamera = s._currentCamera)
    (hlen : s._cameras.length ≤ s'._cameras.length) : SelectionInRange s' := by
  unfold SelectionInRange at *
  rw [hcur]
  refine ⟨hinv.1, ?_⟩
  rcases hinv.2 with h | h
  · left; omega
  · right; exact h

theorem setCurrentCamera_selectionInRange (sel : Int) (s : QGCCameraManager)
    (hinv : SelectionInRange s) : SelectionInRange (setCurrentCamera sel s) := by
  unfold setCurrentCamera
  split
  · rename_i hc
    exact ⟨hc.2.1, Or.inl hc.2.2⟩
  · exact hinv

theorem stepCamera_selectionInRange (now d : Int) (s : QGCCameraManager)
    (hinv : SelectionInRange s) : SelectionInRange (_stepCamera now d s) := by
  unfold _stepCamera
  split
  · exact setCurrentCamera_selectionInRange _ _ hinv
  · exact hinv

theorem cameraTimeout_selectionInRange (now : Int) (s s' : QGCCameraManager)
    (h : _cameraTimeout now s = Run.ok s') (hinv : SelectionInRange s) :
    SelectionInRange s' := by
  rcases cameraTimeout_ok now s s' h with ⟨pad, -, hs'⟩ | ⟨k, r0, pad, -, -, -, hevict⟩
  · subst hs'
    exact hinv
  · obtain ⟨c, hc, hcams, -, -, -, -, hne, hnil⟩ := evictCamera_ok k _ s' hevict
    by_cases hempty : s'._cameras = []
    · have hcur := hnil hempty
      have hmem : c ∈ s._cameras := List.mem_of_find?_eq_some hc
      have hlen : (s._cameras.erase c).length = s._cameras.length - 1 :=
        List.length_erase_of_mem hmem
      have hlen0 : (s._cameras.erase c).length = 0 := by
        have : s'._cameras.length = 0 := by rw [hempty]; rfl
        rw [hcams] at this
        exact this
      have hpos : 0 < s._cameras.length := List.length_pos_of_mem hmem
      unfold SelectionInRange at *
      rw [hcur]
      refine ⟨hinv.1, Or.inr ?_⟩
      have h1 : s._cameras.length = 1 := by omega
      rcases hinv.2 with h2 | h2
      · have : s._currentCamera < 1 := by rw [h1] at h2; exact_mod_cast h2
        have := hinv.1
        show s._currentCamera = 0
        omega
      · exact h2
    · have hcur := hne hempty
      unfold SelectionInRange
      rw [hcur]
      exact ⟨le_refl _, Or.inr rfl⟩

theorem step_selectionInRange (v : Vehicle) (e : Event) (s s' : QGCCameraManager)
    (h : step v e s = Run.ok s') (hinv : SelectionInRange s) : SelectionInRange s' := by
  cases e with
  | mavlinkMessage now message =>
    have := mavlinkMessageReceived_roster v now message s s' h
    exact selectionInRange_of_same s s' hinv this.1 this.2
  | cameraTimeout now => exact cameraTimeout_selectionInRange now s s' h hinv
  | setCurrentCamera sel =>
    cases h
    exact setCurrentCamera_selectionInRange sel s hinv
  | stepZoom now d =>
    have := stepZoom_roster now d s s' h
    exact selectionInRange_of_same s s' hinv this.1 (le_of_eq this.2.symm)
  | stepCamera now d =>
    cases h
    exact stepCamera_selectionInRange now d s hinv
  | stepStream now d =>
    have := stepStream_roster now d s s' h
    exact selectionInRange_of_same s s' hinv this.1 (le_of_eq this.2.symm)
  | vehicleReady ready isActive joystick =>
    have hs : s' = _vehicleReady ready isActive joystick s := (Run.ok.inj h).symm
    subst hs
    unfold _vehicleReady _activeJoystickChanged
    split
    · split
      · exact hinv
      · exact hinv
    · exact hinv

theorem run_selectionInRange (v : Vehicle) (events : List Event) :
    ∀ (s s' : QGCCameraManager), run v events s = Run.ok s' → SelectionInRange s →
      SelectionInRange s' := by
  induction events with
  | nil =>
    intro s s' h hinv
    cases h
    exact hinv
  | cons e rest ih =>
    intro s s' h hinv
    unfold run at h
    cases hstep : step v e s with
    | halt hh => rw [hstep] at h; cases h
    | ok s1 =>
      rw [hstep] at h
      exact ih s1 s' h (step_selectionInRange v e s s1 hstep hinv)

/-! ## Selection range -/

theorem init_selectionInRange (t0 : Int) : SelectionInRange (QGCCameraManager.init t0) :=
  ⟨le_refl _, Or.inr rfl⟩

/-- C5, as stated, fails: after two cameras are confirmed, the second one is selected and
two sweep ticks evict both, the roster is empty and `currentIndex` is `0` (assigned by the
sweep when it evicted the first camera and cameras remained), which is above
`len(instances) - 1 = -1`. -/
theorem selection_range_counterexample :
    run testVehicle evictAllEvents (QGCCameraManager.init 0) = Run.ok allEvicted
    ∧ allEvicted._cameras = []
    ∧ allEvicted._currentCamera = 0
    ∧ ¬ (-1 ≤ allEvicted._currentCamera
          ∧ allEvicted._currentCamera ≤ (allEvicted._cameras.length : Int) - 1) := by
  decide

/-- C5 (amended): starting from the manager's initial state (empty roster) and after every
event of every sequence of messages (heartbeats, info replies, camera-scoped messages),
sweep ticks, `setCurrentCamera` calls, step events and vehicle-ready notifications,
`currentIndex` satisfies `0 <= currentIndex`, `currentIndex <= len(instances) - 1`
whenever the roster is not empty, and `currentIndex == 0` whenever it is empty (the value
`-1` is never used; an empty roster is recognised by `currentCameraInstance()`). -/
theorem selection_range (v : Vehicle) (t0 : Int) (events : List Event) (s : QGCCameraManager)
    (h : run v events (QGCCameraManager.init t0) = Run.ok s) :
    0 ≤ s._currentCamera
    ∧ (s._cameras ≠ [] → s._currentCamera ≤ (s._cameras.length : Int) - 1)
    ∧ (s._cameras = [] → s._currentCamera = 0 ∧ currentCameraInstance s = Run.ok none) := by
  have hinv := run_selectionInRange v events _ s h (init_selectionInRange t0)
  unfold SelectionInRange at hinv
  refine ⟨hinv.1, ?_, ?_⟩
  · intro hne
    have hpos : 0 < s._cameras.length := List.length_pos.mpr hne
    rcases hinv.2 with h1 | h1 <;> omega
  · intro hnil
    have hlen : s._cameras.length = 0 := by rw [hnil]; rfl
    refine ⟨?_, ?_⟩
    · rcases hinv.2 with h1 | h1
      · rw [hlen] at h1
        have := hinv.1
        omega
      · exact h1
    · unfold currentCameraInstance
      rw [hnil]
      simp

/-- C5 (amended) at a concrete input: the event sequence `evictAllEvents`. -/
theorem selection_range_witness :
    run testVehicle evictAllEvents (QGCCameraManager.init 0) = Run.ok allEvicted
    ∧ 0 ≤ allEvicted._currentCamera
    ∧ (allEvicted._cameras ≠ [] →
        allEvicted._currentCamera ≤ (allEvicted._cameras.length : Int) - 1)
    ∧ (allEvicted._cameras = [] →
        allEvicted._currentCamera = 0 ∧ currentCameraInstance allEvicted = Run.ok none) :=
  ⟨by decide, selection_range testVehicle 0 evictAllEvents allEvicted (by decide)⟩

/-! ## Retry bound -/

theorem run_append (v : Vehicle) (pre post : List Event) :
    ∀ s : QGCCameraManager, run v (pre ++ post) s =
      match run v pre s with
      | Run.ok s1 => run v post s1
      | Run.halt h => Run.halt h := by
  induction pre with
  | nil => intro s; rfl
  | cons e rest ih =>
    intro s
    simp only [List.cons_append, run]
    cases step v e s with
    | ok s1 => exact ih s1
    | halt h => rfl

theorem requestsTo_requestCameraInfo (p : Nat) (s : QGCCameraManager) :
    requestsTo p (_requestCameraInfo p s) = requestsTo p s + 1 := by
  simp [requestsTo, _requestCameraInfo, List.filter_append]

theorem keys_assign_of_find (m : InfoMap) (k : Nat) (v v' : Option CameraStruct)
    (h : InfoMap.find m k = some v) : InfoMap.keys (InfoMap.assign m k v') = InfoMap.keys m := by
  induction m with
  | nil => simp [InfoMap.find] at h
  | cons e rest ih =>
    unfold InfoMap.assign
    by_cases he : e.1 = k
    · rw [if_pos he]
      simp [InfoMap.keys, he]
    · rw [if_neg he]
      simp only [InfoMap.find, if_neg he] at h
      simp only [InfoMap.keys, List.map_cons] at ih ⊢
      rw [ih h]

theorem cameraTimeout_empty (now : Int) (s : QGCCameraManager) (h : s._cameraInfoRequest = []) :
    _cameraTimeout now s = Run.ok s := by
  unfold _cameraTimeout
  rw [h]
  unfold sweepFuel cameraTimeoutLoop
  rw [h]
  simp [InfoMap.count]

theorem retryInv_requests_le (p base : Nat) (s : QGCCameraManager) (h : RetryInv p base s) :
    requestsTo p s ≤ base + 4 := by
  obtain ⟨-, -, h3⟩ := h
  cases hf : InfoMap.find s._cameraInfoRequest p with
  | none => rw [hf] at h3; have := h3.2; omega
  | some entry =>
    cases entry with
    | none => rw [hf] at h3; exact absurd h3 (by simp)
    | some r =>
      rw [hf] at h3
      obtain ⟨-, -, h4, hreq, -⟩ := h3
      omega

theorem retryInv_update (p base : Nat) (s : QGCCameraManager) (r r' : CameraStruct) (sent' : List MavCommand)
    (hinv : RetryInv p base s)
    (hf : InfoMap.find s._cameraInfoRequest p = some (some r))
    (hr' : r'.infoReceived = false ∧ 1 ≤ r'.tryCount ∧ r'.tryCount ≤ 4
      ∧ (((sent'.filter (fun c => decide (c.targetComponent = p))).length : Nat) : Int)
          = (base : Int) + r'.tryCount
      ∧ (r'.gaveUp = true → r'.tryCount = 4)) :
    RetryInv p base
      { s with _cameraInfoRequest := InfoMap.assign s._cameraInfoRequest p (some r')
               sent := sent' } := by
  obtain ⟨hwf, honly, -⟩ := hinv
  refine ⟨?_, ?_, ?_⟩
  · show (InfoMap.keys (InfoMap.assign s._cameraInfoRequest p (some r'))).Nodup
    rw [keys_assign_of_find _ _ _ _ hf]
    exact hwf
  · intro k r0 hk
    by_contra hne
    have hk' : InfoMap.find (InfoMap.assign s._cameraInfoRequest p (some r')) k
        = some (some r0) := hk
    rw [InfoMap.find_assign_other _ _ _ _ hne] at hk'
    exact hne (honly k r0 hk')
  · show (match InfoMap.find (InfoMap.assign s._cameraInfoRequest p (some r')) p with
      | none => _
      | some none => False
      | some (some r) => _)
    rw [InfoMap.find_assign_same]
    exact hr'

theorem handleHeartbeat_retry (v : Vehicle) (now : Int) (message : mavlink_message_t)
    (p base : Nat) (s : QGCCameraManager) (hp : message.compid = p) (hinv : RetryInv p base s) :
    ∃ s', _handleHeartbeat v now message s = Run.ok s' ∧ RetryInv p base s'
      ∧ (gaveUp p s = true → s' = s) := by
  subst hp
  unfold _handleHeartbeat
  split
  · cases hf : InfoMap.find s._cameraInfoRequest message.compid with
    | none =>
      have h3 := hinv.2.2
      rw [hf] at h3
      rw [if_pos (by rw [(InfoMap.contains_eq_false_iff _ _).mpr hf]; simp)]
      refine ⟨_, rfl, ?_, ?_⟩
      · simp only [h3.1]
        refine ⟨?_, ?_, ?_⟩
        · simp [_requestCameraInfo, InfoMap.WellFormed, InfoMap.keys, InfoMap.assign]
        · intro k r hk
          simp only [_requestCameraInfo, InfoMap.assign, InfoMap.find] at hk
          by_contra hne
          rw [if_neg (fun h => hne h.symm)] at hk
          cases hk
        · simp only [_requestCameraInfo, InfoMap.assign, InfoMap.find, if_true]
          refine ⟨rfl, by simp [CameraStruct.create], by simp [CameraStruct.create], ?_,
            by simp [CameraStruct.create]⟩
          have := h3.2
          simp only [requestsTo] at this ⊢
          simp [List.filter_append, CameraStruct.create, this]
      · intro hg
        simp [gaveUp, hf] at hg
    | some entry =>
      have h3 := hinv.2.2
      rw [hf] at h3
      cases entry with
      | none => exact absurd h3 (by simp)
      | some r =>
        obtain ⟨hrec, h1, h4, hreq, hgu⟩ := h3
        rw [if_neg (by rw [(InfoMap.contains_eq_true_iff _ _).mpr ⟨_, hf⟩]; simp),
          InfoMap.subscript_of_find_some _ _ _ hf]
        simp only
        have hnr : ¬ (r.infoReceived = true) := by rw [hrec]; simp
        rw [if_neg hnr]
        have hgs : gaveUp message.compid s = r.gaveUp := by simp [gaveUp, hf]
        split
        · split
          · split
            · rename_i hng
              refine ⟨_, rfl, ?_, ?_⟩
              · exact retryInv_update _ base s r { r with gaveUp := true } s.sent hinv hf
                  ⟨hrec, h1, h4, hreq, fun _ => by show r.tryCount = 4; omega⟩
              · intro hg
                rw [hgs] at hg
                exact absurd hg hng
            · exact ⟨_, rfl, hinv, fun _ => rfl⟩
          · rename_i hle
            refine ⟨_, rfl, ?_, ?_⟩
            · have := retryInv_update _ base s r { r with tryCount := r.tryCount + 1 }
                (s.sent ++ [{ targetComponent := message.compid, showError := false,
                              param1 := 1 }]) hinv hf
                ⟨hrec, by show 1 ≤ r.tryCount + 1; omega, by show r.tryCount + 1 ≤ 4; omega,
                 by
                  simp only [requestsTo] at hreq
                  simp only [List.filter_append, List.length_append]
                  simp
                  omega,
                 fun hg => by
                  have := hgu hg
                  omega⟩
              exact this
            · intro hg
              rw [hgs] at hg
              have := hgu hg
              omega
        · exact ⟨_, rfl, hinv, fun _ => rfl⟩
  · exact ⟨s, rfl, hinv, fun _ => rfl⟩

theorem cameraTimeout_retry (now : Int) (p base : Nat) (s : QGCCameraManager)
    (hinv : RetryInv p base s) :
    ∃ s', _cameraTimeout now s = Run.ok s' ∧ RetryInv p base s'
      ∧ gaveUp p s' = gaveUp p s ∧ requestsTo p s' = requestsTo p s := by
  by_cases hempty : s._cameraInfoRequest = []
  · exact ⟨s, cameraTimeout_empty now s hempty, hinv, rfl, rfl⟩
  · obtain ⟨hwf, honly, h3⟩ := hinv
    have hns : ∀ k r, InfoMap.find s._cameraInfoRequest k = some (some r) →
        ¬ StaleConfirmed now r := by
      intro k r hk hst
      have hkp := honly k r hk
      subst hkp
      rw [hk] at h3
      obtain ⟨hrec, -⟩ := h3
      have := hst.1
      rw [hrec] at this
      cases this
    obtain ⟨pad, hpad, hrun⟩ := cameraTimeout_no_stale now s hwf hns
    cases hf : InfoMap.find s._cameraInfoRequest p with
    | none => rw [hf] at h3; exact absurd h3.1 hempty
    | some entry =>
      have hf' : InfoMap.find (s._cameraInfoRequest ++ pad) p = some entry :=
        find_append_pad_of_some _ _ _ _ hf
      refine ⟨_, hrun, ⟨wellFormed_append_pad _ _ hpad hwf, ?_, ?_⟩, ?_, rfl⟩
      · intro k r hk
        exact honly k r ((find_append_pad_record _ _ hpad k r).mp hk)
      · show (match InfoMap.find (s._cameraInfoRequest ++ pad) p with
          | none => _
          | some none => False
          | some (some r) => _)
        rw [hf']
        rw [hf] at h3
        cases entry with
        | none => exact h3
        | some r => exact h3
      · simp only [gaveUp]
        rw [hf', hf]

theorem step_retry (v : Vehicle) (e : Event) (p base : Nat) (s : QGCCameraManager)
    (he : Event.isHeartbeatOrSweep p e) (hinv : RetryInv p base s) :
    ∃ s', step v e s = Run.ok s' ∧ RetryInv p base s'
      ∧ (gaveUp p s = true → gaveUp p s' = true ∧ requestsTo p s' = requestsTo p s) := by
  cases e with
  | mavlinkMessage now message =>
    obtain ⟨hp, hkind⟩ := he
    simp only [step, _mavlinkMessageReceived, hkind]
    split
    · obtain ⟨s', hs', hinv', hsame⟩ := handleHeartbeat_retry v now message p base s hp hinv
      refine ⟨s', hs', hinv', ?_⟩
      intro hg
      rw [hsame hg]
      exact ⟨hg, rfl⟩
    · exact ⟨s, rfl, hinv, fun hg => ⟨hg, rfl⟩⟩
  | cameraTimeout now =>
    obtain ⟨s', hs', hinv', hg', hreq'⟩ := cameraTimeout_retry now p base s hinv
    exact ⟨s', hs', hinv', fun hg => ⟨by rw [hg', hg], hreq'⟩⟩
  | setCurrentCamera sel => exact absurd he (by simp [Event.isHeartbeatOrSweep])
  | stepZoom now d => exact absurd he (by simp [Event.isHeartbeatOrSweep])
  | stepCamera now d => exact absurd he (by simp [Event.isHeartbeatOrSweep])
  | stepStream now d => exact absurd he (by simp [Event.isHeartbeatOrSweep])
  | vehicleReady ready isActive joystick =>
    exact absurd he (by simp [Event.isHeartbeatOrSweep])

theorem run_retry (v : Vehicle) (p base : Nat) (events : List Event) :
    ∀ s : QGCCameraManager, (∀ e ∈ events, Event.isHeartbeatOrSweep p e) → RetryInv p base s →
      ∃ s', run v events s = Run.ok s' ∧ RetryInv p base s'
        ∧ (gaveUp p s = true → gaveUp p s' = true ∧ requestsTo p s' = requestsTo p s) := by
  induction events with
  | nil => intro s _ hinv; exact ⟨s, rfl, hinv, fun hg => ⟨hg, rfl⟩⟩
  | cons e rest ih =>
    intro s hev hinv
    obtain ⟨s1, hs1, hinv1, hg1⟩ := step_retry v e p base s
      (hev e (List.mem_cons_self _ _)) hinv
    obtain ⟨s', hs', hinv', hg'⟩ := ih s1
      (fun e' he' => hev e' (List.mem_cons_of_mem _ he')) hinv1
    refine ⟨s', ?_, hinv', ?_⟩
    · simp only [run, hs1]
      exact hs'
    · intro hg
      obtain ⟨hga, hra⟩ := hg1 hg
      obtain ⟨hgb, hrb⟩ := hg' hga
      exact ⟨hgb, by rw [hrb, hra]⟩

theorem retryInv_start (p : Nat) (s0 : QGCCameraManager) (h0 : s0._cameraInfoRequest = []) :
    RetryInv p (requestsTo p s0) s0 := by
  refine ⟨?_, ?_, ?_⟩
  · rw [h0]; simp [InfoMap.WellFormed, InfoMap.keys]
  · intro k r hk
    rw [h0] at hk
    simp [InfoMap.find] at hk
  · rw [h0]
    simp [InfoMap.find]

/-- C2: retry bound.  From a manager without discovery records, every sequence of
heartbeats from component `p` and sweep ticks, at arbitrary instants and with no info
reply, runs to completion; the number of info-request commands sent to `p` during it is
at most 4 (a record is created with `tryCount = 1`); and from any point of the sequence at
which the record's `gaveUp` flag is set, the flag stays set and no further request is sent
to `p`. -/
theorem retry_bound (v : Vehicle) (p : Nat) (s0 : QGCCameraManager) (events : List Event)
    (h0 : s0._cameraInfoRequest = [])
    (hev : ∀ e ∈ events, Event.isHeartbeatOrSweep p e) :
    ∃ s, run v events s0 = Run.ok s
      ∧ requestsTo p s ≤ requestsTo p s0 + 4
      ∧ ∀ pre post s1, events = pre ++ post → run v pre s0 = Run.ok s1 →
          gaveUp p s1 = true → gaveUp p s = true ∧ requestsTo p s = requestsTo p s1 := by
  obtain ⟨s, hs, hinv, -⟩ := run_retry v p (requestsTo p s0) events s0 hev
    (retryInv_start p s0 h0)
  refine ⟨s, hs, retryInv_requests_le p _ s hinv, ?_⟩
  intro pre post s1 hsplit hpre hg
  subst hsplit
  have hevpre : ∀ e ∈ pre, Event.isHeartbeatOrSweep p e :=
    fun e he => hev e (List.mem_append_left _ he)
  have hevpost : ∀ e ∈ post, Event.isHeartbeatOrSweep p e :=
    fun e he => hev e (List.mem_append_right _ he)
  obtain ⟨s1', hs1', hinv1, -⟩ := run_retry v p (requestsTo p s0) pre s0 hevpre
    (retryInv_start p s0 h0)
  rw [hpre] at hs1'
  cases hs1'
  obtain ⟨s2, hs2, -, hkeep⟩ := run_retry v p (requestsTo p s0) post s1 hevpost hinv1
  rw [run_append, hpre] at hs
  simp only at hs
  rw [hs2] at hs
  cases hs
  exact hkeep hg

theorem silentPeerEvents_kind : ∀ e ∈ silentPeerEvents, Event.isHeartbeatOrSweep 7 e := by
  intro e he
  simp only [silentPeerEvents, List.mem_cons, List.mem_singleton, List.not_mem_nil,
    or_false] at he
  rcases he with rfl | rfl | rfl | rfl | rfl | rfl | rfl | rfl | rfl | rfl <;>
    simp [Event.isHeartbeatOrSweep, heartbeatFrom]

/-- C2 at a concrete input: component 7 sends six heartbeats and never an info reply;
exactly four requests are sent to it and its record ends with `gaveUp` set. -/
theorem retry_bound_witness :
    run testVehicle silentPeerEvents readyManager = Run.ok silentPeerFinal
    ∧ requestsTo 7 silentPeerFinal = 4
    ∧ gaveUp 7 silentPeerFinal = true
    ∧ ∃ s, run testVehicle silentPeerEvents readyManager = Run.ok s
      ∧ requestsTo 7 s ≤ requestsTo 7 readyManager + 4
      ∧ ∀ pre post s1, silentPeerEvents = pre ++ post →
          run testVehicle pre readyManager = Run.ok s1 →
          gaveUp 7 s1 = true → gaveUp 7 s = true ∧ requestsTo 7 s = requestsTo 7 s1 :=
  ⟨by decide, by decide, by decide,
   retry_bound testVehicle 7 readyManager silentPeerEvents rfl silentPeerEvents_kind⟩

/-! ## Well-formedness of the record container in reachable states -/

theorem keys_assign_of_absent (m : InfoMap) (k : Nat) (v : Option CameraStruct)
    (h : InfoMap.find m k = none) :
    InfoMap.keys (InfoMap.assign m k v) = InfoMap.keys m ++ [k] := by
  induction m with
  | nil => simp [InfoMap.assign, InfoMap.keys]
  | cons e rest ih =>
    unfold InfoMap.assign
    by_cases he : e.1 = k
    · simp [InfoMap.find, he] at h
    · rw [if_neg he]
      simp only [InfoMap.find, if_neg he] at h
      simp only [InfoMap.keys, List.map_cons, List.cons_append] at ih ⊢
      rw [ih h]

theorem wellFormed_assign (m : InfoMap) (k : Nat) (v : Option CameraStruct)
    (hwf : InfoMap.WellFormed m) : InfoMap.WellFormed (InfoMap.assign m k v) := by
  unfold InfoMap.WellFormed at *
  cases hf : InfoMap.find m k with
  | some v0 => rw [keys_assign_of_find m k v0 v hf]; exact hwf
  | none =>
    rw [keys_assign_of_absent m k v hf, List.nodup_append]
    refine ⟨hwf, by simp, ?_⟩
    intro a ha hb
    simp only [List.mem_singleton] at hb
    rw [hb] at ha
    exact InfoMap.find_none_not_mem_keys m k hf ha

theorem wellFormed_remove (m : InfoMap) (k : Nat) (hwf : InfoMap.WellFormed m) :
    InfoMap.WellFormed (InfoMap.remove m k) := by
  unfold InfoMap.WellFormed InfoMap.keys InfoMap.remove at *
  exact (List.Sublist.map Prod.fst (List.filter_sublist m)).nodup hwf

theorem handleHeartbeat_wellFormed (v : Vehicle) (now : Int) (message : mavlink_message_t)
    (s s' : QGCCameraManager) (h : _handleHeartbeat v now message s = Run.ok s')
    (hwf : InfoMap.WellFormed s._cameraInfoRequest) :
    InfoMap.WellFormed s'._cameraInfoRequest := by
  unfold _handleHeartbeat at h
  split at h
  · split at h
    · cases h; exact wellFormed_assign _ _ _ hwf
    · cases hf : InfoMap.find s._cameraInfoRequest message.compid with
      | none =>
        rw [InfoMap.subscript_of_find_none _ _ hf] at h
        cases h
      | some entry =>
        rw [InfoMap.subscript_of_find_some _ _ _ hf] at h
        cases entry with
        | none => cases h
        | some r =>
          simp only at h
          repeat' split at h
          all_goals
            cases h
            first
              | exact wellFormed_assign _ _ _ hwf
              | exact hwf
  · cases h; exact hwf

theorem handleCameraInfo_wellFormed (v : Vehicle) (message : mavlink_message_t)
    (s s' : QGCCameraManager) (h : _handleCameraInfo v message s = Run.ok s')
    (hwf : InfoMap.WellFormed s._cameraInfoRequest) :
    InfoMap.WellFormed s'._cameraInfoRequest := by
  unfold _handleCameraInfo at h
  split at h
  · cases hf : InfoMap.find s._cameraInfoRequest message.compid with
    | none =>
      rw [InfoMap.subscript_of_find_none _ _ hf] at h
      cases h
    | some entry =>
      rw [InfoMap.subscript_of_find_some _ _ _ hf] at h
      cases entry with
      | none => cases h
      | some r =>
        simp only at h
        repeat' split at h
        all_goals
          cases h
          first
            | exact wellFormed_assign _ _ _ hwf
            | exact hwf
  · cases h; exact hwf

theorem cameraTimeout_wellFormed (now : Int) (s s' : QGCCameraManager)
    (h : _cameraTimeout now s = Run.ok s')
    (hwf : InfoMap.WellFormed s._cameraInfoRequest) :
    InfoMap.WellFormed s'._cameraInfoRequest := by
  rcases cameraTimeout_ok now s s' h with ⟨pad, hpad, hs'⟩ | ⟨k, r0, pad, hpad, -, -, hevict⟩
  · subst hs'
    exact wellFormed_append_pad _ _ hpad hwf
  · obtain ⟨c, -, -, -, hrec, -⟩ := evictCamera_ok k _ s' hevict
    rw [hrec]
    exact wellFormed_remove _ k (wellFormed_append_pad _ _ hpad hwf)

theorem forwardToCamera_records (kind : MsgId) (message : mavlink_message_t)
    (s : QGCCameraManager) :
    (forwardToCamera kind message s)._cameraInfoRequest = s._cameraInfoRequest := by
  unfold forwardToCamera
  split <;> rfl

theorem stepZoom_records (now d : Int) (s s' : QGCCameraManager) (h : _stepZoom now d s = Run.ok s') :
    s'._cameraInfoRequest = s._cameraInfoRequest := by
  unfold _stepZoom at h
  split at h
  · simp only at h
    split at h
    · cases h
    · cases h; rfl
    · cases h; rfl
  · cases h; rfl

theorem stepStream_records (now d : Int) (s s' : QGCCameraManager)
    (h : _stepStream now d s = Run.ok s') :
    s'._cameraInfoRequest = s._cameraInfoRequest := by
  unfold _stepStream at h
  split at h
  · simp only at h
    split at h
    · cases h
    · cases h; rfl
    · cases h; rfl
  · cases h; rfl

theorem stepCamera_records (now d : Int) (s : QGCCameraManager) :
    (_stepCamera now d s)._cameraInfoRequest = s._cameraInfoRequest := by
  unfold _stepCamera
  split
  · rw [setCurrentCamera_records]
  · rfl

theorem vehicleReady_records (ready isActive : Bool) (joystick : Option Nat) (s : QGCCameraManager) :
    (_vehicleReady ready isActive joystick s)._cameraInfoRequest = s._cameraInfoRequest := by
  unfold _vehicleReady _activeJoystickChanged
  split
  · split <;> rfl
  · rfl

theorem step_wellFormed (v : Vehicle) (e : Event) (s s' : QGCCameraManager)
    (h : step v e s = Run.ok s') (hwf : InfoMap.WellFormed s._cameraInfoRequest) :
    InfoMap.WellFormed s'._cameraInfoRequest := by
  cases e with
  | mavlinkMessage now message =>
    simp only [step, _mavlinkMessageReceived] at h
    split at h
    · split at h
      case h_3 => exact handleHeartbeat_wellFormed v now message s s' h hwf
      case h_4 => exact handleCameraInfo_wellFormed v message s s' h hwf
      all_goals
        cases h
        first
          | (show InfoMap.WellFormed (forwardToCamera _ message s)._cameraInfoRequest
             rw [forwardToCamera_records]; exact hwf)
          | exact hwf
    · cases h; exact hwf
  | cameraTimeout now => exact cameraTimeout_wellFormed now s s' h hwf
  | setCurrentCamera sel =>
    cases h
    rw [setCurrentCamera_records]; exact hwf
  | stepZoom now d => rw [stepZoom_records now d s s' h]; exact hwf
  | stepCamera now d =>
    cases h
    rw [stepCamera_records]; exact hwf
  | stepStream now d => rw [stepStream_records now d s s' h]; exact hwf
  | vehicleReady ready isActive joystick =>
    cases h
    rw [vehicleReady_records]; exact hwf

theorem run_wellFormed (v : Vehicle) (events : List Event) :
    ∀ (s s' : QGCCameraManager), run v events s = Run.ok s' →
      InfoMap.WellFormed s._cameraInfoRequest → InfoMap.WellFormed s'._cameraInfoRequest := by
  induction events with
  | nil =>
    intro s s' h hwf
    cases h
    exact hwf
  | cons e rest ih =>
    intro s s' h hwf
    unfold run at h
    cases hstep : step v e s with
    | halt hh => rw [hstep] at h; cases h
    | ok s1 =>
      rw [hstep] at h
      exact ih s1 s' h (step_wellFormed v e s s1 hstep hwf)

/-- In every reachable state the record container holds at most one entry per key. -/
theorem reachable_wellFormed (v : Vehicle) (s : QGCCameraManager) (h : Reachable v s) :
    InfoMap.WellFormed s._cameraInfoRequest := by
  obtain ⟨t0, events, hrun⟩ := h
  exact run_wellFormed v events _ s hrun (by simp [QGCCameraManager.init, InfoMap.WellFormed, InfoMap.keys])

theorem evictCamera_not_exhausted (i : Nat) (s : QGCCameraManager) :
    evictCamera i s ≠ Run.halt Halt.fuelExhausted := by
  cases hc : _findCamera i s with
  | none => rw [evictCamera_not_found i s hc]; simp
  | some c =>
    obtain ⟨s', hs'⟩ := evictCamera_total i s c hc
    rw [hs']; simp

/-- The iteration budget is never used up on a well-formed container whose keys are below
`fuel + i`. -/
theorem cameraTimeoutLoop_not_exhausted (now : Int) (fuel : Nat) :
    ∀ (i : Nat) (s : QGCCameraManager), InfoMap.WellFormed s._cameraInfoRequest →
      (∀ k ∈ InfoMap.keys s._cameraInfoRequest, k < fuel + i) →
      cameraTimeoutLoop now fuel i s ≠ Run.halt Halt.fuelExhausted := by
  induction fuel with
  | zero =>
    intro i s hwf hb
    unfold cameraTimeoutLoop
    have hcount := count_le_of_keys_lt _ i hwf (by simpa using hb)
    rw [if_neg (by omega)]
    simp
  | succ fuel ih =>
    intro i s hwf hb
    unfold cameraTimeoutLoop
    split
    · cases hf : InfoMap.find s._cameraInfoRequest i with
      | none =>
        rw [InfoMap.subscript_of_find_none _ _ hf]
        simp only
        have hpad1 : NullPad s._cameraInfoRequest [(i, none)] :=
          ⟨by simp, by simp [InfoMap.keys], by simpa using hf⟩
        apply ih (i + 1) _ (wellFormed_append_pad _ _ hpad1 hwf)
        intro k hk
        simp only [keys_append, List.mem_append] at hk
        rcases hk with hk | hk
        · have := hb k hk; omega
        · simp [InfoMap.keys] at hk; omega
      | some entry =>
        rw [InfoMap.subscript_of_find_some _ _ _ hf]
        cases entry with
        | none =>
          simp only
          exact ih (i + 1) s hwf (fun k hk => by have := hb k hk; omega)
        | some r =>
          simp only
          split
          · exact evictCamera_not_exhausted i _
          · exact ih (i + 1) s hwf (fun k hk => by have := hb k hk; omega)
    · simp

/-- Enough fuel: in every reachable state the sweep stops by itself, either with a next
state or at the dereference of a null camera pointer. -/
theorem cameraTimeout_not_exhausted (v : Vehicle) (now : Int) (s : QGCCameraManager)
    (h : Reachable v s) : _cameraTimeout now s ≠ Run.halt Halt.fuelExhausted := by
  unfold _cameraTimeout
  exact cameraTimeoutLoop_not_exhausted now _ 0 s (reachable_wellFormed v s h)
    (fun k hk => by have := lt_sweepFuel_of_mem_keys _ k hk; omega)

/-! ## Replies after giving up -/

/-- C11, as stated, fails: in the state `silentPeerFinal`, reached by heartbeats from
component 7 that exhaust the retry budget, the record of component 7 has `gaveUp` set; an
info reply from component 7 is nevertheless processed: the record becomes InfoReceived and
a Camera Instance with its label is created. -/
theorem handleCameraInfo_gaveUp_counterexample :
    run testVehicle silentPeerEvents readyManager = Run.ok silentPeerFinal
    ∧ gaveUp 7 silentPeerFinal = true
    ∧ silentPeerFinal._cameras = []
    ∧ _handleCameraInfo testVehicle (infoFrom 7 [1]) silentPeerFinal = Run.ok lateReply7
    ∧ lateReply7._cameras = [mkCamera 7 "7"]
    ∧ lateReply7._cameraLabels = ["7"]
    ∧ InfoMap.find lateReply7._cameraInfoRequest 7
        = some (some { lastHeartbeat := 0, infoReceived := true, gaveUp := true,
                       tryCount := 4 }) := by
  decide

/-- C11 (amended): an info reply for peer `p` is processed if and only if `p`'s record
exists and is not yet InfoReceived, whether it is still Requesting or has given up.  A
reply for a peer without entry, or whose record is InfoReceived, leaves the whole state
unchanged.  For a record that is not InfoReceived, in particular one with `gaveUp` set
after the retry budget was exhausted, the reply is processed: the record becomes
InfoReceived with its other fields (`gaveUp` included) unchanged, and when the factory
accepts the payload its Camera Instance and label are appended to the roster. -/
theorem handleCameraInfo_processed_iff (v : Vehicle) (message : mavlink_message_t)
    (s : QGCCameraManager) :
    (InfoMap.find s._cameraInfoRequest message.compid = none →
      _handleCameraInfo v message s = Run.ok s)
    ∧ (∀ r, InfoMap.find s._cameraInfoRequest message.compid = some (some r) →
        r.infoReceived = true → _handleCameraInfo v message s = Run.ok s)
    ∧ (∀ r, InfoMap.find s._cameraInfoRequest message.compid = some (some r) →
        r.infoReceived = false →
        ∃ s', _handleCameraInfo v message s = Run.ok s'
          ∧ InfoMap.find s'._cameraInfoRequest message.compid
              = some (some { r with infoReceived := true })
          ∧ (∀ c, v.createCameraControl message.payload message.compid = some c →
              s'._cameras = s._cameras ++ [c]
              ∧ s'._cameraLabels = s._cameraLabels ++ [c.modelName])
          ∧ (v.createCameraControl message.payload message.compid = none →
              s'._cameras = s._cameras ∧ s'._cameraLabels = s._cameraLabels)) := by
  refine ⟨handleCameraInfo_absent v message s,
    fun r hf hr => handleCameraInfo_received v message s r hf hr, ?_⟩
  intro r hf hr
  have h := handleCameraInfo_waiting v message s r hf hr
  cases hc : v.createCameraControl message.payload message.compid with
  | none =>
    rw [hc] at h
    exact ⟨_, h, InfoMap.find_assign_same _ _ _, (fun c hcc => by cases hcc),
      (fun _ => ⟨rfl, rfl⟩)⟩
  | some c =>
    rw [hc] at h
    refine ⟨_, h, InfoMap.find_assign_same _ _ _, ?_, (fun hcc => by cases hcc)⟩
    intro c' hcc
    cases hcc
    exact ⟨rfl, rfl⟩

/-- C11 (amended) at a concrete input: the reply for component 7 in `silentPeerFinal`,
where the record has given up. -/
theorem handleCameraInfo_processed_iff_witness :
    ∃ s', _handleCameraInfo testVehicle (infoFrom 7 [1]) silentPeerFinal = Run.ok s'
      ∧ InfoMap.find s'._cameraInfoRequest (infoFrom 7 [1]).compid
          = some (some { lastHeartbeat := 0, infoReceived := true, gaveUp := true,
                         tryCount := 4 })
      ∧ (∀ c, testVehicle.createCameraControl (infoFrom 7 [1]).payload
                (infoFrom 7 [1]).compid = some c →
          s'._cameras = silentPeerFinal._cameras ++ [c]
          ∧ s'._cameraLabels = silentPeerFinal._cameraLabels ++ [c.modelName])
      ∧ (testVehicle.createCameraControl (infoFrom 7 [1]).payload
            (infoFrom 7 [1]).compid = none →
          s'._cameras = silentPeerFinal._cameras
          ∧ s'._cameraLabels = silentPeerFinal._cameraLabels) :=
  (handleCameraInfo_processed_iff testVehicle (infoFrom 7 [1]) silentPeerFinal).2.2
    { lastHeartbeat := 0, infoReceived := false, gaveUp := true, tryCount := 4 }
    (by decide) rfl

/-! ## Uniqueness of the roster -/

theorem confirmed_assign (m : InfoMap) (p : Nat) (r2 : CameraStruct)
    (hkeep : ∀ r, InfoMap.find m p = some (some r) → r.infoReceived = true →
      r2.infoReceived = true) :
    ∀ k r0, InfoMap.find m k = some (some r0) → r0.infoReceived = true →
      ∃ r', InfoMap.find (InfoMap.assign m p (some r2)) k = some (some r')
        ∧ r'.infoReceived = true := by
  intro k r0 hk hr0
  by_cases hkp : k = p
  · subst hkp
    exact ⟨r2, InfoMap.find_assign_same _ _ _, hkeep r0 hk hr0⟩
  · exact ⟨r0, by rw [InfoMap.find_assign_other _ _ _ _ hkp]; exact hk, hr0⟩

/-- A heartbeat keeps every InfoReceived record InfoReceived. -/
theorem handleHeartbeat_confirmed (v : Vehicle) (now : Int) (message : mavlink_message_t)
    (s s' : QGCCameraManager) (h : _handleHeartbeat v now message s = Run.ok s') :
    ∀ k r0, InfoMap.find s._cameraInfoRequest k = some (some r0) → r0.infoReceived = true →
      ∃ r', InfoMap.find s'._cameraInfoRequest k = some (some r') ∧ r'.infoReceived = true := by
  unfold _handleHeartbeat at h
  split at h
  · cases hf : InfoMap.find s._cameraInfoRequest message.compid with
    | none =>
      rw [if_pos (by rw [(InfoMap.contains_eq_false_iff _ _).mpr hf]; simp)] at h
      cases h
      apply confirmed_assign
      intro r hr
      rw [hf] at hr
      cases hr
    | some entry =>
      rw [if_neg (by rw [(InfoMap.contains_eq_true_iff _ _).mpr ⟨_, hf⟩]; simp),
        InfoMap.subscript_of_find_some _ _ _ hf] at h
      cases entry with
      | none => cases h
      | some r =>
        simp only at h
        have hsame : ∀ r1, InfoMap.find s._cameraInfoRequest message.compid = some (some r1) →
            r1 = r := by
          intro r1 h1
          rw [hf] at h1
          injection h1 with h2
          injection h2 with h3
          exact h3.symm
        repeat' split at h
        all_goals
          cases h
          first
            | exact fun k r0 hk hr0 => ⟨r0, hk, hr0⟩
            | (apply confirmed_assign
               intro r1 h1 hr1
               rw [hsame r1 h1] at hr1
               exact hr1)
  · cases h
    exact fun k r0 hk hr0 => ⟨r0, hk, hr0⟩

theorem nodup_append_singleton (l : List Nat) (a : Nat) (hl : l.Nodup) (ha : a ∉ l) :
    (l ++ [a]).Nodup := by
  rw [List.nodup_append]
  refine ⟨hl, by simp, ?_⟩
  intro x hx hy
  simp only [List.mem_singleton] at hy
  rw [hy] at hx
  exact ha hx

theorem handleCameraInfo_rosterInv (v : Vehicle) (hv : v.keepsCompID)
    (message : mavlink_message_t) (s s' : QGCCameraManager)
    (h : _handleCameraInfo v message s = Run.ok s') (hinv : RosterInv s) : RosterInv s' := by
  cases hf : InfoMap.find s._cameraInfoRequest message.compid with
  | none =>
    rw [handleCameraInfo_absent v message s hf] at h
    cases h
    exact hinv
  | some entry =>
    cases entry with
    | none =>
      rw [handleCameraInfo_null v message s hf] at h
      cases h
    | some r =>
      cases hr : r.infoReceived with
      | true =>
        rw [handleCameraInfo_received v message s r hf hr] at h
        cases h
        exact hinv
      | false =>
        rw [handleCameraInfo_waiting v message s r hf hr] at h
        have hrec : ∀ k r0, InfoMap.find s._cameraInfoRequest k = some (some r0) →
            r0.infoReceived = true →
            ∃ r', InfoMap.find (InfoMap.assign s._cameraInfoRequest message.compid
                (some { r with infoReceived := true })) k = some (some r')
              ∧ r'.infoReceived = true :=
          confirmed_assign _ _ _ (fun _ _ _ => rfl)
        have hnew : message.compid ∉ rosterIds s := by
          intro hmem
          obtain ⟨r1, h1, hr1⟩ := hinv.2 _ hmem
          rw [hf] at h1
          injection h1 with h2
          injection h2 with h3
          rw [← h3, hr] at hr1
          cases hr1
        cases hc : v.createCameraControl message.payload message.compid with
        | none =>
          rw [hc] at h
          cases h
          refine ⟨hinv.1, ?_⟩
          intro k hk
          obtain ⟨r1, h1, hr1⟩ := hinv.2 k hk
          exact hrec k r1 h1 hr1
        | some c =>
          rw [hc] at h
          cases h
          have hid : c.compID = message.compid := hv _ _ c hc
          have hids : rosterIds
              { s with
                _cameraInfoRequest := InfoMap.assign s._cameraInfoRequest message.compid
                  (some { r with infoReceived := true })
                _cameras := s._cameras ++ [c]
                _cameraLabels := s._cameraLabels ++ [c.modelName]
                emitted := s.emitted ++ [Signal.camerasChanged, Signal.cameraLabelsChanged] }
              = rosterIds s ++ [message.compid] := by
            simp [rosterIds, hid]
          refine ⟨?_, ?_⟩
          · rw [hids]
            exact nodup_append_singleton _ _ hinv.1 hnew
          · intro k hk
            rw [hids, List.mem_append] at hk
            rcases hk with hk | hk
            · obtain ⟨r1, h1, hr1⟩ := hinv.2 k hk
              exact hrec k r1 h1 hr1
            · simp only [List.mem_singleton] at hk
              subst hk
              exact ⟨_, InfoMap.find_assign_same _ _ _, rfl⟩

theorem rosterIds_erase (l : List QGCCameraControl) (c : QGCCameraControl)
    (hnd : (l.map (fun x => x.compID)).Nodup) (hc : c ∈ l) :
    ((l.erase c).map (fun x => x.compID)).Nodup
    ∧ ∀ k ∈ (l.erase c).map (fun x => x.compID),
        k ∈ l.map (fun x => x.compID) ∧ k ≠ c.compID := by
  obtain ⟨pre, post, hpre, hl, hle⟩ := List.exists_erase_eq hc
  rw [hle]
  rw [hl] at hnd
  simp only [List.map_append, List.map_cons] at hnd ⊢
  have hnd' := hnd
  rw [List.nodup_append] at hnd
  obtain ⟨h1, h2, h3⟩ := hnd
  rw [List.nodup_cons] at h2
  constructor
  · rw [List.nodup_append]
    refine ⟨h1, h2.2, ?_⟩
    intro a ha hb
    exact h3 ha (List.mem_cons_of_mem _ hb)
  · intro k hk
    rw [hl]
    simp only [List.map_append, List.map_cons, List.mem_append, List.mem_cons]
    rw [List.mem_append] at hk
    rcases hk with hk | hk
    · refine ⟨Or.inl hk, ?_⟩
      intro heq
      rw [heq] at hk
      exact h3 hk (List.mem_cons_self _ _)
    · refine ⟨Or.inr (Or.inr hk), ?_⟩
      intro heq
      rw [heq] at hk
      exact h2.1 hk

theorem cameraTimeout_rosterInv (now : Int) (s s' : QGCCameraManager)
    (h : _cameraTimeout now s = Run.ok s') (hinv : RosterInv s) : RosterInv s' := by
  rcases cameraTimeout_ok now s s' h with ⟨pad, hpad, hs'⟩ | ⟨k, r0, pad, hpad, -, -, hevict⟩
  · subst hs'
    refine ⟨hinv.1, ?_⟩
    intro k hk
    obtain ⟨r1, h1, hr1⟩ := hinv.2 k hk
    exact ⟨r1, find_append_pad_of_some _ _ _ _ h1, hr1⟩
  · obtain ⟨c, hc, hcams, -, hrec, -⟩ := evictCamera_ok k _ s' hevict
    have hc' : _findCamera k s = some c := hc
    have hid := (findCamera_some k s c hc').1
    have hmem : c ∈ s._cameras := List.mem_of_find?_eq_some hc'
    have her := rosterIds_erase s._cameras c hinv.1 hmem
    have hids : rosterIds s' = (s._cameras.erase c).map (fun x => x.compID) := by
      unfold rosterIds
      rw [hcams]
    refine ⟨by rw [hids]; exact her.1, ?_⟩
    intro k' hk'
    rw [hids] at hk'
    obtain ⟨hin, hne⟩ := her.2 k' hk'
    obtain ⟨r1, h1, hr1⟩ := hinv.2 k' hin
    refine ⟨r1, ?_, hr1⟩
    rw [hrec, InfoMap.find_remove_other _ _ _ (by rw [← hid]; exact hne)]
    exact find_append_pad_of_some _ _ _ _ h1

theorem map_compID_replace (l : List QGCCameraControl) (c c' : QGCCameraControl)
    (h : c'.compID = c.compID) :
    (l.replace c c').map (fun x => x.compID) = l.map (fun x => x.compID) := by
  induction l with
  | nil => rfl
  | cons y ys ih =>
    rw [List.replace_cons]
    by_cases hy : y = c
    · subst hy
      simp [h]
    · have hne : (c == y) = false := by
        simp only [beq_eq_false_iff_ne, ne_eq]
        exact fun h => hy h.symm
      rw [hne]
      simp only [List.map_cons, ih]

theorem map_compID_set (l : List QGCCameraControl) (i : Nat) (c c' : QGCCameraControl)
    (hget : l[i]? = some c) (h : c'.compID = c.compID) :
    (l.set i c').map (fun x => x.compID) = l.map (fun x => x.compID) := by
  induction l generalizing i with
  | nil => rfl
  | cons y ys ih =>
    cases i with
    | zero =>
      simp only [List.getElem?_cons_zero, Option.some.injEq] at hget
      subst hget
      simp [h]
    | succ j =>
      simp only [List.getElem?_cons_succ] at hget
      simp only [List.set_cons_succ, List.map_cons, ih j hget]

theorem forwardToCamera_rosterIds (kind : MsgId) (message : mavlink_message_t)
    (s : QGCCameraManager) : rosterIds (forwardToCamera kind message s) = rosterIds s := by
  unfold forwardToCamera rosterIds
  split
  · exact map_compID_replace _ _ _ rfl
  · rfl

theorem currentCameraInstance_some (s : QGCCameraManager) (c : QGCCameraControl)
    (h : currentCameraInstance s = Run.ok (some c)) :
    s._cameras[s._currentCamera.toNat]? = some c := by
  unfold currentCameraInstance at h
  split at h
  · split at h
    · cases h
    · exact Run.ok.inj h
  · cases h

theorem stepZoom_rosterIds (now d : Int) (s s' : QGCCameraManager)
    (h : _stepZoom now d s = Run.ok s') :
    rosterIds s' = rosterIds s ∧ s'._cameraInfoRequest = s._cameraInfoRequest := by
  unfold _stepZoom at h
  split at h
  · simp only at h
    split at h
    · cases h
    · cases h; exact ⟨rfl, rfl⟩
    · rename_i pCamera hcur
      cases h
      exact ⟨map_compID_set _ _ pCamera _ (currentCameraInstance_some _ _ hcur) rfl, rfl⟩
  · cases h; exact ⟨rfl, rfl⟩

theorem stepStream_rosterIds (now d : Int) (s s' : QGCCameraManager)
    (h : _stepStream now d s = Run.ok s') :
    rosterIds s' = rosterIds s ∧ s'._cameraInfoRequest = s._cameraInfoRequest := by
  unfold _stepStream at h
  split at h
  · simp only at h
    split at h
    · cases h
    · cases h; exact ⟨rfl, rfl⟩
    · rename_i pCamera hcur
      cases h
      exact ⟨map_compID_set _ _ pCamera _ (currentCameraInstance_some _ _ hcur) rfl, rfl⟩
  · cases h; exact ⟨rfl, rfl⟩

theorem rosterInv_of_same (s s' : QGCCameraManager) (hinv : RosterInv s)
    (hids : rosterIds s' = rosterIds s)
    (hrec : s'._cameraInfoRequest = s._cameraInfoRequest) : RosterInv s' := by
  unfold RosterInv
  rw [hids, hrec]
  exact hinv

theorem mavlinkMessageReceived_rosterInv (v : Vehicle) (hv : v.keepsCompID) (now : Int)
    (message : mavlink_message_t) (s s' : QGCCameraManager)
    (h : _mavlinkMessageReceived v now message s = Run.ok s') (hinv : RosterInv s) :
    RosterInv s' := by
  unfold _mavlinkMessageReceived at h
  split at h
  · split at h
    case h_3 =>
      have hros := handleHeartbeat_roster v now message s s' h
      have hconf := handleHeartbeat_confirmed v now message s s' h
      have hids : rosterIds s' = rosterIds s := by unfold rosterIds; rw [hros.1]
      refine ⟨by rw [hids]; exact hinv.1, ?_⟩
      intro k hk
      rw [hids] at hk
      obtain ⟨r1, h1, hr1⟩ := hinv.2 k hk
      exact hconf k r1 h1 hr1
    case h_4 => exact handleCameraInfo_rosterInv v hv message s s' h hinv
    all_goals
      cases h
      first
        | exact rosterInv_of_same s _ hinv (forwardToCamera_rosterIds _ message s)
            (forwardToCamera_records _ message s)
        | exact hinv
  · cases h; exact hinv

theorem step_rosterInv (v : Vehicle) (hv : v.keepsCompID) (e : Event)
    (s s' : QGCCameraManager) (h : step v e s = Run.ok s') (hinv : RosterInv s) :
    RosterInv s' := by
  cases e with
  | mavlinkMessage now message =>
    exact mavlinkMessageReceived_rosterInv v hv now message s s' h hinv
  | cameraTimeout now => exact cameraTimeout_rosterInv now s s' h hinv
  | setCurrentCamera sel =>
    cases h
    exact rosterInv_of_same s _ hinv
      (by unfold rosterIds; rw [setCurrentCamera_cameras]) (setCurrentCamera_records sel s)
  | stepZoom now d =>
    have := stepZoom_rosterIds now d s s' h
    exact rosterInv_of_same s s' hinv this.1 this.2
  | stepCamera now d =>
    cases h
    exact rosterInv_of_same s _ hinv
      (by unfold rosterIds; rw [stepCamera_cameras]) (stepCamera_records now d s)
  | stepStream now d =>
    have := stepStream_rosterIds now d s s' h
    exact rosterInv_of_same s s' hinv this.1 this.2
  | vehicleReady ready isActive joystick =>
    cases h
    refine rosterInv_of_same s _ hinv ?_ (vehicleReady_records ready isActive joystick s)
    unfold rosterIds _vehicleReady _activeJoystickChanged
    split
    · split <;> rfl
    · rfl

theorem run_rosterInv (v : Vehicle) (hv : v.keepsCompID) (events : List Event) :
    ∀ (s s' : QGCCameraManager), run v events s = Run.ok s' → RosterInv s → RosterInv s' := by
  induction events with
  | nil =>
    intro s s' h hinv
    cases h
    exact hinv
  | cons e rest ih =>
    intro s s' h hinv
    unfold run at h
    cases hstep : step v e s with
    | halt hh => rw [hstep] at h; cases h
    | ok s1 =>
      rw [hstep] at h
      exact ih s1 s' h (step_rosterInv v hv e s s1 hstep hinv)

theorem testVehicle_keepsCompID : testVehicle.keepsCompID := by
  intro payload compid c h
  simp only [testVehicle] at h
  split at h
  · cases h
  · cases h; rfl

/-- C12: roster uniqueness.  With a factory that returns a camera whose `compID` is the
requested peer id, in every state reached from the initial state by messages (heartbeats,
info replies, camera-scoped messages), sweep ticks, `setCurrentCamera` calls, step events
and vehicle-ready notifications, no two Camera Instances of the roster have the same
peer id: the component ids of instances are pairwise distinct, so for all positions
`i < j` the entries at `i` and `j` differ in `compID`. -/
theorem roster_unique (v : Vehicle) (hv : v.keepsCompID) (t0 : Int) (events : List Event)
    (s : QGCCameraManager) (h : run v events (QGCCameraManager.init t0) = Run.ok s) :
    (s._cameras.map (fun c => c.compID)).Nodup
    ∧ ∀ (i j : Nat) (ci cj : QGCCameraControl), i < j → s._cameras[i]? = some ci →
        s._cameras[j]? = some cj → ci.compID ≠ cj.compID := by
  have hinv : RosterInv s := run_rosterInv v hv events _ s h
    ⟨by simp [rosterIds, QGCCameraManager.init],
     by simp [rosterIds, QGCCameraManager.init]⟩
  have hnd : (s._cameras.map (fun c => c.compID)).Nodup := hinv.1
  refine ⟨hnd, ?_⟩
  intro i j ci cj hij hi hj heq
  have hi' : (s._cameras.map (fun c => c.compID))[i]? = some ci.compID := by
    rw [List.getElem?_map, hi]; rfl
  have hj' : (s._cameras.map (fun c => c.compID))[j]? = some cj.compID := by
    rw [List.getElem?_map, hj]; rfl
  rw [← heq] at hj'
  have hilt : i < (s._cameras.map (fun c => c.compID)).length := by
    by_contra hge
    rw [List.getElem?_eq_none (by omega)] at hi'
    cases hi'
  have := List.getElem?_inj hilt hnd (hi'.trans hj'.symm)
  omega

/-- C12 at a concrete input: the roster reached by `confirmTwoEvents`. -/
theorem roster_unique_witness :
    run testVehicle confirmTwoEvents (QGCCameraManager.init 0) = Run.ok twoConfirmed
    ∧ (twoConfirmed._cameras.map (fun c => c.compID)).Nodup
    ∧ ∀ (i j : Nat) (ci cj : QGCCameraControl), i < j → twoConfirmed._cameras[i]? = some ci →
        twoConfirmed._cameras[j]? = some cj → ci.compID ≠ cj.compID :=
  ⟨by decide,
   roster_unique testVehicle testVehicle_keepsCompID 0 confirmTwoEvents twoConfirmed
     (by decide)⟩

/-! ## Behaviour of the code on the inputs where it departs from its documentation -/

/-- C13 on the failing input: three cameras of models A, B, A are confirmed (components 2,
3, 4) and the sweep evicts the third one.  The eviction looks the label up by model name
(line 222), removes the first label `"A"`, which is at the index of component 2, and
leaves labels `["B", "A"]` against a roster of models `["A", "B"]`: both sequences have
length 2, and at each index the label is not the model name of the camera. -/
theorem labels_misaligned_after_eviction :
    run modelVehicle sameModelEvents (QGCCameraManager.init 0) = Run.ok sameModelEvicted
    ∧ sameModelEvicted._cameras.map (fun c => c.modelName) = ["A", "B"]
    ∧ sameModelEvicted._cameraLabels = ["B", "A"]
    ∧ sameModelEvicted._cameraLabels.length = sameModelEvicted._cameras.length
    ∧ sameModelEvicted._cameraLabels[0]? ≠
        (sameModelEvicted._cameras[0]?).map (fun c => c.modelName)
    ∧ sameModelEvicted._cameraLabels[1]? ≠
        (sameModelEvicted._cameras[1]?).map (fun c => c.modelName) := by
  decide

/-- C17 on the failing input: component 7 sends a heartbeat every second from 0 to 5000
and its info reply arrives at 5100.  The record keeps the `lastHeartbeat` of its creation
(waiting-state heartbeats and the info reply do not restart it), so the sweep tick at 5500
evicts the camera 500 ms after the heartbeat received at 5000 and 400 ms after it was
confirmed. -/
theorem late_confirmed_camera_evicted :
    run testVehicle lateConfirmEvents (QGCCameraManager.init 0) = Run.ok lateConfirmed
    ∧ lateConfirmed._cameras = [mkCamera 7 "7"]
    ∧ Event.mavlinkMessage 5000 (heartbeatFrom 7) ∈ lateConfirmEvents
    ∧ (5500 : Int) - 5000 < 5000
    ∧ _cameraTimeout 5500 lateConfirmed = Run.ok lateConfirmedSwept
    ∧ lateConfirmedSwept._cameras = []
    ∧ InfoMap.contains lateConfirmedSwept._cameraInfoRequest 7 = false := by
  decide

/-- C19 on the failing input: component 7 sends a heartbeat and an info reply that the
factory rejects, then stays silent.  The record is InfoReceived (line 193 runs before the
factory is called) and no camera of component 7 is in the roster; at the sweep tick at
5500 the record is stale, `_findCamera(7)` returns null and line 221 dereferences it. -/
theorem sweep_dereferences_null_camera :
    run testVehicle rejectedThenSilentEvents (QGCCameraManager.init 0) = Run.ok rejectedSilent
    ∧ InfoMap.find rejectedSilent._cameraInfoRequest 7
        = some (some { lastHeartbeat := 0, infoReceived := true, gaveUp := false,
                       tryCount := 1 })
    ∧ _findCamera 7 rejectedSilent = none
    ∧ _cameraTimeout 5500 rejectedSilent = Run.halt Halt.nullDereference := by
  decide

/-- C20 on the failing input: after a heartbeat from component 7 the container holds the
key 7 only; the sweep tick at 500 reads `_cameraInfoRequest[i]` for `i = 0 .. 7` and leaves
null entries under the keys 0 to 6.  A heartbeat or an info reply from component 3, which
the manager has never heard from, then finds the key present and dereferences the null
pointer (lines 120 and 191). -/
theorem sweep_inserts_null_records :
    _handleHeartbeat testVehicle 0 (heartbeatFrom 7) readyManager = Run.ok awaitingInfo7
    ∧ InfoMap.keys awaitingInfo7._cameraInfoRequest = [7]
    ∧ _cameraTimeout 500 awaitingInfo7 = Run.ok awaitingInfo7Swept
    ∧ InfoMap.keys awaitingInfo7Swept._cameraInfoRequest = [7, 0, 1, 2, 3, 4, 5, 6]
    ∧ InfoMap.contains awaitingInfo7Swept._cameraInfoRequest 3 = true
    ∧ InfoMap.find awaitingInfo7Swept._cameraInfoRequest 3 = some none
    ∧ _handleHeartbeat testVehicle 1000 (heartbeatFrom 3) awaitingInfo7Swept
        = Run.halt Halt.nullDereference
    ∧ _handleCameraInfo testVehicle (infoFrom 3 [1]) awaitingInfo7Swept
        = Run.halt Halt.nullDereference := by
  decide

/-! ## Heartbeats, case by case -/

theorem handleHeartbeat_not_candidate (v : Vehicle) (now : Int) (message : mavlink_message_t)
    (s : QGCCameraManager) (h : ¬ isCandidate v message s) :
    _handleHeartbeat v now message s = Run.ok s := by
  unfold isCandidate at h
  unfold _handleHeartbeat
  rw [if_neg h]

theorem handleHeartbeat_unseen (v : Vehicle) (now : Int) (message : mavlink_message_t)
    (s : QGCCameraManager) (h : isCandidate v message s)
    (hf : InfoMap.find s._cameraInfoRequest message.compid = none) :
    _handleHeartbeat v now message s =
      Run.ok { s with
               _cameraInfoRequest :=
                 InfoMap.assign s._cameraInfoRequest message.compid
                   (some (CameraStruct.create now))
               sent := s.sent ++ [{ targetComponent := message.compid, showError := false,
                                    param1 := 1 }] } := by
  unfold isCandidate at h
  unfold _handleHeartbeat
  rw [if_pos h, if_pos (by rw [(InfoMap.contains_eq_false_iff _ _).mpr hf]; simp)]
  rfl

theorem handleHeartbeat_null (v : Vehicle) (now : Int) (message : mavlink_message_t)
    (s : QGCCameraManager) (h : isCandidate v message s)
    (hf : InfoMap.find s._cameraInfoRequest message.compid = some none) :
    _handleHeartbeat v now message s = Run.halt Halt.nullDereference := by
  unfold isCandidate at h
  unfold _handleHeartbeat
  rw [if_pos h, if_neg (by rw [(InfoMap.contains_eq_true_iff _ _).mpr ⟨_, hf⟩]; simp),
    InfoMap.subscript_of_find_some _ _ _ hf]

theorem handleHeartbeat_record (v : Vehicle) (now : Int) (message : mavlink_message_t)
    (s : QGCCameraManager) (r : CameraStruct) (h : isCandidate v message s)
    (hf : InfoMap.find s._cameraInfoRequest message.compid = some (some r)) :
    _handleHeartbeat v now message s =
      if r.infoReceived = true then
        Run.ok { s with _cameraInfoRequest :=
                          InfoMap.assign s._cameraInfoRequest message.compid
                            (some { r with lastHeartbeat := now }) }
      else if now - r.lastHeartbeat > 2000 then
        if r.tryCount > 3 then
          if ¬ (r.gaveUp = true) then
            Run.ok { s with _cameraInfoRequest :=
                              InfoMap.assign s._cameraInfoRequest message.compid
                                (some { r with gaveUp := true }) }
          else Run.ok s
        else
          Run.ok { s with
                   _cameraInfoRequest :=
                     InfoMap.assign s._cameraInfoRequest message.compid
                       (some { r with tryCount := r.tryCount + 1 })
                   sent := s.sent ++ [{ targetComponent := message.compid, showError := false,
                                        param1 := 1 }] }
      else Run.ok s := by
  unfold isCandidate at h
  unfold _handleHeartbeat
  rw [if_pos h, if_neg (by rw [(InfoMap.contains_eq_true_iff _ _).mpr ⟨_, hf⟩]; simp),
    InfoMap.subscript_of_find_some _ _ _ hf]
  rfl

theorem mavlinkMessageReceived_heartbeat (v : Vehicle) (now : Int)
    (message : mavlink_message_t) (s : QGCCameraManager)
    (hkind : message.msgid = MsgId.HEARTBEAT) :
    _mavlinkMessageReceived v now message s = _handleHeartbeat v now message s := by
  unfold _mavlinkMessageReceived
  rw [hkind]
  split
  · rfl
  · rename_i hsys
    have hnc : ¬ isCandidate v message s := fun hc => hsys hc.2.1.symm
    rw [handleHeartbeat_not_candidate v now message s hnc]

theorem mavlinkMessageReceived_info (v : Vehicle) (now : Int)
    (message : mavlink_message_t) (s : QGCCameraManager)
    (hsys : message.sysid = v.id) (hkind : message.msgid = MsgId.CAMERA_INFORMATION) :
    _mavlinkMessageReceived v now message s = _handleCameraInfo v message s := by
  unfold _mavlinkMessageReceived
  rw [if_pos hsys, hkind]

/-- The part of the heartbeat gating that holds in every state.  A heartbeat received
before the vehicle is ready, from the default component or from another system leaves the
whole state unchanged, so it creates no discovery record, changes no record and emits no
command.  A candidate heartbeat for a component whose key is absent from the container
creates the record (not InfoReceived, not given up, `tryCount = 1`, `lastHeartbeat = now`)
and emits exactly one info request, addressed to that component.  The vehicle-ready state
is not set in the initial state and is set by a vehicle-ready notification only when the
vehicle is ready and is the active one.  The key of a component that was never heard from
can be present all the same, with a null entry left by the sweep: that case is
`handleHeartbeat_null`. -/
theorem handleHeartbeat_gating (v : Vehicle) (now : Int) (message : mavlink_message_t)
    (s : QGCCameraManager) :
    ((s._vehicleReadyState = false ∨ message.compid = v.defaultComponentId
        ∨ message.sysid ≠ v.id) →
      _handleHeartbeat v now message s = Run.ok s
      ∧ (message.msgid = MsgId.HEARTBEAT → _mavlinkMessageReceived v now message s = Run.ok s))
    ∧ (s._vehicleReadyState = true → message.sysid = v.id →
        message.compid ≠ v.defaultComponentId →
        InfoMap.contains s._cameraInfoRequest message.compid = false →
        ∃ s', _handleHeartbeat v now message s = Run.ok s'
          ∧ s' = { s with
                   _cameraInfoRequest :=
                     InfoMap.assign s._cameraInfoRequest message.compid
                       (some { lastHeartbeat := now, infoReceived := false, gaveUp := false,
                               tryCount := 1 })
                   sent := s.sent ++ [{ targetComponent := message.compid,
                                        showError := false, param1 := 1 }] }
          ∧ InfoMap.find s'._cameraInfoRequest message.compid
              = some (some { lastHeartbeat := now, infoReceived := false, gaveUp := false,
                             tryCount := 1 })
          ∧ (∀ k, k ≠ message.compid →
              InfoMap.find s'._cameraInfoRequest k = InfoMap.find s._cameraInfoRequest k))
    ∧ (∀ t0, (QGCCameraManager.init t0)._vehicleReadyState = false)
    ∧ (∀ ready isActive joystick,
        (ready = true ∧ isActive = true →
          (_vehicleReady ready isActive joystick s)._vehicleReadyState = true)
        ∧ (¬ (ready = true ∧ isActive = true) →
          _vehicleReady ready isActive joystick s = s)) := by
  refine ⟨?_, ?_, fun _ => rfl, ?_⟩
  · intro hcases
    have hnc : ¬ isCandidate v message s := by
      rintro ⟨h1, h2, h3⟩
      rcases hcases with h | h | h
      · rw [h1] at h; cases h
      · exact h3 h.symm
      · exact h h2.symm
    have hhb := handleHeartbeat_not_candidate v now message s hnc
    exact ⟨hhb, fun hkind => by rw [mavlinkMessageReceived_heartbeat v now message s hkind, hhb]⟩
  · intro hready hsys hcomp hunseen
    have hc : isCandidate v message s := ⟨hready, hsys.symm, fun h => hcomp h.symm⟩
    have hf := (InfoMap.contains_eq_false_iff _ _).mp hunseen
    refine ⟨_, handleHeartbeat_unseen v now message s hc hf, rfl,
      InfoMap.find_assign_same _ _ _, ?_⟩
    intro k hk
    exact InfoMap.find_assign_other _ _ _ _ hk
  · intro ready isActive joystick
    constructor
    · rintro ⟨hr, ha⟩
      subst hr
      subst ha
      rfl
    · intro hn
      unfold _vehicleReady
      cases ready
      · rfl
      · cases isActive
        · rfl
        · exact absurd ⟨rfl, rfl⟩ hn

/-- The gating at concrete inputs: before the vehicle is ready a heartbeat from component 7
changes nothing; once it is ready the first heartbeat from component 7 creates the record
and sends one request. -/
theorem handleHeartbeat_gating_example :
    _handleHeartbeat testVehicle 0 (heartbeatFrom 7) (QGCCameraManager.init 0)
      = Run.ok (QGCCameraManager.init 0)
    ∧ _handleHeartbeat testVehicle 0 (heartbeatFrom 1) readyManager = Run.ok readyManager
    ∧ ∃ s', _handleHeartbeat testVehicle 0 (heartbeatFrom 7) readyManager = Run.ok s'
      ∧ s' = awaitingInfo7 :=
  ⟨((handleHeartbeat_gating testVehicle 0 (heartbeatFrom 7) (QGCCameraManager.init 0)).1
      (Or.inl rfl)).1,
   ((handleHeartbeat_gating testVehicle 0 (heartbeatFrom 1) readyManager).1
      (Or.inr (Or.inl rfl))).1,
   by
    obtain ⟨s', h1, h2, -⟩ := (handleHeartbeat_gating testVehicle 0 (heartbeatFrom 7)
      readyManager).2.1 rfl rfl (by decide) (by decide)
    exact ⟨s', h1, h2.trans (by decide)⟩⟩

/-- C14 on the failing input: the camera of component 5 is discovered and confirmed, and
component 2 has sent nothing.  Without a sweep tick in between, the first heartbeat from
component 2 at 1000 creates its record (not InfoReceived, `lastHeartbeat = 1000`) and emits
one info request addressed to it.  After the sweep tick at 500, which reads
`_cameraInfoRequest[i]` for `i = 0 .. 5` and leaves null entries under the keys 0 to 4, the
same heartbeat is still a candidate (vehicle ready, tracked vehicle, not the default
component) from a component without record, yet line 112 finds the key present and line 120
dereferences the null entry: no record is created and no request is emitted. -/
theorem first_heartbeat_dereferences_null :
    run testVehicle (confirmFiveEvents ++ [Event.mavlinkMessage 1000 (heartbeatFrom 2)])
        (QGCCameraManager.init 0) = Run.ok confirmedFiveHeardTwo
    ∧ InfoMap.find confirmedFiveHeardTwo._cameraInfoRequest 2
        = some (some { lastHeartbeat := 1000, infoReceived := false, gaveUp := false,
                       tryCount := 1 })
    ∧ requestsTo 2 confirmedFiveHeardTwo = 1
    ∧ run testVehicle (confirmFiveEvents ++ [Event.cameraTimeout 500])
        (QGCCameraManager.init 0) = Run.ok confirmedFiveSwept
    ∧ confirmedFiveSwept._vehicleReadyState = true
    ∧ (heartbeatFrom 2).sysid = testVehicle.id
    ∧ (heartbeatFrom 2).compid ≠ testVehicle.defaultComponentId
    ∧ InfoMap.find confirmedFiveSwept._cameraInfoRequest 2 = some none
    ∧ requestsTo 2 confirmedFiveSwept = 0
    ∧ _handleHeartbeat testVehicle 1000 (heartbeatFrom 2) confirmedFiveSwept
        = Run.halt Halt.nullDereference
    ∧ run testVehicle
        (confirmFiveEvents ++
          [Event.cameraTimeout 500, Event.mavlinkMessage 1000 (heartbeatFrom 2)])
        (QGCCameraManager.init 0) = Run.halt Halt.nullDereference := by
  decide

/-- C16: waiting-state retry rule.  For a record that is still waiting for info
(`infoReceived` false) and a candidate heartbeat from that peer at instant `now`: if at
most 2000 ms have elapsed since `lastHeartbeat` the state is unchanged and nothing is
emitted; if more than 2000 ms have elapsed and `tryCount <= 3`, exactly one info request is
emitted to the peer, `tryCount` is incremented by one and `lastHeartbeat` is left
unchanged, so that the elapsed-time test holds again at every later instant; if more than
2000 ms have elapsed and `tryCount > 3`, `gaveUp` is set when it was not, and nothing else
changes. -/
theorem waiting_retry_rule (v : Vehicle) (now : Int) (message : mavlink_message_t)
    (s : QGCCameraManager) (r : CameraStruct) (hc : isCandidate v message s)
    (hf : InfoMap.find s._cameraInfoRequest message.compid = some (some r))
    (hw : r.infoReceived = false) :
    (now - r.lastHeartbeat ≤ 2000 → _handleHeartbeat v now message s = Run.ok s)
    ∧ (now - r.lastHeartbeat > 2000 → r.tryCount ≤ 3 →
        _handleHeartbeat v now message s =
          Run.ok { s with
                   _cameraInfoRequest :=
                     InfoMap.assign s._cameraInfoRequest message.compid
                       (some { lastHeartbeat := r.lastHeartbeat, infoReceived := false,
                               gaveUp := r.gaveUp, tryCount := r.tryCount + 1 })
                   sent := s.sent ++ [{ targetComponent := message.compid,
                                        showError := false, param1 := 1 }] }
        ∧ ∀ later, now ≤ later → later - r.lastHeartbeat > 2000)
    ∧ (now - r.lastHeartbeat > 2000 → r.tryCount > 3 → r.gaveUp = false →
        _handleHeartbeat v now message s =
          Run.ok { s with
                   _cameraInfoRequest :=
                     InfoMap.assign s._cameraInfoRequest message.compid
                       (some { lastHeartbeat := r.lastHeartbeat, infoReceived := false,
                               gaveUp := true, tryCount := r.tryCount }) })
    ∧ (now - r.lastHeartbeat > 2000 → r.tryCount > 3 → r.gaveUp = true →
        _handleHeartbeat v now message s = Run.ok s) := by
  have hrec := handleHeartbeat_record v now message s r hc hf
  have hnr : ¬ (r.infoReceived = true) := by rw [hw]; simp
  rw [if_neg hnr] at hrec
  refine ⟨?_, ?_, ?_, ?_⟩
  · intro hle
    rw [hrec, if_neg (by omega)]
  · intro hgt hle
    refine ⟨?_, fun later hl => by omega⟩
    rw [hrec, if_pos hgt, if_neg (by omega), ← hw]
  · intro hgt htc hg
    have hng : ¬ (r.gaveUp = true) := by rw [hg]; simp
    rw [hrec, if_pos hgt, if_pos htc, if_pos hng, ← hw]
  · intro hgt htc hg
    have hng : ¬ ¬ (r.gaveUp = true) := fun h => h hg
    rw [hrec, if_pos hgt, if_pos htc, if_neg hng]

/-- C16 at a concrete input: in `awaitingInfo7` (record created at 0, `tryCount = 1`) a
heartbeat at 1500 changes nothing and a heartbeat at 2500 sends the second request. -/
theorem waiting_retry_rule_witness :
    _handleHeartbeat testVehicle 1500 (heartbeatFrom 7) awaitingInfo7 = Run.ok awaitingInfo7
    ∧ _handleHeartbeat testVehicle 2500 (heartbeatFrom 7) awaitingInfo7 =
        Run.ok { awaitingInfo7 with
                 _cameraInfoRequest :=
                   InfoMap.assign awaitingInfo7._cameraInfoRequest (heartbeatFrom 7).compid
                     (some { lastHeartbeat := (CameraStruct.create 0).lastHeartbeat,
                             infoReceived := false,
                             gaveUp := (CameraStruct.create 0).gaveUp,
                             tryCount := (CameraStruct.create 0).tryCount + 1 })
                 sent := awaitingInfo7.sent ++ [{ targetComponent := (heartbeatFrom 7).compid,
                                                  showError := false, param1 := 1 }] } :=
  ⟨(waiting_retry_rule testVehicle 1500 (heartbeatFrom 7) awaitingInfo7
      (CameraStruct.create 0) ⟨rfl, rfl, by decide⟩ (by decide) rfl).1 (by decide),
   ((waiting_retry_rule testVehicle 2500 (heartbeatFrom 7) awaitingInfo7
      (CameraStruct.create 0) ⟨rfl, rfl, by decide⟩ (by decide) rfl).2.1 (by decide) (by decide)).1⟩

/-! ## The discovery scenario -/

theorem requestsTo_sent (p : Nat) (s : QGCCameraManager) (l : List MavCommand)
    (h : s.sent = l) :
    requestsTo p s = (l.filter (fun c => decide (c.targetComponent = p))).length := by
  unfold requestsTo
  rw [h]

/-- C15: discovery scenario.  From the initial state made ready, for every peer `p` other
than the default component and a factory that accepts the payload and builds the camera
`c` of `p`: a heartbeat from `p` at `t = 0` creates the record and emits request #1; the
next heartbeat from `p`, at an instant `t1` after the 2000 ms window has elapsed, emits
request #2 (two requests in total, the roster still empty); the info reply from `p` at
`t = 2100` makes the record InfoReceived, the roster is exactly `[c]` with its label,
`currentIndex == 0` and `currentCameraInstance()` is `c`. -/
theorem discovery_scenario (v : Vehicle) (p : Nat) (payload : List Nat)
    (c : QGCCameraControl) (t0 t1 : Int) (joystick : Option Nat)
    (hp : p ≠ v.defaultComponentId)
    (hfactory : v.createCameraControl payload p = some c) (hc : c.compID = p)
    (ht1 : t1 - 0 > 2000) :
    ∃ s1 s2 s3,
      step v (Event.mavlinkMessage 0 (heartbeatOf v p))
          (_vehicleReady true true joystick (QGCCameraManager.init t0)) = Run.ok s1
      ∧ InfoMap.find s1._cameraInfoRequest p
          = some (some { lastHeartbeat := 0, infoReceived := false, gaveUp := false,
                         tryCount := 1 })
      ∧ s1.sent = [{ targetComponent := p, showError := false, param1 := 1 }]
      ∧ step v (Event.mavlinkMessage t1 (heartbeatOf v p)) s1 = Run.ok s2
      ∧ s2.sent = [{ targetComponent := p, showError := false, param1 := 1 },
                   { targetComponent := p, showError := false, param1 := 1 }]
      ∧ requestsTo p s2 = 2
      ∧ s2._cameras = []
      ∧ step v (Event.mavlinkMessage 2100 (infoOf v p payload)) s2 = Run.ok s3
      ∧ InfoMap.find s3._cameraInfoRequest p
          = some (some { lastHeartbeat := 0, infoReceived := true, gaveUp := false,
                         tryCount := 2 })
      ∧ s3._cameras = [c]
      ∧ s3._cameraLabels = [c.modelName]
      ∧ _findCamera p s3 = some c
      ∧ s3._currentCamera = 0
      ∧ currentCameraInstance s3 = Run.ok (some c)
      ∧ requestsTo p s3 = 2 := by
  have hcand : ∀ s : QGCCameraManager, s._vehicleReadyState = true →
      isCandidate v (heartbeatOf v p) s :=
    fun s hs => ⟨hs, rfl, fun h => hp h.symm⟩
  have e1 : step v (Event.mavlinkMessage 0 (heartbeatOf v p))
      (_vehicleReady true true joystick (QGCCameraManager.init t0))
      = Run.ok { _vehicleReady true true joystick (QGCCameraManager.init t0) with
                 _cameraInfoRequest :=
                   [(p, some { lastHeartbeat := 0, infoReceived := false, gaveUp := false,
                               tryCount := 1 })]
                 sent := [{ targetComponent := p, showError := false, param1 := 1 }] } := by
    show _mavlinkMessageReceived v 0 (heartbeatOf v p) _ = _
    rw [mavlinkMessageReceived_heartbeat _ _ _ _ rfl,
      handleHeartbeat_unseen v 0 (heartbeatOf v p)
        (_vehicleReady true true joystick (QGCCameraManager.init t0)) (hcand _ rfl) rfl]
    rfl
  have e2 : step v (Event.mavlinkMessage t1 (heartbeatOf v p))
      { _vehicleReady true true joystick (QGCCameraManager.init t0) with
        _cameraInfoRequest :=
          [(p, some { lastHeartbeat := 0, infoReceived := false, gaveUp := false,
                      tryCount := 1 })]
        sent := [{ targetComponent := p, showError := false, param1 := 1 }] }
      = Run.ok { _vehicleReady true true joystick (QGCCameraManager.init t0) with
                 _cameraInfoRequest :=
                   [(p, some { lastHeartbeat := 0, infoReceived := false, gaveUp := false,
                               tryCount := 2 })]
                 sent := [{ targetComponent := p, showError := false, param1 := 1 },
                          { targetComponent := p, showError := false, param1 := 1 }] } := by
    show _mavlinkMessageReceived v t1 (heartbeatOf v p) _ = _
    rw [mavlinkMessageReceived_heartbeat _ _ _ _ rfl,
      handleHeartbeat_record v t1 (heartbeatOf v p)
        { _vehicleReady true true joystick (QGCCameraManager.init t0) with
          _cameraInfoRequest :=
            [(p, some { lastHeartbeat := 0, infoReceived := false, gaveUp := false,
                        tryCount := 1 })]
          sent := [{ targetComponent := p, showError := false, param1 := 1 }] }
        { lastHeartbeat := 0, infoReceived := false, gaveUp := false, tryCount := 1 }
        (hcand _ rfl) (by simp [InfoMap.find, heartbeatOf])]
    rw [if_neg (by simp), if_pos (by simpa using ht1), if_neg (by simp)]
    simp [InfoMap.assign, heartbeatOf]
  have e3 : step v (Event.mavlinkMessage 2100 (infoOf v p payload))
      { _vehicleReady true true joystick (QGCCameraManager.init t0) with
        _cameraInfoRequest :=
          [(p, some { lastHeartbeat := 0, infoReceived := false, gaveUp := false,
                      tryCount := 2 })]
        sent := [{ targetComponent := p, showError := false, param1 := 1 },
                 { targetComponent := p, showError := false, param1 := 1 }] }
      = Run.ok { _vehicleReady true true joystick (QGCCameraManager.init t0) with
                 _cameras := [c]
                 _cameraLabels := [c.modelName]
                 _cameraInfoRequest :=
                   [(p, some { lastHeartbeat := 0, infoReceived := true, gaveUp := false,
                               tryCount := 2 })]
                 sent := [{ targetComponent := p, showError := false, param1 := 1 },
                          { targetComponent := p, showError := false, param1 := 1 }]
                 emitted := [Signal.camerasChanged, Signal.cameraLabelsChanged] } := by
    show _mavlinkMessageReceived v 2100 (infoOf v p payload) _ = _
    rw [mavlinkMessageReceived_info _ _ _ _ rfl rfl,
      handleCameraInfo_waiting v (infoOf v p payload)
        { _vehicleReady true true joystick (QGCCameraManager.init t0) with
          _cameraInfoRequest :=
            [(p, some { lastHeartbeat := 0, infoReceived := false, gaveUp := false,
                        tryCount := 2 })]
          sent := [{ targetComponent := p, showError := false, param1 := 1 },
                   { targetComponent := p, showError := false, param1 := 1 }] }
        { lastHeartbeat := 0, infoReceived := false, gaveUp := false, tryCount := 2 }
        (by simp [InfoMap.find, infoOf]) rfl]
    have hfactory' : v.createCameraControl (infoOf v p payload).payload
        (infoOf v p payload).compid = some c := hfactory
    rw [hfactory']
    simp [InfoMap.assign, infoOf, _vehicleReady, _activeJoystickChanged,
      QGCCameraManager.init]
  refine ⟨_, _, _, e1, ?_, rfl, e2, rfl, ?_, rfl, e3, ?_, rfl, rfl, ?_, rfl, ?_, ?_⟩
  · simp [InfoMap.find]
  · simp [requestsTo]
  · simp [InfoMap.find]
  · simp [_findCamera, hc]
  · simp [currentCameraInstance, _vehicleReady, _activeJoystickChanged,
      QGCCameraManager.init]
  · simp [requestsTo]

/-- C15 at the input of the spec: peer 7 of the test vehicle, second heartbeat at 2050. -/
theorem discovery_scenario_witness :
    ∃ s1 s2 s3,
      step testVehicle (Event.mavlinkMessage 0 (heartbeatOf testVehicle 7))
          (_vehicleReady true true none (QGCCameraManager.init 0)) = Run.ok s1
      ∧ InfoMap.find s1._cameraInfoRequest 7
          = some (some { lastHeartbeat := 0, infoReceived := false, gaveUp := false,
                         tryCount := 1 })
      ∧ s1.sent = [{ targetComponent := 7, showError := false, param1 := 1 }]
      ∧ step testVehicle (Event.mavlinkMessage 2050 (heartbeatOf testVehicle 7)) s1 = Run.ok s2
      ∧ s2.sent = [{ targetComponent := 7, showError := false, param1 := 1 },
                   { targetComponent := 7, showError := false, param1 := 1 }]
      ∧ requestsTo 7 s2 = 2
      ∧ s2._cameras = []
      ∧ step testVehicle (Event.mavlinkMessage 2100 (infoOf testVehicle 7 [1])) s2 = Run.ok s3
      ∧ InfoMap.find s3._cameraInfoRequest 7
          = some (some { lastHeartbeat := 0, infoReceived := true, gaveUp := false,
                         tryCount := 2 })
      ∧ s3._cameras = [mkCamera 7 "7"]
      ∧ s3._cameraLabels = [(mkCamera 7 "7").modelName]
      ∧ _findCamera 7 s3 = some (mkCamera 7 "7")
      ∧ s3._currentCamera = 0
      ∧ currentCameraInstance s3 = Run.ok (some (mkCamera 7 "7"))
      ∧ requestsTo 7 s3 = 2 :=
  discovery_scenario testVehicle 7 [1] (mkCamera 7 "7") 0 2050 none (by decide) (by decide)
    rfl (by decide)

/-! ## Shared debounce of camera and stream steps -/

theorem stepStream_rejected (now d : Int) (s : QGCCameraManager)
    (h : ¬ (now - s._lastCameraChange > 1000)) : _stepStream now d s = Run.ok s := by
  unfold _stepStream
  rw [if_neg h]

theorem stepZoom_rejected (now d : Int) (s : QGCCameraManager)
    (h : ¬ (now - s._lastZoomChange > 250)) : _stepZoom now d s = Run.ok s := by
  unfold _stepZoom
  rw [if_neg h]

theorem stepStream_accepted (now d : Int) (s s1 : QGCCameraManager)
    (hacc : now - s._lastCameraChange > 1000) (h : _stepStream now d s = Run.ok s1) :
    s1._lastCameraChange = now ∧ s1._lastZoomChange = s._lastZoomChange
      ∧ s1._currentCamera = s._currentCamera := by
  unfold _stepStream at h
  rw [if_pos hacc] at h
  simp only at h
  split at h
  · cases h
  · cases h; exact ⟨rfl, rfl, rfl⟩
  · cases h; exact ⟨rfl, rfl, rfl⟩

theorem stepZoom_accepted (now d : Int) (s s1 : QGCCameraManager)
    (hacc : now - s._lastZoomChange > 250) (h : _stepZoom now d s = Run.ok s1) :
    s1._lastZoomChange = now ∧ s1._lastCameraChange = s._lastCameraChange
      ∧ s1._currentCamera = s._currentCamera := by
  unfold _stepZoom at h
  rw [if_pos hacc] at h
  simp only at h
  split at h
  · cases h
  · cases h; exact ⟨rfl, rfl, rfl⟩
  · cases h; exact ⟨rfl, rfl, rfl⟩

theorem stepZoom_timestamps (now d : Int) (s s1 : QGCCameraManager)
    (h : _stepZoom now d s = Run.ok s1) : s1._lastCameraChange = s._lastCameraChange := by
  by_cases hacc : now - s._lastZoomChange > 250
  · exact (stepZoom_accepted now d s s1 hacc h).2.1
  · rw [stepZoom_rejected now d s hacc] at h
    cases h
    rfl

theorem stepStream_timestamps (now d : Int) (s s1 : QGCCameraManager)
    (h : _stepStream now d s = Run.ok s1) : s1._lastZoomChange = s._lastZoomChange := by
  by_cases hacc : now - s._lastCameraChange > 1000
  · exact (stepStream_accepted now d s s1 hacc h).2.1
  · rw [stepStream_rejected now d s hacc] at h
    cases h
    rfl

theorem stepCamera_zoomTimestamp (now d : Int) (s : QGCCameraManager) :
    (_stepCamera now d s)._lastZoomChange = s._lastZoomChange := by
  unfold _stepCamera setCurrentCamera
  split
  · simp only
    split <;> rfl
  · rfl

theorem stepCamera_timestamp (now d : Int) (s : QGCCameraManager)
    (hacc : now - s._lastCameraChange > 1000) :
    (_stepCamera now d s)._lastCameraChange = now := by
  rw [stepCamera_accepted now d s hacc]
  unfold setCurrentCamera
  split <;> rfl

theorem currentCameraInstance_total (s : QGCCameraManager) (h : 0 ≤ s._currentCamera) :
    ∃ r, currentCameraInstance s = Run.ok r := by
  unfold currentCameraInstance
  split
  · rw [if_neg (by omega)]
    exact ⟨_, rfl⟩
  · exact ⟨_, rfl⟩

theorem stepStream_total (now d : Int) (s : QGCCameraManager) (h : 0 ≤ s._currentCamera) :
    ∃ s1, _stepStream now d s = Run.ok s1 := by
  unfold _stepStream
  split
  · simp only
    obtain ⟨r, hr⟩ := currentCameraInstance_total { s with _lastCameraChange := now } h
    rw [hr]
    cases r <;> exact ⟨_, rfl⟩
  · exact ⟨_, rfl⟩

theorem stepZoom_total (now d : Int) (s : QGCCameraManager) (h : 0 ≤ s._currentCamera) :
    ∃ s1, _stepZoom now d s = Run.ok s1 := by
  unfold _stepZoom
  split
  · simp only
    obtain ⟨r, hr⟩ := currentCameraInstance_total { s with _lastZoomChange := now } h
    rw [hr]
    cases r <;> exact ⟨_, rfl⟩
  · exact ⟨_, rfl⟩

/-- C18: shared camera/stream debounce.  Camera stepping and stream stepping use the one
timestamp `_lastCameraChange`: in every state, a stream-step event arriving at most
1000 ms after an accepted camera-step event is dropped (the whole state, so the stream
selection of the current camera, is unchanged), and a camera-step event arriving at most
1000 ms after an accepted stream-step event is dropped (the whole state, so
`currentIndex`, is unchanged).  Zoom stepping uses the separate timestamp
`_lastZoomChange` with a 250 ms window: a zoom step is accepted exactly when more than
250 ms have elapsed since `_lastZoomChange`, camera and stream steps leave
`_lastZoomChange` unchanged and zoom steps leave `_lastCameraChange` unchanged.  Stream and
zoom steps complete whenever `currentIndex` is not negative. -/
theorem shared_debounce (s : QGCCameraManager) (t t' d d' : Int) :
    (t - s._lastCameraChange > 1000 → t' - t ≤ 1000 →
      _stepStream t' d' (_stepCamera t d s) = Run.ok (_stepCamera t d s))
    ∧ (∀ s1, t - s._lastCameraChange > 1000 → _stepStream t d s = Run.ok s1 →
        t' - t ≤ 1000 → _stepCamera t' d' s1 = s1)
    ∧ (_stepCamera t d s)._lastZoomChange = s._lastZoomChange
    ∧ (∀ s1, _stepStream t d s = Run.ok s1 → s1._lastZoomChange = s._lastZoomChange)
    ∧ (∀ s1, _stepZoom t d s = Run.ok s1 → s1._lastCameraChange = s._lastCameraChange)
    ∧ (¬ (t - s._lastZoomChange > 250) → _stepZoom t d s = Run.ok s)
    ∧ (∀ s1, t - s._lastZoomChange > 250 → _stepZoom t d s = Run.ok s1 →
        s1._lastZoomChange = t)
    ∧ (0 ≤ s._currentCamera →
        (∃ s1, _stepStream t d s = Run.ok s1) ∧ (∃ s1, _stepZoom t d s = Run.ok s1)) := by
  refine ⟨?_, ?_, stepCamera_zoomTimestamp t d s, ?_, ?_, stepZoom_rejected t d s, ?_, ?_⟩
  · intro hacc hle
    apply stepStream_rejected
    rw [stepCamera_timestamp t d s hacc]
    omega
  · intro s1 hacc h hle
    apply stepCamera_rejected
    rw [(stepStream_accepted t d s s1 hacc h).1]
    omega
  · exact fun s1 h => stepStream_timestamps t d s s1 h
  · exact fun s1 h => stepZoom_timestamps t d s s1 h
  · exact fun s1 hacc h => (stepZoom_accepted t d s s1 hacc h).1
  · exact fun h => ⟨stepStream_total t d s h, stepZoom_total t d s h⟩

/-- C18 at concrete inputs: on the roster of three cameras with both timestamps at 0, a
camera step accepted at 1500 blocks the stream step at 2000, and a zoom step at 2000 is
still accepted. -/
theorem shared_debounce_witness :
    _stepStream 2000 1 (_stepCamera 1500 1 threeCameras)
      = Run.ok (_stepCamera 1500 1 threeCameras)
    ∧ (_stepCamera 1500 1 threeCameras)._lastZoomChange = threeCameras._lastZoomChange
    ∧ ∃ s1, _stepZoom 2000 1 (_stepCamera 1500 1 threeCameras) = Run.ok s1
      ∧ s1._lastZoomChange = 2000 := by
  have h := shared_debounce threeCameras 1500 2000 1 1
  refine ⟨h.1 (by decide) (by decide), h.2.2.1, ?_⟩
  have hz := shared_debounce (_stepCamera 1500 1 threeCameras) 2000 2000 1 1
  obtain ⟨s1, hs1⟩ := (hz.2.2.2.2.2.2.2 (by decide)).2
  exact ⟨s1, hs1, hz.2.2.2.2.2.2.1 s1 (by decide) hs1⟩

end QGC
